import Mathlib

/-!
# rom-properties: WiiWAD and PSP format handlers, shell image extractor

A shallow embedding of `src/libromdata/Console/WiiWAD.cpp`,
`src/libromdata/Handheld/PSP.cpp` and the method `Load` of
`src/win32/RP_ExtractImage.cpp`.

Conventions of the embedding:

* bytes are natural numbers, read modulo 256; `uint32_t` / `unsigned int`
  values are natural numbers reduced modulo `2^32` after every operation;
* a C pointer that may be null is an `Option`;
* a function that may dereference a null pointer or read past the end of a
  buffer returns an `Option`, `none` standing for the undefined behaviour;
* `assert()` is compiled out (`NDEBUG`), so the explicit guards that follow
  each assertion decide the result.
-/

set_option linter.dupNamespace false

namespace LibRomData

/-! ## Machine arithmetic -/

/-- Number of values of a `uint32_t`. -/
def U32 : Nat := 2 ^ 32

/-- Modelled from the spec: the macro `be32_to_cpu(field)` of `byteswap.h` (missing)
applied to a struct member, "big/little-endian multi-byte integers": the
big-endian decoding of the four bytes of the field. -/
def be32_to_cpu (raw : List Nat) : Nat :=
  (raw.getD 0 0 % 256) * 2 ^ 24 + (raw.getD 1 0 % 256) * 2 ^ 16 +
    (raw.getD 2 0 % 256) * 2 ^ 8 + raw.getD 3 0 % 256

/-- Modelled from the spec: the macro `cpu_to_be32(v)` of `byteswap.h` (missing):
the four bytes a `uint32_t` value has in a big-endian field. -/
def cpu_to_be32 (v : Nat) : List Nat :=
  [v % U32 / 2 ^ 24 % 256, v % U32 / 2 ^ 16 % 256, v % U32 / 2 ^ 8 % 256, v % U32 % 256]

/-- The bytes of a buffer as the machine sees them (each reduced modulo 256). -/
def asBytes (raw : List Nat) : List Nat := raw.map (· % 256)

/-- Read `n` bytes at offset `off` of a buffer; `none` when the buffer is too short
(the read would run past the end of the allocation). -/
def readBytes (buf : List Nat) (off n : Nat) : Option (List Nat) :=
  if off + n ≤ buf.length then some ((buf.drop off).take n) else none

namespace WiiWADPrivate

/-- The template `toNext64<T>` at `T = uint32_t`:
`(val + (T)63) & ~((T)63)`, the sum wrapping modulo `2^32`. -/
def toNext64 (val : Nat) : Nat :=
  ((val + 63) % U32) &&& (U32 - 1 - 63)

end WiiWADPrivate

/-! ## On-disk layouts

`wii_wad.h`, `wii_structs.h` and `RomData.hpp` are not among the sources, so the
sizes, member offsets and constants the handler takes from them are parameters. -/

/-- The constants `WiiWAD.cpp` takes from `wii_wad.h` and `wii_structs.h`:
`sizeof` of the four structs, the three `WII_WAD_TYPE_*` values, and the byte
offsets of the struct members the handler reads. -/
structure WiiLayout where
  sizeof_Wii_WAD_Header : Nat
  sizeof_RVL_Ticket : Nat
  sizeof_RVL_TMD_Header : Nat
  sizeof_Wii_Content_Bin_Header : Nat
  WII_WAD_TYPE_Is : Nat
  WII_WAD_TYPE_ib : Nat
  WII_WAD_TYPE_Bk : Nat
  /-- Offset of `Wii_WAD_Header::header_size`. -/
  off_header_size : Nat
  /-- Offset of `Wii_WAD_Header::type`. -/
  off_type : Nat
  /-- Offset of `Wii_WAD_Header::cert_chain_size`. -/
  off_cert_chain_size : Nat
  /-- Offset of `Wii_WAD_Header::ticket_size`. -/
  off_ticket_size : Nat
  /-- Offset of `Wii_WAD_Header::tmd_size`. -/
  off_tmd_size : Nat
  /-- Offset of `Wii_WAD_Header::data_size`. -/
  off_data_size : Nat
  /-- Offset of `RVL_Ticket::enc_title_key` (16 bytes). -/
  off_enc_title_key : Nat
  /-- Offset of `RVL_Ticket::title_id` (8 bytes). -/
  off_ticket_title_id : Nat
  /-- Offset of `RVL_TMD_Header::sys_version` (8 bytes: `hi`, `lo`). -/
  off_sys_version : Nat
  /-- Offset of `RVL_TMD_Header::title_id` (8 bytes: `hi`, `lo`, also `u8[8]`). -/
  off_tmd_title_id : Nat

/-- A layout is well formed when the structs hold their members and the
constants are `uint32_t` values. -/
def WiiLayout.WellFormed (L : WiiLayout) : Prop :=
  L.sizeof_Wii_WAD_Header < U32 ∧
  L.WII_WAD_TYPE_Is < U32 ∧ L.WII_WAD_TYPE_ib < U32 ∧ L.WII_WAD_TYPE_Bk < U32 ∧
  L.off_header_size + 4 ≤ L.sizeof_Wii_WAD_Header ∧
  L.off_type + 4 ≤ L.sizeof_Wii_WAD_Header ∧
  L.off_cert_chain_size + 4 ≤ L.sizeof_Wii_WAD_Header ∧
  L.off_ticket_size + 4 ≤ L.sizeof_Wii_WAD_Header ∧
  L.off_tmd_size + 4 ≤ L.sizeof_Wii_WAD_Header ∧
  L.off_data_size + 4 ≤ L.sizeof_Wii_WAD_Header ∧
  L.off_enc_title_key + 16 ≤ L.sizeof_RVL_Ticket ∧
  L.off_ticket_title_id + 8 ≤ L.sizeof_RVL_Ticket ∧
  L.off_sys_version + 8 ≤ L.sizeof_RVL_TMD_Header ∧
  L.off_tmd_title_id + 8 ≤ L.sizeof_RVL_TMD_Header

instance (L : WiiLayout) : Decidable L.WellFormed := by
  unfold WiiLayout.WellFormed; infer_instance

/-- The layout of the WAD format as published: a 32-byte header of eight
big-endian words (`header_size`, `type`, `cert_chain_size`, reserved,
`ticket_size`, `tmd_size`, `data_size`, `meta_size`), a 0x2A4-byte ticket,
a 0x1E4-byte TMD header and a 0x640-byte content.bin header. -/
def wiiLayout : WiiLayout where
  sizeof_Wii_WAD_Header := 32
  sizeof_RVL_Ticket := 0x2A4
  sizeof_RVL_TMD_Header := 0x1E4
  sizeof_Wii_Content_Bin_Header := 0x640
  WII_WAD_TYPE_Is := 0x49730000
  WII_WAD_TYPE_ib := 0x69620000
  WII_WAD_TYPE_Bk := 0x426B0000
  off_header_size := 0
  off_type := 4
  off_cert_chain_size := 8
  off_ticket_size := 16
  off_tmd_size := 20
  off_data_size := 24
  off_enc_title_key := 0x1BF
  off_ticket_title_id := 0x1DC
  off_sys_version := 0x184
  off_tmd_title_id := 0x18C

/-- Modelled from the spec: the `header` member of `RomData::DetectInfo`
(`RomData.hpp` is missing), "a pointer to a header byte buffer ... of bounded
size". `pData` is the buffer the pointer designates (`none` for a null
pointer); `size` is the length the caller declares for it. -/
structure DetectHeader where
  addr : Nat
  size : Nat
  pData : Option (List Nat)

/-- Modelled from the spec: `RomData::DetectInfo`, "a transient, non-owning view
used only during format probing": the header window, the optional filename
extension and the total source length (a signed 64-bit value). -/
structure DetectInfo where
  header : DetectHeader
  ext : Option String
  szFile : Int

/-! ## Collaborators that are not among the sources -/

/-- Modelled from the spec: `librpbase/file/IRpFile.hpp` is missing. A Byte Source
is "an opened, seekable, readable byte range with a known total length": the
bytes, the read position and whether the handle is open. -/
structure IRpFile where
  data : List Nat
  pos : Nat
  isOpen : Bool
  deriving DecidableEq, Repr

namespace IRpFile

/-- Modelled from the spec: `IRpFile::rewind()`, seek to offset 0. -/
def rewind (f : IRpFile) : IRpFile := { f with pos := 0 }

/-- Modelled from the spec: `IRpFile::read(ptr, size)`: the bytes read (fewer than
`size` at the end of the file, none from a closed handle) and the file after. -/
def read (f : IRpFile) (size : Nat) : List Nat × IRpFile :=
  if f.isOpen then
    let got := (f.data.drop f.pos).take size
    (got, { f with pos := f.pos + got.length })
  else ([], f)

/-- Modelled from the spec: `IRpFile::seekAndRead(pos, ptr, size)`: seek to the
absolute offset, then read. -/
def seekAndRead (f : IRpFile) (pos size : Nat) : List Nat × IRpFile :=
  if f.isOpen then read { f with pos := pos } size else ([], f)

/-- Modelled from the spec: `IRpFile::size()`, the total length, `-1` on a closed
handle. -/
def size (f : IRpFile) : Int := if f.isOpen then (f.data.length : Int) else -1

end IRpFile

/-- A ghost record of the calls a handler makes on its collaborators, in program
order: one event per call in the source. No code reads it. -/
inductive IoEvent where
  | rewind
  | read (size : Nat)
  | seekAndRead (pos size : Nat)
  | size
  | getAndVerify (keyName : String)
  | decrypt
  | create (cls : String)
  | unref (cls : String)
  | openPath (path : String)
  | close (cls : String)
  | delete (cls : String)
  | loadPng
  deriving DecidableEq, Repr

/-- Modelled from the spec: the payload of a Field. "Variants: string, number,
bitfield-of-named-bits, date-time, tabular list". -/
inductive FieldData where
  | string (value : String) (flags : Nat)
  | numeric (value : Nat)
  | bitfield (names : List String) (bits : Nat)
  | dateTime (time : Int)
  | listData (columns : List String) (rows : List (List String))
  deriving DecidableEq, Repr

/-- Modelled from the spec: "one named, typed descriptive datum", with the tab
it is grouped under. -/
structure Field where
  name : String
  tabIdx : Nat
  data : FieldData
  deriving DecidableEq, Repr

/-- Modelled from the spec: `librpbase/RomFields.hpp` is missing. The Field
collection: fields in insertion order, the tab names and the selected tab. -/
structure RomFields where
  fields : List Field
  tabNames : List String
  tabIdx : Nat
  deriving DecidableEq, Repr

namespace RomFields

/-- Modelled from the spec: `STRF_WARNING`, the "warning/highlighted" string flag. -/
def STRF_WARNING : Nat := 2

/-- Modelled from the spec: `TabOffset_AddTabs`, "appending its tabs as new tabs". -/
def TabOffset_AddTabs : Int := -2

/-- Modelled from the spec: the collection a new handler instance owns. -/
def new : RomFields := { fields := [], tabNames := [], tabIdx := 0 }

/-- Modelled from the spec: `RomFields::empty()`: no field has been added. -/
def empty (r : RomFields) : Bool := r.fields.isEmpty

/-- Modelled from the spec: `RomFields::isDataLoaded()`: at least one field has
been added. -/
def isDataLoaded (r : RomFields) : Bool := !r.fields.isEmpty

/-- Modelled from the spec: `RomFields::count()`, the number of fields. -/
def count (r : RomFields) : Nat := r.fields.length

/-- Modelled from the spec: `RomFields::reserve(n)` changes capacity only. -/
def reserve (r : RomFields) (_n : Nat) : RomFields := r

/-- Modelled from the spec: `RomFields::tabCount()`; a collection always has at
least one tab. -/
def tabCount (r : RomFields) : Nat := max r.tabNames.length 1

/-- Modelled from the spec: `RomFields::tabName(idx)`, none when out of range. -/
def tabName (r : RomFields) (idx : Nat) : Option String := r.tabNames.get? idx

/-- Modelled from the spec: `RomFields::setTabName(idx, name)`: "create/select/name
a tab by index"; missing tabs up to `idx` are created unnamed. -/
def setTabName (r : RomFields) (idx : Nat) (name : String) : RomFields :=
  { r with tabNames :=
      (r.tabNames ++ List.replicate (idx + 1 - r.tabNames.length) "").set idx name }

/-- Modelled from the spec: `RomFields::setTabIndex(idx)`: select a tab, creating
it when missing. -/
def setTabIndex (r : RomFields) (idx : Nat) : RomFields :=
  { r with
    tabNames := r.tabNames ++ List.replicate (idx + 1 - r.tabNames.length) ""
    tabIdx := idx }

/-- Modelled from the spec: `RomFields::addField_string(name, str, flags)`:
"appends to the currently-selected tab". -/
def addField_string (r : RomFields) (name value : String) (flags : Nat) : RomFields :=
  { r with fields := r.fields ++ [{ name := name, tabIdx := r.tabIdx, data := .string value flags }] }

/-- Modelled from the spec: `RomFields::addFields_romFields(other, tabOffset)`:
"merging another handler's entire field set either inline (current tab) or by
appending its tabs as new tabs, with an offset applied to any tab indices
embedded in the merged fields". -/
def addFields_romFields (r other : RomFields) (tabOffset : Int) : RomFields :=
  if tabOffset = TabOffset_AddTabs then
    let base := r.tabCount
    let names := r.tabNames ++ List.replicate (base - r.tabNames.length) ""
    { r with
      fields := r.fields ++ other.fields.map fun f => { f with tabIdx := f.tabIdx + base }
      tabNames := names ++ (List.range other.tabCount).map fun i => (other.tabName i).getD ""
      tabIdx := base + other.tabCount - 1 }
  else
    { r with
      fields := r.fields ++ other.fields.map fun f =>
        { f with tabIdx := f.tabIdx + tabOffset.toNat } }

end RomFields

/-- Modelled from the spec: `libi18n`'s `C_(ctx, msgid)`. Localization is out of
scope: the message id is the text. -/
def C_ (_ctx msgid : String) : String := msgid

/-- Modelled from the spec: `RomData::FileType`, the file-type classification. -/
inductive FileType where
  | FTYPE_UNKNOWN
  | FTYPE_APPLICATION_PACKAGE
  | DiscImage
  deriving DecidableEq, Repr

/-- The errno value `EIO`. -/
def EIO : Int := 5

/-- The errno value `EBADF`. -/
def EBADF : Int := 9

namespace KeyManager

/-- Modelled from the spec: `KeyManager::VerifyResult`, the outcome of
`getAndVerify(keyName, verificationPair) -> key | not-found | verify-failed`,
with the two further values `WiiWAD.cpp` names. -/
inductive VerifyResult where
  | VERIFY_UNKNOWN
  | VERIFY_OK
  | VERIFY_NO_SUPPORT
  | VERIFY_KEY_NOT_FOUND
  | VERIFY_WRONG_KEY
  deriving DecidableEq, Repr

/-- Modelled from the spec: `KeyManager::KeyData_t`, raw key bytes and length. -/
structure KeyData_t where
  key : List Nat
  length : Nat
  deriving DecidableEq, Repr

end KeyManager

/-- Modelled from the spec: `librpbase/disc/CBCReader.hpp` is missing. A
block-cipher CBC reader over a region of a file: what the constructor is given. -/
structure CBCReader where
  file : IRpFile
  offset : Nat
  length : Nat
  key : List Nat
  iv : List Nat
  deriving DecidableEq, Repr

/-- The process-wide collaborators of the WiiWAD handler: whether the build has
`ENABLE_DECRYPTION`, the key manager, the key verification data and the AES
cipher. -/
structure WiiEnv where
  ENABLE_DECRYPTION : Bool
  /-- The call `KeyManager::getAndVerify(keyName, &keyData, verifyData, verifyLen)`. -/
  getAndVerify : String → List Nat → Nat → KeyManager.VerifyResult × KeyManager.KeyData_t
  /-- The call `WiiPartition::encryptionVerifyData_static(Key_Rvl_Common)`. -/
  encryptionVerifyData : List Nat
  /-- An `IAesCipher` in CBC mode: key, IV, data to the decrypted data. -/
  aesCbcDecrypt : List Nat → List Nat → List Nat → List Nat
  /-- The call `KeyManager::verifyResultToString(res)`, null for an unknown value. -/
  verifyResultToString : KeyManager.VerifyResult → Option String

/-- The members of `WiiWADPrivate` (with those of `RomDataPrivate` the handler
uses). Each struct member holds the bytes of the struct; `ioLog` is the ghost
record of the calls made on collaborators. -/
structure WiiWADPrivate where
  -- RomDataPrivate
  isValid : Bool
  file : Option IRpFile
  fields : RomFields
  className : String
  fileType : FileType
  -- WAD structs.
  wadHeader : List Nat
  ticket : List Nat
  tmdHeader : List Nat
  contentHeader : List Nat
  -- CBC reader for the main data area.
  cbcReader : Option CBCReader
  -- Key status.
  key_status : KeyManager.VerifyResult
  ioLog : List IoEvent

/-- Overwrite the first bytes of a struct object with the bytes a read returned. -/
def overwrite (obj got : List Nat) : List Nat := got ++ obj.drop got.length

/-- A struct member of `n` bytes at offset `off` of a struct object. -/
def member (obj : List Nat) (off n : Nat) : List Nat := (obj.drop off).take n

namespace WiiWADPrivate

/-- The constructor `WiiWADPrivate::WiiWADPrivate(q, file)`. `file` is what the
`RomDataPrivate` constructor stored in `d->file`: the caller's handle dup()'d,
null when that failed. `wadHeader` and `contentHeader` are cleared; `ticket`
and `tmdHeader` are left as they are (no byte is known). -/
def WiiWADPrivate (L : WiiLayout) (file : Option IRpFile) : WiiWADPrivate where
  isValid := false
  file := file
  fields := RomFields.new
  className := ""
  fileType := FileType.FTYPE_UNKNOWN
  wadHeader := List.replicate L.sizeof_Wii_WAD_Header 0
  ticket := []
  tmdHeader := []
  contentHeader := List.replicate L.sizeof_Wii_Content_Bin_Header 0
  cbcReader := none
  key_status := KeyManager.VerifyResult.VERIFY_UNKNOWN
  ioLog := []

end WiiWADPrivate

namespace WiiWAD

open WiiWADPrivate

/-- The method `WiiWAD::isRomSupported_static(const DetectInfo *info)`.
`expected_size` is an `unsigned int`: the four rounded sizes are added modulo
`2^32`, and the sum with `sizeof(Wii_Content_Bin_Header)` is truncated to 32 bits
by the initialisation. The comparison with the signed 64-bit `szFile` is done on
integers. -/
def isRomSupported_static (L : WiiLayout) (info : Option DetectInfo) : Option Int :=
  match info with
  | none => some (-1)
  | some info =>
    match info.header.pData with
    | none => some (-1)
    | some pData =>
      if info.header.addr ≠ 0 ∨ info.header.size < L.sizeof_Wii_WAD_Header then
        -- Either no detection information was specified,
        -- or the header is too small.
        some (-1)
      else
        -- Check for the correct header fields.
        (readBytes pData L.off_header_size 4).bind fun header_size =>
        if asBytes header_size ≠ cpu_to_be32 L.sizeof_Wii_WAD_Header then
          -- WAD header size is incorrect.
          some (-1)
        else
        -- Check WAD type.
        (readBytes pData L.off_type 4).bind fun type =>
        if asBytes type ≠ cpu_to_be32 L.WII_WAD_TYPE_Is ∧
            asBytes type ≠ cpu_to_be32 L.WII_WAD_TYPE_ib ∧
            asBytes type ≠ cpu_to_be32 L.WII_WAD_TYPE_Bk then
          -- WAD type is incorrect.
          some (-1)
        else
        -- Verify the ticket size.
        (readBytes pData L.off_ticket_size 4).bind fun ticket_size =>
        if be32_to_cpu ticket_size < L.sizeof_RVL_Ticket then
          -- Ticket is too small.
          some (-1)
        else
        -- Check the file size to ensure we have at least the IMET section.
        (readBytes pData L.off_cert_chain_size 4).bind fun cert_chain_size =>
        (readBytes pData L.off_tmd_size 4).bind fun tmd_size =>
        let expected_size :=
          ((((toNext64 (be32_to_cpu header_size) +
              toNext64 (be32_to_cpu cert_chain_size)) % U32 +
              toNext64 (be32_to_cpu ticket_size)) % U32 +
              toNext64 (be32_to_cpu tmd_size)) % U32 +
              L.sizeof_Wii_Content_Bin_Header) % U32
        if (expected_size : Int) > info.szFile then
          -- File is too small.
          some (-1)
        else
          -- This appears to be a Wii WAD file.
          some 0

/-- The constructor `WiiWAD::WiiWAD(IRpFile *file)`; `file` is the handle the
private constructor stored (see `WiiWADPrivate.WiiWADPrivate`). `addr` is an
`unsigned int`, so every sum is taken modulo `2^32`. -/
def WiiWAD (L : WiiLayout) (E : WiiEnv) (file : Option IRpFile) : Option WiiWADPrivate :=
  -- This class handles application packages.
  let d := WiiWADPrivate.WiiWADPrivate L file
  let d := { d with className := "WiiWAD", fileType := FileType.FTYPE_APPLICATION_PACKAGE }
  match d.file with
  | none =>
    -- Could not dup() the file handle.
    some d
  | some f =>
    -- Read the WAD header.
    let f := f.rewind
    let r := f.read L.sizeof_Wii_WAD_Header
    let f := r.2
    let d := { d with
      file := some f
      wadHeader := overwrite d.wadHeader r.1
      ioLog := d.ioLog ++ [IoEvent.rewind, IoEvent.read L.sizeof_Wii_WAD_Header] }
    if r.1.length ≠ L.sizeof_Wii_WAD_Header then
      some { d with file := none, ioLog := d.ioLog ++ [IoEvent.delete "IRpFile"] }
    else
      -- Check if this WAD file is supported.
      let info : DetectInfo :=
        { header := { addr := 0, size := L.sizeof_Wii_WAD_Header, pData := some d.wadHeader }
          ext := none  -- Not needed for WiiWAD.
          szFile := f.size }
      let d := { d with ioLog := d.ioLog ++ [IoEvent.size] }
      (isRomSupported_static L (some info)).bind fun supported =>
      let d := { d with isValid := decide (supported ≥ 0) }
      if !d.isValid then
        some { d with file := none, ioLog := d.ioLog ++ [IoEvent.delete "IRpFile"] }
      else
        -- Read the ticket and TMD.
        let addr := (toNext64 (be32_to_cpu (member d.wadHeader L.off_header_size 4)) +
                     toNext64 (be32_to_cpu (member d.wadHeader L.off_cert_chain_size 4))) % U32
        let r := f.seekAndRead addr L.sizeof_RVL_Ticket
        let f := r.2
        let d := { d with
          file := some f
          ticket := overwrite d.ticket r.1
          ioLog := d.ioLog ++ [IoEvent.seekAndRead addr L.sizeof_RVL_Ticket] }
        if r.1.length ≠ L.sizeof_RVL_Ticket then
          -- Seek and/or read error.
          some { d with isValid := false, file := none,
                        ioLog := d.ioLog ++ [IoEvent.delete "IRpFile"] }
        else
          let addr := (addr + toNext64 (be32_to_cpu (member d.wadHeader L.off_ticket_size 4))) % U32
          let r := f.seekAndRead addr L.sizeof_RVL_TMD_Header
          let f := r.2
          let d := { d with
            file := some f
            tmdHeader := overwrite d.tmdHeader r.1
            ioLog := d.ioLog ++ [IoEvent.seekAndRead addr L.sizeof_RVL_TMD_Header] }
          if r.1.length ≠ L.sizeof_RVL_TMD_Header then
            -- Seek and/or read error.
            some { d with isValid := false, file := none,
                          ioLog := d.ioLog ++ [IoEvent.delete "IRpFile"] }
          else if E.ENABLE_DECRYPTION then
            -- Initialize the CBC reader for the main data area.
            -- Key verification data.
            let verifyData := E.encryptionVerifyData
            -- Get and verify the key.
            let kv := E.getAndVerify "rvl-common" verifyData 16
            let keyData := kv.2
            let d := { d with key_status := kv.1,
                              ioLog := d.ioLog ++ [IoEvent.getAndVerify "rvl-common"] }
            if d.key_status = KeyManager.VerifyResult.VERIFY_OK then
              -- Title key IV: High 8 bytes are the title ID (in big-endian), low 8 bytes are 0.
              let iv := member d.ticket L.off_ticket_title_id 8 ++ List.replicate 8 0
              -- Decrypt the title key.
              let title_key := member d.ticket L.off_enc_title_key 16
              let title_key := E.aesCbcDecrypt (keyData.key.take keyData.length) iv title_key
              -- Data area IV: remaining bytes are zero.
              let iv := List.replicate 16 0
              -- Create a CBC reader to decrypt the data section.
              let addr := (addr + toNext64 (be32_to_cpu (member d.wadHeader L.off_tmd_size 4))) % U32
              some { d with
                cbcReader := some
                  { file := f, offset := addr
                    length := be32_to_cpu (member d.wadHeader L.off_data_size 4)
                    key := title_key, iv := iv }
                ioLog := d.ioLog ++ [IoEvent.decrypt, IoEvent.create "CBCReader"] }
            else some d
          else
            -- Cannot decrypt anything...
            some { d with key_status := KeyManager.VerifyResult.VERIFY_NO_SUPPORT }

/-- The `%08X` conversion: eight uppercase hexadecimal digits of a `uint32_t`. -/
def fmt08X (v : Nat) : String :=
  String.mk ((List.range 8).map fun i =>
    let digit := v % U32 / 16 ^ (7 - i) % 16
    if digit < 10 then Char.ofNat (48 + digit) else Char.ofNat (55 + digit))

/-- The `%u` conversion. -/
def fmtU (v : Nat) : String := toString v

/-- The `%.4s` conversion of a byte string: at most four characters, stopping
at a NUL. -/
def fmt4s (bytes : List Nat) : String :=
  String.mk (((bytes.take 4).map (· % 256)).takeWhile (· ≠ 0) |>.map Char.ofNat)

/-- The C library `isalnum` on an unsigned byte, in the "C" locale. -/
def isalnum (c : Nat) : Bool :=
  let c := c % 256
  (48 ≤ c && c ≤ 57) || (65 ≤ c && c ≤ 90) || (97 ≤ c && c ≤ 122)

/-- The method `WiiWAD::loadFieldData()`: the return value and the instance after
the call. -/
def loadFieldData (L : WiiLayout) (E : WiiEnv) (d : WiiWADPrivate) : Int × WiiWADPrivate :=
  if d.fields.isDataLoaded then
    -- Field data *has* been loaded...
    (0, d)
  else if d.file.isNone || !(d.file.any (·.isOpen)) then
    -- File isn't open.
    (- EBADF, d)
  else if !d.isValid then
    -- Unknown file type.
    (- EIO, d)
  else
    -- WAD headers are read in the constructor.
    let tmdHeader := d.tmdHeader
    let fields := d.fields.reserve 3  -- Maximum of 3 fields.
    if d.key_status ≠ KeyManager.VerifyResult.VERIFY_OK then
      -- Unable to get the decryption key.
      let err := match E.verifyResultToString d.key_status with
        | some err => err
        | none => C_ "WiiWAD" "Unknown error. (THIS IS A BUG!)"
      let fields := fields.addField_string (C_ "WiiWAD" "Warning") err RomFields.STRF_WARNING
      ((fields.count : Int), { d with fields := fields })
    else
      -- Title ID.
      let title_id := member tmdHeader L.off_tmd_title_id 8
      let fields := fields.addField_string (C_ "WiiWAD" "Title ID")
        (fmt08X (be32_to_cpu (member title_id 0 4)) ++ "-" ++
          fmt08X (be32_to_cpu (member title_id 4 4))) 0
      -- Game ID.
      -- NOTE: Only displayed if TID lo is all alphanumeric characters.
      let fields :=
        if isalnum (title_id.getD 4 0) && isalnum (title_id.getD 5 0) &&
            isalnum (title_id.getD 6 0) && isalnum (title_id.getD 7 0) then
          -- Print the game ID.
          fields.addField_string (C_ "WiiWAD" "Game ID") (fmt4s (title_id.drop 4)) 0
        else fields
      -- Required IOS version.
      let sys_version := member tmdHeader L.off_sys_version 8
      let ios_lo := be32_to_cpu (member sys_version 4 4)
      let fields :=
        if asBytes (member sys_version 0 4) = cpu_to_be32 1 ∧ ios_lo > 2 ∧ ios_lo < 0x300 then
          -- Standard IOS slot.
          fields.addField_string (C_ "WiiWAD" "IOS Version") ("IOS" ++ fmtU ios_lo) 0
        else
          -- Non-standard IOS slot.
          -- Print the full title ID.
          fields.addField_string (C_ "WiiWAD" "IOS Version")
            (fmt08X (be32_to_cpu (member sys_version 0 4)) ++ "-" ++
              fmt08X (be32_to_cpu (member sys_version 4 4))) 0
      -- Finished reading the field data.
      ((fields.count : Int), { d with fields := fields })

end WiiWAD

/-! ## PSP -/

/-- The struct `ISO_Primary_Volume_Descriptor` of `iso_structs.h` (not among the
sources), reduced to the member the handler inspects: `char sysID[32]`. -/
structure ISO_Primary_Volume_Descriptor where
  sysID : List Nat
  deriving DecidableEq, Repr

/-- The value of `sizeof(pvd->sysID)`. -/
def sizeof_sysID : Nat := 32

/-- Modelled from the spec: a nested Format Handler (`ELF`, `ISO`) as its owner
sees it: validity, whether its source is open, and what `fields()` returns
(null on error). -/
structure RomDataObj where
  isValid : Bool
  isOpen : Bool
  fields : Option RomFields
  deriving DecidableEq, Repr

/-- Modelled from the spec: a disc reader (`IDiscReader`): "presents a logically
contiguous byte range". -/
structure IDiscReader where
  cls : String
  isOpen : Bool
  data : List Nat
  deriving DecidableEq, Repr

/-- Modelled from the spec: `IDiscReader::size()`. -/
def IDiscReader.size (r : IDiscReader) : Int := if r.isOpen then (r.data.length : Int) else -1

/-- Modelled from the spec: the Filesystem Reader (`IsoPartition`): "open a file
by path" returning a new Byte-Region Reader (a null pointer is `none`). -/
structure IsoPartition where
  isOpen : Bool
  open_ : String → Option IRpFile

/-- Modelled from the spec: a decoded image (`rp_image`): "an in-memory pixel
buffer plus declared size metadata". -/
structure rp_image where
  width : Nat
  height : Nat
  pixels : List Nat
  deriving DecidableEq, Repr

/-- The collaborators of the PSP handler that are not among the sources. -/
structure PSPEnv where
  /-- The call `CisoPspReader::isDiscSupported_static(pHeader, szHeader)`. -/
  isDiscSupported_static : List Nat → Nat → Int
  /-- The call `latin1_to_utf8(str, len)`. -/
  latin1_to_utf8 : List Nat → Int → String
  /-- The call `new ELF(file)`. -/
  newELF : IRpFile → RomDataObj
  /-- The call `new ISO(new PartitionFile(discReader, offset, size))`. -/
  newISO : IDiscReader → Int → Int → RomDataObj
  /-- The call `RpPng::load(file)`, null when decoding fails. -/
  RpPng_load : IRpFile → Option rp_image
  /-- The contents of the stack where `loadFieldData` places `char buf[129]`. -/
  stack : List Nat

/-- The members of `PSPPrivate` (with those of `RomDataPrivate` the handler
uses); `ioLog` is the ghost record of the calls made on collaborators. -/
structure PSPPrivate where
  -- RomDataPrivate
  isValid : Bool
  file : Option IRpFile
  fields : RomFields
  className : String
  mimeType : String
  fileType : FileType
  pvd : ISO_Primary_Volume_Descriptor
  -- IsoPartition
  discReader : Option IDiscReader
  isoPartition : Option IsoPartition
  -- Icon.
  img_icon : Option rp_image
  -- Boot executable (EBOOT.BIN)
  bootExeData : Option RomDataObj
  ioLog : List IoEvent

/-- The C library `strncmp` on NUL-terminated byte strings (a list that ends
reads as NUL from there on). -/
def strncmp : List Nat → List Nat → Nat → Int
  | _, _, 0 => 0
  | s1, s2, n + 1 =>
    let c1 := s1.headD 0 % 256
    let c2 := s2.headD 0 % 256
    if c1 ≠ c2 then (c1 : Int) - (c2 : Int)
    else if c1 = 0 then 0
    else strncmp s1.tail s2.tail n

/-- The C library `memchr(buf, c, n)`: the index of the first `c` among the
first `n` bytes. -/
def memchr (buf : List Nat) (c n : Nat) : Option Nat :=
  let i := ((buf.take n).map (· % 256)).indexOf (c % 256)
  if i < (buf.take n).length then some i else none

namespace PSPPrivate

/-- The method `PSPPrivate::openBootExe()`: the handler returned (null is `none`)
and the instance after the call. -/
def openBootExe (E : PSPEnv) (d : PSPPrivate) : Option RomDataObj × PSPPrivate :=
  match d.bootExeData with
  | some exe =>
    -- The boot executable is already open.
    (some exe, d)
  | none =>
    match d.isoPartition with
    | none => (none, d)
    | some isoPartition =>
      if !isoPartition.isOpen then
        -- ISO partition is not open.
        (none, d)
      else
        -- Open the boot file.
        let d := { d with ioLog := d.ioLog ++ [IoEvent.openPath "/PSP_GAME/SYSDIR/EBOOT.BIN"] }
        match isoPartition.open_ "/PSP_GAME/SYSDIR/EBOOT.BIN" with
        | some f_bootExe =>
          let exeData := E.newELF f_bootExe
          let d := { d with ioLog := d.ioLog ++ [IoEvent.create "ELF", IoEvent.unref "IRpFile"] }
          if exeData.isValid then
            -- Boot executable is open and valid.
            (some exeData, { d with bootExeData := some exeData })
          else
            -- Unable to open the executable.
            (none, { d with ioLog := d.ioLog ++ [IoEvent.unref "ELF"] })
        | none =>
          -- Unable to open the default executable.
          (none, d)

end PSPPrivate

namespace PSP

/-- The byte string `"PSP GAME "`. -/
def PSP_GAME_ : List Nat := [80, 83, 80, 32, 71, 65, 77, 69, 32]

/-- The method `PSP::isRomSupported_static(const DetectInfo *info)`. -/
def isRomSupported_static (E : PSPEnv) (info : Option DetectInfo) : Int :=
  -- NOTE: This version is only supported for compressed disc images.
  match info with
  | none => -1
  | some info =>
    match info.header.pData with
    | none => -1
    | some pData =>
      if info.header.addr ≠ 0 ∨ info.header.size < 256 then
        -- Either no detection information was specified,
        -- or the header is too small.
        -1
      else if E.isDiscSupported_static pData info.header.size ≥ 0 then
        -- Supported by CISO.
        0
      else
        -- Not a supported compressed disc image.
        0

/-- The loop of `PSP::isRomSupported_static(pvd)` over `p .. p_end`, with
`n = p_end - p` bytes left: false as soon as a byte is neither a space nor NUL. -/
def restIsPadding (sysID : List Nat) : Nat → Nat → Bool
  | _, 0 => true
  | p, n + 1 =>
    if sysID.getD p 0 % 256 ≠ 32 ∧ sysID.getD p 0 % 256 ≠ 0 then false
    else restIsPadding sysID (p + 1) n

/-- The method `PSP::isRomSupported_static(const ISO_Primary_Volume_Descriptor *pvd)`. -/
def isRomSupported_static_PVD (pvd : Option ISO_Primary_Volume_Descriptor) : Int :=
  match pvd with
  | none =>
    -- Bad.
    -1
  | some pvd =>
    -- PlayStation Portable discs have the system ID "PSP GAME".
    let pos : Int := if strncmp pvd.sysID PSP_GAME_ 9 = 0 then 9 else -1
    if pos < 0 then
      -- Not valid.
      -1
    else
      -- Make sure the rest of the system ID is either spaces or NULLs.
      let isOK := restIsPadding pvd.sysID pos.toNat (sizeof_sysID - pos.toNat)
      if isOK then
        -- Valid PVD.
        0
      else
        -- Not a PlayStation Portable disc.
        -1

/-- The buffer `char buf[129]` after `read` stored `got` and `buf[size] = 0`:
the bytes read, a NUL, then what the stack held before. -/
def umdBuf (stack got : List Nat) : List Nat :=
  (List.range 129).map fun i =>
    if i < got.length then got.getD i 0 else if i = got.length then 0 else stack.getD i 0

/-- The method `PSP::loadFieldData()`: the return value and the instance after
the call; `none` when the call dereferences a null pointer. -/
def loadFieldData (E : PSPEnv) (d : PSPPrivate) : Option (Int × PSPPrivate) :=
  if !d.fields.empty then
    -- Field data *has* been loaded...
    some (0, d)
  else if d.file.isNone || !(d.file.any (·.isOpen)) then
    -- File isn't open.
    some (- EBADF, d)
  else if !d.isValid then
    -- Unknown disc type.
    some (- EIO, d)
  else
    let fields := d.fields.reserve 6  -- Maximum of 6 fields.
    let fields := fields.setTabName 0 "PSP"
    -- Show UMD_DATA.BIN fields.
    d.isoPartition.bind fun isoPartition =>
    let d := { d with fields := fields, ioLog := d.ioLog ++ [IoEvent.openPath "/UMD_DATA.BIN"] }
    (isoPartition.open_ "/UMD_DATA.BIN").bind fun umdDataBin =>
    let d :=
      if umdDataBin.isOpen then
        -- Read up to 128 bytes.
        let got := (umdDataBin.read 128).1
        let buf := umdBuf E.stack got
        let d := { d with ioLog := d.ioLog ++ [IoEvent.read 128] }
        -- Find the first '|'.
        match memchr buf 124 129 with
        | some p =>
          { d with fields := d.fields.addField_string (C_ "RomData" "Game ID")
                      (E.latin1_to_utf8 buf (p : Int)) 0 }
        | none => d
      else d
    -- Show a tab for the boot file.
    let r := PSPPrivate.openBootExe E d
    let d := r.2
    let d :=
      match r.1 with
      | some bootExeData =>
        -- Add the fields.
        match bootExeData.fields with
        | some exeFields =>
          let exeTabCount := exeFields.tabCount
          let fields := (List.range (exeTabCount - 1)).foldl
            (fun (fs : RomFields) (k : Nat) => fs.setTabName (k + 1) ((exeFields.tabName (k + 1)).getD "")) d.fields
          let fields := fields.setTabIndex 0
          let fields := fields.addFields_romFields exeFields 0
          let fields := fields.setTabIndex (exeTabCount - 1)
          { d with fields := fields }
        | none => d
      | none => d
    -- ISO object for ISO-9660 PVD
    d.discReader.bind fun discReader =>
    let isoData := E.newISO discReader 0 discReader.size
    let d := { d with ioLog := d.ioLog ++
      [IoEvent.size, IoEvent.create "PartitionFile", IoEvent.create "ISO",
       IoEvent.unref "PartitionFile"] }
    let d :=
      if isoData.isOpen then
        -- Add the fields.
        match isoData.fields with
        | some isoFields =>
          { d with fields := d.fields.addFields_romFields isoFields RomFields.TabOffset_AddTabs }
        | none => d
      else d
    let d := { d with ioLog := d.ioLog ++ [IoEvent.unref "ISO"] }
    -- Finished reading the field data.
    some ((d.fields.count : Int), d)

end PSP

/-! ## PSP: construction, close, icon -/

/-- The constants `PSP.cpp` takes from `iso_structs.h` (not among the sources):
`sizeof(ISO_Primary_Volume_Descriptor)`, `ISO_PVD_ADDRESS_2048` and the offset
of the member `sysID` in the descriptor. -/
structure IsoLayout where
  sizeof_ISO_Primary_Volume_Descriptor : Nat
  ISO_PVD_ADDRESS_2048 : Nat
  off_sysID : Nat

/-- The layout of ISO-9660 as published: a 2048-byte descriptor in sector 16 of
2048-byte sectors, with the system identifier at offset 8. -/
def isoLayout : IsoLayout where
  sizeof_ISO_Primary_Volume_Descriptor := 2048
  ISO_PVD_ADDRESS_2048 := 0x8000
  off_sysID := 8

/-- Modelled from the spec: `IDiscReader::seekAndRead(pos, ptr, size)` on a disc
reader: the bytes read, none from a reader that is not open. -/
def IDiscReader.seekAndRead (r : IDiscReader) (pos size : Nat) : List Nat :=
  if r.isOpen then (r.data.drop pos).take size else []

/-- The readers and checks the PSP constructor calls that are not among the
sources. -/
structure PSPReaders where
  /-- The call `new CisoPspReader(file)`. -/
  newCisoPspReader : IRpFile → IDiscReader
  /-- The call `new DiscReader(file)`. -/
  newDiscReader : IRpFile → IDiscReader
  /-- The call `ISO::checkPVD(data)`. -/
  ISO_checkPVD : List Nat → Int
  /-- The call `new IsoPartition(discReader, partition_offset, iso_start_offset)`. -/
  newIsoPartition : IDiscReader → Int → Int → IsoPartition

/-- Modelled from the spec: `RomData::close()` on a nested handler, "releases
owned readers": its source is no longer open. -/
def RomDataObj.close (o : RomDataObj) : RomDataObj := { o with isOpen := false }

namespace PSPPrivate

/-- The method `PSPPrivate::loadIcon()`: the icon returned (null is `none`) and
the instance after the call; the outer `none` when the call dereferences a
null pointer. -/
def loadIcon (E : PSPEnv) (d : PSPPrivate) : Option (Option rp_image × PSPPrivate) :=
  match d.img_icon with
  | some img_icon =>
    -- Icon has already been loaded.
    some (some img_icon, d)
  | none =>
    if !d.isValid || d.isoPartition.isNone then
      -- Can't load the icon.
      some (none, d)
    else
      d.isoPartition.bind fun isoPartition =>
      -- Icon is located on disc as a regular PNG image.
      let d := { d with ioLog := d.ioLog ++ [IoEvent.openPath "/PSP_GAME/ICON0.PNG"] }
      (isoPartition.open_ "/PSP_GAME/ICON0.PNG").bind fun f_icon =>
      if !f_icon.isOpen then
        -- Unable to open the icon file.
        some (none, { d with ioLog := d.ioLog ++ [IoEvent.unref "IRpFile"] })
      else
        -- Decode the image.
        let img_icon := E.RpPng_load f_icon
        some (img_icon,
          { d with img_icon := img_icon
                   ioLog := d.ioLog ++ [IoEvent.loadPng, IoEvent.unref "IRpFile"] })

/-- The constructor `PSPPrivate::PSPPrivate(q, file)`. `file` is what the
`RomDataPrivate` constructor stored in `d->file`: the caller's handle ref()'d,
null when there is none. The descriptor is cleared. -/
def PSPPrivate (file : Option IRpFile) : PSPPrivate where
  isValid := false
  file := file
  fields := RomFields.new
  className := ""
  mimeType := ""
  fileType := FileType.FTYPE_UNKNOWN
  pvd := { sysID := List.replicate sizeof_sysID 0 }
  discReader := none
  isoPartition := none
  img_icon := none
  bootExeData := none
  ioLog := []

end PSPPrivate

namespace PSP

/-- The reader selection of the constructor `PSP::PSP` (the statements between
the header read and the `isOpen` check): the local `discReader`, the name of
the class that was created for it, and the calls made. -/
def selectDiscReader (E : PSPEnv) (R : PSPReaders) (f : IRpFile) (header : List Nat) :
    IDiscReader × String × List IoEvent :=
  let ciso : Option IDiscReader × List IoEvent :=
    if E.isDiscSupported_static header 256 ≥ 0 then
      let discReader := R.newCisoPspReader f
      if !discReader.isOpen then
        -- Not CISO.
        (none, [IoEvent.create "CisoPspReader", IoEvent.unref "CisoPspReader"])
      else (some discReader, [IoEvent.create "CisoPspReader"])
    else (none, [])
  match ciso.1 with
  | some discReader => (discReader, "CisoPspReader", ciso.2)
  | none =>
    -- Not a supported compressed disc image.
    -- Try opening as uncompressed.
    (R.newDiscReader f, "DiscReader", ciso.2 ++ [IoEvent.create "DiscReader"])

/-- The constructor `PSP::PSP(IRpFile *file)`; `file` is the handle the private
constructor stored. The local `discReader` is carried with the name of the
class that was created (see `selectDiscReader`). -/
def PSP (IL : IsoLayout) (E : PSPEnv) (R : PSPReaders) (file : Option IRpFile) : PSPPrivate :=
  -- This class handles disc images.
  let d := PSPPrivate.PSPPrivate file
  let d := { d with className := "PSP", mimeType := "application/x-cd-image"
                    fileType := FileType.DiscImage }
  match d.file with
  | none =>
    -- Could not ref() the file handle.
    d
  | some f =>
    -- Check if this is a supported compressed disc image.
    let f := f.rewind
    let r := f.read 256
    let header := r.1
    let f := r.2
    let d := { d with file := some f, ioLog := d.ioLog ++ [IoEvent.rewind, IoEvent.read 256] }
    if header.length ≠ 256 then
      -- Read error.
      { d with file := none, ioLog := d.ioLog ++ [IoEvent.unref "IRpFile"] }
    else
      let sel := selectDiscReader E R f header
      let discReader := sel.1
      let cls := sel.2.1
      let d := { d with ioLog := d.ioLog ++ sel.2.2 }
      if !discReader.isOpen then
        -- Error opening the DiscReader.
        { d with file := none, ioLog := d.ioLog ++ [IoEvent.unref cls, IoEvent.unref "IRpFile"] }
      else
        -- Check the ISO PVD and system ID.
        let got := discReader.seekAndRead IL.ISO_PVD_ADDRESS_2048
          IL.sizeof_ISO_Primary_Volume_Descriptor
        let pvdBytes :=
          overwrite (List.replicate IL.sizeof_ISO_Primary_Volume_Descriptor 0) got
        let d := { d with
          pvd := { sysID := member pvdBytes IL.off_sysID sizeof_sysID }
          ioLog := d.ioLog ++ [IoEvent.seekAndRead IL.ISO_PVD_ADDRESS_2048
            IL.sizeof_ISO_Primary_Volume_Descriptor] }
        if got.length ≠ IL.sizeof_ISO_Primary_Volume_Descriptor then
          { d with file := none, ioLog := d.ioLog ++ [IoEvent.unref "IRpFile"] }
        else if R.ISO_checkPVD pvdBytes < 0 then
          -- Not ISO-9660.
          { d with file := none, ioLog := d.ioLog ++ [IoEvent.unref cls, IoEvent.unref "IRpFile"] }
        else if isRomSupported_static_PVD (some d.pvd) < 0 then
          -- Incorrect system ID..
          { d with file := none, ioLog := d.ioLog ++ [IoEvent.unref cls, IoEvent.unref "IRpFile"] }
        else
          -- Try to open the ISO partition.
          let isoPartition := R.newIsoPartition discReader 0 0
          let d := { d with ioLog := d.ioLog ++ [IoEvent.create "IsoPartition"] }
          if !isoPartition.isOpen then
            -- Error opening the ISO partition.
            { d with file := none
                     ioLog := d.ioLog ++ [IoEvent.unref "IsoPartition", IoEvent.unref cls,
                       IoEvent.unref "IRpFile"] }
          else
            -- Disc image is ready.
            { d with discReader := some discReader, isoPartition := some isoPartition
                     isValid := true }

/-- Modelled from the spec: `RomData::close()` of the base class (`RomData.cpp` is
missing): "releases owned readers ... but preserves already-decoded images and
already-loaded fields": the file reference is released and nulled. -/
def super_close (d : PSPPrivate) : PSPPrivate :=
  match d.file with
  | some _ => { d with file := none, ioLog := d.ioLog ++ [IoEvent.unref "IRpFile"] }
  | none => d

/-- The method `PSP::close()`. -/
def close (d : PSPPrivate) : PSPPrivate :=
  -- NOTE: Don't delete these. They have rp_image objects
  -- that may be used by the UI later.
  let d :=
    match d.bootExeData with
    | some bootExeData =>
      { d with bootExeData := some bootExeData.close, ioLog := d.ioLog ++ [IoEvent.close "ELF"] }
    | none => d
  let d :=
    match d.isoPartition with
    | some _ => { d with isoPartition := none, ioLog := d.ioLog ++ [IoEvent.unref "IsoPartition"] }
    | none => d
  let d :=
    match d.discReader with
    | some _ => { d with discReader := none, ioLog := d.ioLog ++ [IoEvent.unref "IDiscReader"] }
    | none => d
  -- Call the superclass function.
  super_close d

end PSP

/-! ## PSP: images -/

/-- What `PSP.cpp` takes from `RomData.hpp` (not among the sources) for its
image queries: the enumerators `IMG_INT_ICON` and `IMG_INT_MEDIA` of
`RomData::ImageType`, the bit `IMGBF_INT_ICON` of `ImageTypesBF`, and the
macro `ASSERT_supportedImageSizes(imageType)`, given by whether the image type
passes its range check (the method returns an empty vector when it does not). -/
structure ImageTypes where
  IMG_INT_ICON : Int
  IMG_INT_MEDIA : Int
  IMGBF_INT_ICON : Nat
  ASSERT_supportedImageSizes : Int → Bool

/-- The image types as published: the internal icon is type 0, the internal
media scan type 2, the types run from 0 to 9, and the bit of a type is
`1U << type`. -/
def imageTypes : ImageTypes where
  IMG_INT_ICON := 0
  IMG_INT_MEDIA := 2
  IMGBF_INT_ICON := 1
  ASSERT_supportedImageSizes := fun imageType => decide (0 ≤ imageType ∧ imageType ≤ 9)

/-- The struct `RomData::ImageSizeDef`: name (null for the default), width,
height and index. -/
structure ImageSizeDef where
  name : Option String
  width : Nat
  height : Nat
  index : Int
  deriving DecidableEq, Repr

namespace PSP

/-- The method `PSP::supportedImageTypes_static()`. -/
def supportedImageTypes_static (T : ImageTypes) : Nat :=
  T.IMGBF_INT_ICON % U32

/-- The method `PSP::supportedImageSizes(ImageType imageType) const`. -/
def supportedImageSizes (T : ImageTypes) (d : PSPPrivate) (imageType : Int) :
    List ImageSizeDef :=
  if !T.ASSERT_supportedImageSizes imageType then []
  else if !d.isValid || imageType ≠ T.IMG_INT_MEDIA then
    -- Only IMG_INT_MEDIA is supported.
    []
  else
    -- TODO: Actually check the icon size.
    -- Assuming 144x80 for now.
    [{ name := none, width := 144, height := 80, index := 0 }]

/-- The method `PSP::supportedImageSizes_static(ImageType imageType)`. -/
def supportedImageSizes_static (T : ImageTypes) (imageType : Int) : List ImageSizeDef :=
  if !T.ASSERT_supportedImageSizes imageType then []
  else if imageType ≠ T.IMG_INT_ICON then
    -- Only icons are supported.
    []
  else
    -- NOTE: Assuming the icon is 144x80.
    [{ name := none, width := 144, height := 80, index := 0 }]

end PSP

/-! ## System names and file extensions -/

/-- The constant `RomData::SYSNAME_TYPE_MASK`; both handlers assert it to be 3. -/
def SYSNAME_TYPE_MASK : Nat := 3

/-- The method `WiiWAD::systemName(unsigned int type)`; the base-class check
`isSystemNameTypeValid` (`RomData.hpp`, not among the sources) is a parameter. -/
def WiiWAD.systemName (isSystemNameTypeValid : Nat → Bool) (d : WiiWADPrivate) (type : Nat) :
    Option String :=
  let type := type % U32
  if !d.isValid || !isSystemNameTypeValid type then none
  else
    -- Wii has the same name worldwide, so we can
    -- ignore the region selection.
    let sysNames : List (Option String) := [some "Nintendo Wii", some "Wii", some "Wii", none]
    (sysNames.get? (type &&& SYSNAME_TYPE_MASK)).join

/-- The method `PSP::systemName(unsigned int type)`; the base-class check
`isSystemNameTypeValid` is a parameter. -/
def PSP.systemName (isSystemNameTypeValid : Nat → Bool) (d : PSPPrivate) (type : Nat) :
    Option String :=
  let type := type % U32
  if !d.isValid || !isSystemNameTypeValid type then none
  else
    -- PSP has the same name worldwide, so we can
    -- ignore the region selection.
    let sysNames : List (Option String) :=
      [some "Sony PlayStation Portable", some "PlayStation Portable", some "PSP", none]
    (sysNames.get? (type &&& SYSNAME_TYPE_MASK)).join

/-- The method `WiiWAD::supportedFileExtensions_static()`: the elements of the
static array `exts`, a null pointer being `none`. -/
def WiiWAD.supportedFileExtensions_static : List (Option String) := [some ".wad"]

/-- The method `PSP::supportedFileExtensions_static()`: the elements of the
static array `exts`, with the two ZISO entries in a build with `ENABLE_LZ4`. -/
def PSP.supportedFileExtensions_static (ENABLE_LZ4 : Bool) : List (Option String) :=
  [some ".iso",            -- ISO
   some ".dax",            -- DAX
   some ".ciso", some ".cso"] ++  -- CISO
  (if ENABLE_LZ4 then [some ".ziso", some "zso"] else []) ++  -- ZISO
  [none]

/-! ## RP_ExtractImage -/

/-- The two `HRESULT` values `RP_ExtractImage::Load` returns. -/
inductive HRESULT where
  | S_OK
  | E_FAIL
  deriving DecidableEq, Repr

/-- Modelled from the spec: a handler instance as a front-end holds it, "a live
association between one byte source and one successfully-probed format
handler"; only its class name is kept. -/
structure RomDataRef where
  className : String
  deriving DecidableEq, Repr

/-- Modelled from the spec: an `RpFile` object (`librpbase/file/RpFile.hpp` is
missing): the name it was constructed with, whether the open succeeded, and
its reference count. The constructor leaves the count at 1; the object is
destroyed when the count reaches 0. -/
structure RpFile where
  filename : String
  isOpen : Bool
  refCount : Nat
  deriving DecidableEq, Repr

/-- Modelled from the spec: `RpFile::unref()` takes one reference away. -/
def RpFile.unref (f : RpFile) : RpFile := { f with refCount := f.refCount - 1 }

/-- A ghost record of the calls `RP_ExtractImage::Load` makes on the handler
it held and on the `RpFile` it creates, in program order. -/
inductive ShellEvent where
  | unrefRomData
  | newRpFile
  | isOpen
  | unrefFile
  | factoryCreate
  deriving DecidableEq, Repr

/-- The collaborators of `RP_ExtractImage::Load` that are not among the
sources. -/
structure ShellEnv where
  /-- The conversion `W2U8` of the UTF-16 file name. -/
  W2U8 : List Nat → String
  /-- The call `Config::instance()->enableThumbnailOnNetworkFS()`. -/
  enableThumbnailOnNetworkFS : Bool
  /-- The call `FileSystem::isOnBadFS(filename, netFS)`. -/
  isOnBadFS : String → Bool → Bool
  /-- Whether `new RpFile(filename, RpFile::FM_OPEN_READ_GZ)` opens the file. -/
  openRpFile : String → Bool
  /-- The attribute `RomDataFactory::RDA_HAS_THUMBNAIL`. -/
  RDA_HAS_THUMBNAIL : Nat
  /-- The call `RomDataFactory::create(file, attrs)`, null when no handler
  recognizes the file. -/
  RomDataFactory_create : RpFile → Nat → Option RomDataRef

/-- The members of `RP_ExtractImage_Private` that `Load` uses; `log` is the
ghost record of its calls. -/
structure RP_ExtractImage_Private where
  romData : Option RomDataRef
  filename : String
  log : List ShellEvent

namespace RP_ExtractImage

/-- The method `RP_ExtractImage::Load(LPCOLESTR pszFileName, DWORD dwMode)`: the
`HRESULT` and the private data after the call. -/
def Load (E : ShellEnv) (d : RP_ExtractImage_Private) (pszFileName : List Nat) (_dwMode : Nat) :
    HRESULT × RP_ExtractImage_Private :=
  -- If we already have a RomData object, unref() it first.
  let d :=
    match d.romData with
    | some _ => { d with romData := none, log := d.log ++ [ShellEvent.unrefRomData] }
    | none => d
  -- pszFileName is the file being worked on.
  let d := { d with filename := E.W2U8 pszFileName }
  -- Check for "bad" file systems.
  if E.isOnBadFS d.filename E.enableThumbnailOnNetworkFS then
    -- This file is on a "bad" file system.
    (HRESULT.E_FAIL, d)
  else
    -- Attempt to open the ROM file.
    let file : RpFile :=
      { filename := d.filename, isOpen := E.openRpFile d.filename, refCount := 1 }
    let d := { d with log := d.log ++ [ShellEvent.newRpFile, ShellEvent.isOpen] }
    let r : RpFile × RP_ExtractImage_Private :=
      if !file.isOpen then
        (file.unref, { d with log := d.log ++ [ShellEvent.unrefFile] })
      else (file, d)
    let file := r.1
    let d := r.2
    -- Get the appropriate RomData class for this ROM.
    -- RomData class *must* support at least one image type.
    let d := { d with
      romData := E.RomDataFactory_create file E.RDA_HAS_THUMBNAIL
      log := d.log ++ [ShellEvent.factoryCreate] }
    let d := { d with log := d.log ++ [ShellEvent.unrefFile] }
    -- NOTE: Since this is the registered image extractor
    -- for the file type, we'll continue even if d->romData is nullptr;
    (HRESULT.S_OK, d)

end RP_ExtractImage

/-! ## The specification's words -/

/-- The conditions on the WAD header bytes and the file length under which the
probe recognizes a file, as the specification lists them: `header_size` equals
`sizeof(Wii_WAD_Header)`, `type` is one of the three WAD types, `ticket_size`
is at least `sizeof(RVL_Ticket)`, and the sum of the four rounded section sizes
and `sizeof(Wii_Content_Bin_Header)`, modulo `2^32`, is at most the file length. -/
def WiiWAD.HeaderAccepted (L : WiiLayout) (hdr : List Nat) (szFile : Int) : Prop :=
  be32_to_cpu (member hdr L.off_header_size 4) = L.sizeof_Wii_WAD_Header ∧
  (be32_to_cpu (member hdr L.off_type 4) = L.WII_WAD_TYPE_Is ∨
    be32_to_cpu (member hdr L.off_type 4) = L.WII_WAD_TYPE_ib ∨
    be32_to_cpu (member hdr L.off_type 4) = L.WII_WAD_TYPE_Bk) ∧
  L.sizeof_RVL_Ticket ≤ be32_to_cpu (member hdr L.off_ticket_size 4) ∧
  (((WiiWADPrivate.toNext64 (be32_to_cpu (member hdr L.off_header_size 4)) +
      WiiWADPrivate.toNext64 (be32_to_cpu (member hdr L.off_cert_chain_size 4)) +
      WiiWADPrivate.toNext64 (be32_to_cpu (member hdr L.off_ticket_size 4)) +
      WiiWADPrivate.toNext64 (be32_to_cpu (member hdr L.off_tmd_size 4)) +
      L.sizeof_Wii_Content_Bin_Header) % U32 : Nat) : Int) ≤ szFile

/-- The specification's condition for a recognized probe: the detection info and
its header pointer are non-null, `header.addr` is 0, `header.size` is at least
`sizeof(Wii_WAD_Header)`, and the header is accepted. -/
def WiiWAD.Recognized (L : WiiLayout) (info : Option DetectInfo) : Prop :=
  ∃ i buf, info = some i ∧ i.header.pData = some buf ∧ i.header.addr = 0 ∧
    L.sizeof_Wii_WAD_Header ≤ i.header.size ∧ WiiWAD.HeaderAccepted L buf i.szFile

/-- The exact (unbounded) length the sections up to the content header need:
each section size rounded up to a multiple of 64, plus the content header. -/
def WiiWAD.exactNeeded (L : WiiLayout) (hdr : List Nat) : Nat :=
  (be32_to_cpu (member hdr L.off_header_size 4) + 63) / 64 * 64 +
  (be32_to_cpu (member hdr L.off_cert_chain_size 4) + 63) / 64 * 64 +
  (be32_to_cpu (member hdr L.off_ticket_size 4) + 63) / 64 * 64 +
  (be32_to_cpu (member hdr L.off_tmd_size 4) + 63) / 64 * 64 +
  L.sizeof_Wii_Content_Bin_Header

/-- The section offsets as the specification describes them, from the four
32-bit sizes `h`, `c`, `t`, `m` of the header: "each section's start offset is
the previous section's end offset rounded up to the next multiple of 64", the
header being at offset 0. -/
def WiiWAD.certStart (h : Nat) : Nat := WiiWADPrivate.toNext64 ((0 + h) % U32)

/-- The ticket starts at the end of the certificate chain, rounded up. -/
def WiiWAD.ticketStart (h c : Nat) : Nat :=
  WiiWADPrivate.toNext64 ((WiiWAD.certStart h + c) % U32)

/-- The TMD starts at the end of the ticket, rounded up. -/
def WiiWAD.tmdStart (h c t : Nat) : Nat :=
  WiiWADPrivate.toNext64 ((WiiWAD.ticketStart h c + t) % U32)

/-- The data region starts at the end of the TMD, rounded up. -/
def WiiWAD.dataStart (h c t m : Nat) : Nat :=
  WiiWADPrivate.toNext64 ((WiiWAD.tmdStart h c t + m) % U32)

/-- The accounting of the specification for the file `Load` creates: "counting
the RpFile's construction as one acquisition and each unref() as one release".
With `refs` references held, whether the calls of `log` release the file more
often than it was acquired or use it (`isOpen`, the factory call, `unref`)
when no reference is held. -/
def usesReleasedFile : Nat → List ShellEvent → Bool
  | _, [] => false
  | refs, ShellEvent.newRpFile :: rest => usesReleasedFile (refs + 1) rest
  | refs, ShellEvent.unrefFile :: rest => refs == 0 || usesReleasedFile (refs - 1) rest
  | refs, ShellEvent.isOpen :: rest => refs == 0 || usesReleasedFile refs rest
  | refs, ShellEvent.factoryCreate :: rest => refs == 0 || usesReleasedFile refs rest
  | refs, ShellEvent.unrefRomData :: rest => usesReleasedFile refs rest

/-- The value of an uppercase hexadecimal digit: `'0'`..`'9'` are 0..9 and
`'A'`..`'F'` are 10..15. -/
def hexDigitValue (c : Char) : Nat :=
  if c.toNat ≤ 57 then c.toNat - 48 else c.toNat - 55

/-- The number a string of hexadecimal digits denotes, most significant digit
first. -/
def hexValue (cs : List Char) : Nat :=
  cs.foldl (fun acc c => acc * 16 + hexDigitValue c) 0

/-- The number a string of decimal digits denotes, most significant digit
first. -/
def decValue (cs : List Char) : Nat :=
  cs.foldl (fun acc c => acc * 10 + (c.toNat - 48)) 0

/-- A decimal numeral: one or more decimal digits, without a leading zero
unless it is the single digit `0`. -/
def IsDecimalNumeral (cs : List Char) : Prop :=
  cs ≠ [] ∧ (∀ c ∈ cs, c.isDigit = true) ∧ (cs.head? = some '0' → cs = ['0'])

/-- "Rounded up to the next multiple of 64" in unsigned 32-bit arithmetic:
`start` is a multiple of 64; when the next multiple of 64 at or above `prevEnd`
is a 32-bit value, `start` is that multiple, the smallest one with
`prevEnd ≤ start`; otherwise the round-up wraps to 0. -/
def WiiWAD.IsRoundUp64 (prevEnd start : Nat) : Prop :=
  start % 64 = 0 ∧
  (prevEnd ≤ U32 - 64 →
    prevEnd ≤ start ∧ start < prevEnd + 64 ∧ ∀ k : Nat, k % 64 = 0 → prevEnd ≤ k → start ≤ k) ∧
  (U32 - 64 < prevEnd → start = 0)

/-! ### Intermediate values of the WiiWAD constructor -/

/-- The result of the constructor's header read on file `f`. -/
def WiiWAD.hdrRead (L : WiiLayout) (f : IRpFile) : List Nat × IRpFile :=
  f.rewind.read L.sizeof_Wii_WAD_Header

/-- The member `wadHeader` after the header read. -/
def WiiWAD.hdrBytes (L : WiiLayout) (f : IRpFile) : List Nat :=
  overwrite (List.replicate L.sizeof_Wii_WAD_Header 0) (WiiWAD.hdrRead L f).1

/-- The detection info the constructor builds for its own probe. -/
def WiiWAD.probeInfo (L : WiiLayout) (f : IRpFile) : DetectInfo :=
  { header := { addr := 0, size := L.sizeof_Wii_WAD_Header, pData := some (WiiWAD.hdrBytes L f) }
    ext := none
    szFile := (WiiWAD.hdrRead L f).2.size }

/-- The value of `addr` at the ticket read. -/
def WiiWAD.ticketAddr (L : WiiLayout) (f : IRpFile) : Nat :=
  (WiiWADPrivate.toNext64 (be32_to_cpu (member (WiiWAD.hdrBytes L f) L.off_header_size 4)) +
    WiiWADPrivate.toNext64
      (be32_to_cpu (member (WiiWAD.hdrBytes L f) L.off_cert_chain_size 4))) % U32

/-- The result of the ticket read. -/
def WiiWAD.ticketRead (L : WiiLayout) (f : IRpFile) : List Nat × IRpFile :=
  (WiiWAD.hdrRead L f).2.seekAndRead (WiiWAD.ticketAddr L f) L.sizeof_RVL_Ticket

/-- The value of `addr` at the TMD header read. -/
def WiiWAD.tmdAddr (L : WiiLayout) (f : IRpFile) : Nat :=
  (WiiWAD.ticketAddr L f +
    WiiWADPrivate.toNext64
      (be32_to_cpu (member (WiiWAD.hdrBytes L f) L.off_ticket_size 4))) % U32

/-- The result of the TMD header read. -/
def WiiWAD.tmdRead (L : WiiLayout) (f : IRpFile) : List Nat × IRpFile :=
  (WiiWAD.ticketRead L f).2.seekAndRead (WiiWAD.tmdAddr L f) L.sizeof_RVL_TMD_Header

/-- The value of `addr` handed to the CBC reader. -/
def WiiWAD.dataAddr (L : WiiLayout) (f : IRpFile) : Nat :=
  (WiiWAD.tmdAddr L f +
    WiiWADPrivate.toNext64
      (be32_to_cpu (member (WiiWAD.hdrBytes L f) L.off_tmd_size 4))) % U32

/-- The WAD header read, the probe, the ticket read and the TMD header read of
the constructor all succeed on file `f`. -/
def WiiWAD.ReadsSucceed (L : WiiLayout) (f : IRpFile) : Prop :=
  (WiiWAD.hdrRead L f).1.length = L.sizeof_Wii_WAD_Header ∧
  (∃ r : Int, WiiWAD.isRomSupported_static L (some (WiiWAD.probeInfo L f)) = some r ∧ 0 ≤ r) ∧
  (WiiWAD.ticketRead L f).1.length = L.sizeof_RVL_Ticket ∧
  (WiiWAD.tmdRead L f).1.length = L.sizeof_RVL_TMD_Header

/-- The key status the constructor records in a valid instance: the result of
the key lookup in a build with decryption, `VERIFY_NO_SUPPORT` otherwise. -/
def WiiWAD.keyStatus (E : WiiEnv) : KeyManager.VerifyResult :=
  if E.ENABLE_DECRYPTION then (E.getAndVerify "rvl-common" E.encryptionVerifyData 16).1
  else KeyManager.VerifyResult.VERIFY_NO_SUPPORT

/-- The key the constructor loads into the cipher: the first `keyData.length`
bytes of the "rvl-common" key the key manager returned. -/
def WiiWAD.commonKey (E : WiiEnv) : List Nat :=
  (E.getAndVerify "rvl-common" E.encryptionVerifyData 16).2.key.take
    (E.getAndVerify "rvl-common" E.encryptionVerifyData 16).2.length

/-- The disc reader the PSP constructor selects on file `f`, as the
specification describes it: the `CisoPspReader` "when the CISO probe accepts
the header and the reader opens, otherwise the raw `DiscReader`". -/
def PSP.selectedReader (E : PSPEnv) (R : PSPReaders) (f : IRpFile) : IDiscReader :=
  if 0 ≤ E.isDiscSupported_static (f.rewind.read 256).1 256 ∧
      (R.newCisoPspReader (f.rewind.read 256).2).isOpen = true then
    R.newCisoPspReader (f.rewind.read 256).2
  else R.newDiscReader (f.rewind.read 256).2

/-- The bytes the PSP constructor reads at `ISO_PVD_ADDRESS_2048`. -/
def PSP.pvdRead (IL : IsoLayout) (E : PSPEnv) (R : PSPReaders) (f : IRpFile) : List Nat :=
  (PSP.selectedReader E R f).seekAndRead IL.ISO_PVD_ADDRESS_2048
    IL.sizeof_ISO_Primary_Volume_Descriptor

/-- Every step of the construction chain of PSP succeeds: the file reference is
non-null, a full 256-byte header is read, the selected disc reader is open, a
full Primary Volume Descriptor is read, `ISO::checkPVD` on it is non-negative,
the system-identifier check on it is non-negative, and the `IsoPartition` built
on the disc reader is open. -/
def PSP.ChainSucceeds (IL : IsoLayout) (E : PSPEnv) (R : PSPReaders)
    (file : Option IRpFile) : Prop :=
  ∃ f, file = some f ∧ (f.rewind.read 256).1.length = 256 ∧
    (PSP.selectedReader E R f).isOpen = true ∧
    (PSP.pvdRead IL E R f).length = IL.sizeof_ISO_Primary_Volume_Descriptor ∧
    0 ≤ R.ISO_checkPVD (PSP.pvdRead IL E R f) ∧
    0 ≤ PSP.isRomSupported_static_PVD
      (some { sysID := member (PSP.pvdRead IL E R f) IL.off_sysID sizeof_sysID }) ∧
    (R.newIsoPartition (PSP.selectedReader E R f) 0 0).isOpen = true

/-- The net reference count of the objects of class `cls` in a record of calls:
"counting one acquisition per object created and one release per unref". -/
def netCount (log : List IoEvent) (cls : String) : Int :=
  (log.count (IoEvent.create cls) : Int) - (log.count (IoEvent.unref cls) : Int)

/-! ## Sample inputs -/

/-- A WAD header whose certificate-chain size is `0xFFFFFFFF`: header size 0x20,
type `Is`, ticket size 0x2A4, TMD size 0. -/
def wrapHeader : List Nat :=
  [0, 0, 0, 32, 0x49, 0x73, 0, 0, 255, 255, 255, 255, 0, 0, 0, 0,
   0, 0, 2, 0xA4, 0, 0, 0, 0, 0, 0, 0, 0, 0, 0, 0, 0]

/-- Detection info for a 2368-byte file that starts with `wrapHeader`. -/
def wrapInfo : DetectInfo :=
  { header := { addr := 0, size := 32, pData := some wrapHeader }, ext := none, szFile := 2368 }

/-- Detection info with a 31-byte window and no readable byte behind the pointer. -/
def shortInfo : DetectInfo :=
  { header := { addr := 0, size := 31, pData := some [] }, ext := some ".wad", szFile := 4096 }

/-- A consistent WAD header: header size 0x20, type `Is`, no certificate chain,
ticket size 0x2A4, TMD size 0x1E4. -/
def okHeader : List Nat :=
  [0, 0, 0, 32, 0x49, 0x73, 0, 0, 0, 0, 0, 0, 0, 0, 0, 0,
   0, 0, 2, 0xA4, 0, 0, 1, 0xE4, 0, 0, 0, 0, 0, 0, 0, 0]

/-- Detection info for a 2880-byte file that starts with `okHeader`. -/
def okInfo : DetectInfo :=
  { header := { addr := 0, size := 32, pData := some okHeader }, ext := some ".wad",
    szFile := 2880 }

/-- An open 2880-byte file: `okHeader` followed by zero bytes. -/
def sampleWad : IRpFile :=
  { data := okHeader ++ List.replicate 2848 0, pos := 0, isOpen := true }

/-- A build with decryption whose key lookup reports a wrong key. -/
def wrongKeyEnv : WiiEnv where
  ENABLE_DECRYPTION := true
  getAndVerify := fun _ _ _ =>
    (KeyManager.VerifyResult.VERIFY_WRONG_KEY, { key := [], length := 0 })
  encryptionVerifyData := []
  aesCbcDecrypt := fun _ _ data => data
  verifyResultToString := fun _ => some "The key in keys.conf is incorrect."

/-- A PSP environment whose collaborators accept everything and decode nothing. -/
def pspEnv0 : PSPEnv where
  isDiscSupported_static := fun _ _ => 0
  latin1_to_utf8 := fun _ _ => ""
  newELF := fun _ => { isValid := false, isOpen := false, fields := none }
  newISO := fun _ _ _ => { isValid := false, isOpen := false, fields := none }
  RpPng_load := fun _ => none
  stack := []

/-- A filesystem that holds `/UMD_DATA.BIN` with the bytes `ULJS|` and no other
file. -/
def sampleIso : IsoPartition where
  isOpen := true
  open_ := fun path =>
    if path = "/UMD_DATA.BIN" then some { data := [85, 76, 74, 83, 124], pos := 0, isOpen := true }
    else none

/-- A PSP environment that decodes Latin-1 byte by byte and whose nested handlers
report nothing. -/
def pspEnv1 : PSPEnv where
  isDiscSupported_static := fun _ _ => -1
  latin1_to_utf8 := fun bytes len => String.mk ((bytes.take len.toNat).map Char.ofNat)
  newELF := fun _ => { isValid := false, isOpen := false, fields := none }
  newISO := fun _ _ _ => { isValid := false, isOpen := false, fields := none }
  RpPng_load := fun _ => none
  stack := []

/-- A valid, open PSP instance over `sampleIso` whose fields are not loaded. -/
def samplePsp : PSPPrivate where
  isValid := true
  file := some { data := [], pos := 0, isOpen := true }
  fields := RomFields.new
  className := "PSP"
  mimeType := "application/x-cd-image"
  fileType := FileType.DiscImage
  pvd := { sysID := PSP.PSP_GAME_ ++ List.replicate 23 32 }
  discReader := some { cls := "DiscReader", isOpen := true, data := [] }
  isoPartition := some sampleIso
  img_icon := none
  bootExeData := none
  ioLog := []

/-- A volume descriptor whose system identifier is `"PSP GAME "` padded with
spaces to 32 bytes. -/
def samplePvd : ISO_Primary_Volume_Descriptor :=
  { sysID := PSP.PSP_GAME_ ++ List.replicate 23 32 }

/-- A volume descriptor whose system identifier is `"PSP GAME"` followed by 24
NUL bytes. -/
def nulPaddedPvd : ISO_Primary_Volume_Descriptor :=
  { sysID := [80, 83, 80, 32, 71, 65, 77, 69] ++ List.replicate 24 0 }

/-- Detection info with a 256-byte window of zero bytes at address 0. -/
def zeroInfo : DetectInfo :=
  { header := { addr := 0, size := 256, pData := some (List.replicate 256 0) }
    ext := some ".iso", szFile := 256 }

/-- Readers over the file itself: no CISO reader opens, the raw `DiscReader`
presents the bytes of the file, every descriptor passes `ISO::checkPVD`, and
the filesystem is `sampleIso`. -/
def rawReaders : PSPReaders where
  newCisoPspReader := fun _ => { cls := "CisoPspReader", isOpen := false, data := [] }
  newDiscReader := fun f => { cls := "DiscReader", isOpen := f.isOpen, data := f.data }
  ISO_checkPVD := fun _ => 0
  newIsoPartition := fun _ _ _ => sampleIso

/-- An open 256-byte file of zero bytes: long enough for the header read, too
short to hold a volume descriptor. -/
def shortDisc : IRpFile := { data := List.replicate 256 0, pos := 0, isOpen := true }

/-- An open disc image: 16 empty sectors, then a volume descriptor whose system
identifier is that of `samplePvd`. -/
def sampleDisc : IRpFile :=
  { data := List.replicate 0x8000 0 ++
      (List.replicate 8 0 ++ samplePvd.sysID ++ List.replicate 2008 0)
    pos := 0, isOpen := true }

/-- A system-name type check in the manner of `RomData::isSystemNameTypeValid`:
the name type is at most 2 and no bit above the region bit is set. -/
def sampleTypeValid (type : Nat) : Bool := decide (type % 4 ≤ 2 ∧ type / 8 = 0)

/-- A build with decryption whose key lookup succeeds. -/
def okKeyEnv : WiiEnv where
  ENABLE_DECRYPTION := true
  getAndVerify := fun _ _ _ =>
    (KeyManager.VerifyResult.VERIFY_OK, { key := List.replicate 16 0, length := 16 })
  encryptionVerifyData := []
  aesCbcDecrypt := fun _ _ data => data
  verifyResultToString := fun _ => none

/-- A valid, open WiiWAD instance with a verified key whose TMD header names
IOS58 as the system version (`sys_version` is 00000001-0000003A) and whose
other bytes are zero. -/
def ios58Wad : WiiWADPrivate :=
  { WiiWADPrivate.WiiWADPrivate wiiLayout (some sampleWad) with
    isValid := true
    tmdHeader := List.replicate 0x184 0 ++ [0, 0, 0, 1, 0, 0, 0, 58] ++ List.replicate 88 0
    key_status := KeyManager.VerifyResult.VERIFY_OK }

/-- A valid, open WiiWAD instance with a verified key whose TMD header has the
system version 00000001-0000003A (IOS58) and the title ID 00010001-48414445
(the low word is the text `HADE`); the other bytes are zero. -/
def hadeWad : WiiWADPrivate :=
  { WiiWADPrivate.WiiWADPrivate wiiLayout (some sampleWad) with
    isValid := true
    tmdHeader := List.replicate 0x184 0 ++
      [0, 0, 0, 1, 0, 0, 0, 58, 0, 1, 0, 1, 0x48, 0x41, 0x44, 0x45] ++ List.replicate 80 0
    key_status := KeyManager.VerifyResult.VERIFY_OK }

/-- A valid, open WiiWAD instance with a verified key whose TMD header has the
system version 00000001-00000300, one past the last standard IOS slot, and the
title ID 0001ABCD-EF00092F; the other bytes are zero. -/
def slot300Wad : WiiWADPrivate :=
  { WiiWADPrivate.WiiWADPrivate wiiLayout (some sampleWad) with
    isValid := true
    tmdHeader := List.replicate 0x184 0 ++
      [0, 0, 0, 1, 0, 0, 3, 0, 0, 1, 0xAB, 0xCD, 0xEF, 0, 9, 0x2F] ++ List.replicate 80 0
    key_status := KeyManager.VerifyResult.VERIFY_OK }

/-- A filesystem that holds `/UMD_DATA.BIN` with the four bytes `ULJS`, without
a '|', and no other file. -/
def noBarIso : IsoPartition where
  isOpen := true
  open_ := fun path =>
    if path = "/UMD_DATA.BIN" then some { data := [85, 76, 74, 83], pos := 0, isOpen := true }
    else none

/-- The instance `samplePsp` over `noBarIso`. -/
def noBarPsp : PSPPrivate := { samplePsp with isoPartition := some noBarIso }

/-- The environment `pspEnv1` when the stack bytes under `buf` hold ten `A`s and
a '|' from an earlier call. -/
def staleEnv : PSPEnv := { pspEnv1 with stack := List.replicate 10 65 ++ [124] }

/-- A shell environment in which no file is on a "bad" file system, no file
opens, and the factory recognizes nothing. -/
def noOpenShell : ShellEnv where
  W2U8 := fun name => String.mk (name.map Char.ofNat)
  enableThumbnailOnNetworkFS := false
  isOnBadFS := fun _ _ => false
  openRpFile := fun _ => false
  RDA_HAS_THUMBNAIL := 1
  RomDataFactory_create := fun _ _ => none

/-- An extractor that holds no handler yet. -/
def freshExtractor : RP_ExtractImage_Private := { romData := none, filename := "", log := [] }

/-! ## Theorems -/

section Arithmetic

open WiiWADPrivate

theorem and_mask63 (x : Nat) (hx : x < 2 ^ 32) : x &&& (2 ^ 32 - 1 - 63) = x / 64 * 64 := by
  apply Nat.eq_of_testBit_eq
  intro i
  have hm : (2 ^ 32 - 1 - 63 : Nat) = 2 ^ 6 * (2 ^ 26 - 1) := by norm_num
  have h64 : (64 : Nat) = 2 ^ 6 := by norm_num
  rw [Nat.testBit_and, hm, Nat.testBit_mul_pow_two, Nat.testBit_two_pow_sub_one,
    Nat.mul_comm (x / 64) 64, h64, Nat.testBit_mul_pow_two, ← Nat.shiftRight_eq_div_pow,
    Nat.testBit_shiftRight]
  by_cases h6 : 6 ≤ i
  · by_cases h32 : i < 32
    · have h26 : i - 6 < 26 := by omega
      have e : 6 + (i - 6) = i := by omega
      simp [h6, h26, e]
    · have hf : x.testBit i = false := by
        apply Nat.testBit_lt_two_pow
        calc x < 2 ^ 32 := hx
          _ ≤ 2 ^ i := Nat.pow_le_pow_right (by norm_num) (by omega)
      have e : 6 + (i - 6) = i := by omega
      simp [hf, e]
  · simp [h6]

theorem toNext64_eq (v : Nat) : toNext64 v = (v + 63) % 4294967296 / 64 * 64 := by
  unfold toNext64 U32
  exact and_mask63 _ (Nat.mod_lt _ (by norm_num))

theorem toNext64_lt (v : Nat) : toNext64 v < U32 := by
  rw [toNext64_eq]; unfold U32; omega

theorem toNext64_mod64 (v : Nat) : toNext64 v % 64 = 0 := by
  rw [toNext64_eq]; omega

theorem toNext64_add (a b : Nat) :
    (toNext64 a + toNext64 b) % U32 = toNext64 ((toNext64 a + b) % U32) := by
  simp only [toNext64_eq, U32]
  norm_num
  omega

/-- The model's `toNext64` rounds up in the sense of the specification. -/
theorem toNext64_isRoundUp (v : Nat) (hv : v < U32) :
    WiiWAD.IsRoundUp64 v (toNext64 v) := by
  unfold WiiWAD.IsRoundUp64
  rw [toNext64_eq]
  unfold U32 at *
  refine ⟨by omega, ?_, by omega⟩
  intro hle
  refine ⟨by omega, by omega, ?_⟩
  intro k hk hvk
  omega

/-- C5 (as stated, refuted): it is not true that for every unsigned 32-bit `v`
the value `toNext64 v` is a multiple of 64 with `v ≤ toNext64 v < v + 64`;
at `v = 0xFFFFFFFF` the sum wraps and the result is 0. -/
theorem toNext64_wraps :
    ¬ ∀ v : Nat, v < U32 →
      toNext64 v % 64 = 0 ∧ v ≤ toNext64 v ∧ toNext64 v < v + 64 ∧
        (v % 64 = 0 → toNext64 v = v) := by
  intro h
  have h1 := (h 0xFFFFFFFF (by decide)).2.1
  have h2 : toNext64 0xFFFFFFFF = 0 := by decide
  rw [h2] at h1
  exact absurd h1 (by decide)

/-- C5 (amended): for every unsigned 32-bit `v`, `toNext64 v` is a multiple of 64
and equals `v` when `v` is a multiple of 64; when `v ≤ 2^32 - 64` it is the
smallest multiple of 64 that is at least `v`, and `v ≤ toNext64 v < v + 64`. -/
theorem toNext64_smallest_multiple (v : Nat) (hv : v < U32) :
    toNext64 v % 64 = 0 ∧ (v % 64 = 0 → toNext64 v = v) ∧
      (v ≤ U32 - 64 →
        v ≤ toNext64 v ∧ toNext64 v < v + 64 ∧
          ∀ m : Nat, m % 64 = 0 → v ≤ m → toNext64 v ≤ m) := by
  rw [toNext64_eq]
  unfold U32 at *
  refine ⟨by omega, by omega, ?_⟩
  intro hle
  refine ⟨by omega, by omega, ?_⟩
  intro m hm hvm
  omega

/-- Witness for C5: `toNext64 100 = 128`, the smallest multiple of 64 above 100. -/
theorem toNext64_smallest_multiple_witness :
    100 < U32 ∧ toNext64 100 % 64 = 0 ∧ (100 % 64 = 0 → toNext64 100 = 100) ∧
      (100 ≤ U32 - 64 →
        100 ≤ toNext64 100 ∧ toNext64 100 < 100 + 64 ∧
          ∀ m : Nat, m % 64 = 0 → 100 ≤ m → toNext64 100 ≤ m) :=
  ⟨by decide, toNext64_smallest_multiple 100 (by decide)⟩

end Arithmetic

section WiiProbe

open WiiWADPrivate WiiWAD

theorem readBytes_eq_member (buf : List Nat) (off n : Nat) (h : off + n ≤ buf.length) :
    readBytes buf off n = some (member buf off n) := by
  simp [readBytes, member, h]

theorem member_length (buf : List Nat) (off n : Nat) (h : off + n ≤ buf.length) :
    (member buf off n).length = n := by
  simp [member]; omega

theorem asBytes_eq_cpu_to_be32 (raw : List Nat) (v : Nat) (h : raw.length = 4) :
    asBytes raw = cpu_to_be32 v ↔ be32_to_cpu raw = v % U32 := by
  match raw, h with
  | [a, b, c, d], _ =>
    simp only [asBytes, cpu_to_be32, be32_to_cpu, U32, List.map, List.getD_cons_zero,
      List.getD_cons_succ, List.cons.injEq, and_true]
    norm_num
    omega

/-- On a well-formed probe the result is decided by `HeaderAccepted`. -/
theorem isRomSupported_static_eq (L : WiiLayout) (hL : L.WellFormed) (i : DetectInfo)
    (buf : List Nat) (hp : i.header.pData = some buf) (ha : i.header.addr = 0)
    (hs : L.sizeof_Wii_WAD_Header ≤ i.header.size) (hlen : i.header.size ≤ buf.length) :
    (HeaderAccepted L buf i.szFile → isRomSupported_static L (some i) = some 0) ∧
    (¬ HeaderAccepted L buf i.szFile → isRomSupported_static L (some i) = some (-1)) := by
  obtain ⟨h0, h1, h2, h3, o1, o2, o3, o4, o5, -⟩ := hL
  have r1 := readBytes_eq_member buf L.off_header_size 4 (by omega)
  have r2 := readBytes_eq_member buf L.off_type 4 (by omega)
  have r3 := readBytes_eq_member buf L.off_ticket_size 4 (by omega)
  have r4 := readBytes_eq_member buf L.off_cert_chain_size 4 (by omega)
  have r5 := readBytes_eq_member buf L.off_tmd_size 4 (by omega)
  have e1 := asBytes_eq_cpu_to_be32 _ L.sizeof_Wii_WAD_Header
    (member_length buf L.off_header_size 4 (by omega))
  have e2 := fun v => asBytes_eq_cpu_to_be32 _ v (member_length buf L.off_type 4 (by omega))
  rw [Nat.mod_eq_of_lt h0] at e1
  have e2a := e2 L.WII_WAD_TYPE_Is
  have e2b := e2 L.WII_WAD_TYPE_ib
  have e2c := e2 L.WII_WAD_TYPE_Bk
  rw [Nat.mod_eq_of_lt h1] at e2a
  rw [Nat.mod_eq_of_lt h2] at e2b
  rw [Nat.mod_eq_of_lt h3] at e2c
  have hg : ¬ (i.header.addr ≠ 0 ∨ i.header.size < L.sizeof_Wii_WAD_Header) := by
    rw [ha]; omega
  simp only [isRomSupported_static, hp, hg, if_false, r1, r2, r3, r4, r5, Option.some_bind,
    ne_eq, e1, e2a, e2b, e2c, HeaderAccepted]
  have hsum : ∀ a b c d e : Nat,
      ((((a + b) % U32 + c) % U32 + d) % U32 + e) % U32 = (a + b + c + d + e) % U32 := by
    intro a b c d e; unfold U32; omega
  rw [hsum]
  generalize be32_to_cpu (member buf L.off_header_size 4) = vh
  generalize be32_to_cpu (member buf L.off_type 4) = vt
  generalize be32_to_cpu (member buf L.off_ticket_size 4) = vk
  generalize be32_to_cpu (member buf L.off_cert_chain_size 4) = vc
  generalize be32_to_cpu (member buf L.off_tmd_size 4) = vm
  generalize (toNext64 vh + toNext64 vc + toNext64 vk + toNext64 vm +
    L.sizeof_Wii_Content_Bin_Header) % U32 = total
  constructor
  · rintro ⟨a1, a2, a3, a4⟩
    have n2 : ¬ (¬ vt = L.WII_WAD_TYPE_Is ∧ ¬ vt = L.WII_WAD_TYPE_ib ∧
        ¬ vt = L.WII_WAD_TYPE_Bk) := by
      rintro ⟨x, y, z⟩
      rcases a2 with h | h | h
      exacts [x h, y h, z h]
    rw [if_neg (not_not.mpr a1), if_neg n2, if_neg (Nat.not_lt.mpr a3),
      if_neg (not_lt.mpr a4)]
  · intro hn
    by_cases a1 : vh = L.sizeof_Wii_WAD_Header
    · rw [if_neg (not_not.mpr a1)]
      by_cases a2 : (¬ vt = L.WII_WAD_TYPE_Is ∧ ¬ vt = L.WII_WAD_TYPE_ib ∧
          ¬ vt = L.WII_WAD_TYPE_Bk)
      · rw [if_pos a2]
      · rw [if_neg a2]
        by_cases a3 : vk < L.sizeof_RVL_Ticket
        · rw [if_pos a3]
        · rw [if_neg a3]
          by_cases a4 : (total : Int) > i.szFile
          · rw [if_pos a4]
          · have t2 : vt = L.WII_WAD_TYPE_Is ∨ vt = L.WII_WAD_TYPE_ib ∨
                vt = L.WII_WAD_TYPE_Bk := by
              by_contra h
              simp only [not_or] at h
              exact a2 h
            exact absurd ⟨a1, t2, Nat.not_lt.mp a3, not_lt.mp a4⟩ hn
    · rw [if_pos a1]

theorem getD_asBytes (raw : List Nat) (k : Nat) :
    (asBytes raw).getD k 0 = raw.getD k 0 % 256 := by
  induction raw generalizing k with
  | nil => simp [asBytes]
  | cons a t ih =>
    cases k with
    | zero => simp [asBytes]
    | succ k => simpa [asBytes] using ih k

theorem be32_to_cpu_asBytes (raw : List Nat) : be32_to_cpu (asBytes raw) = be32_to_cpu raw := by
  simp only [be32_to_cpu, getD_asBytes, Nat.mod_mod]

theorem asBytes_member_take (buf : List Nat) (off n : Nat) (h : off + 4 ≤ n) :
    member (asBytes (buf.take n)) off 4 = asBytes (member buf off 4) := by
  simp only [member, asBytes, List.map_take, List.map_drop, List.drop_take, List.take_take]
  congr 1
  omega

theorem be32_member_take (buf : List Nat) (off n : Nat) (h : off + 4 ≤ n) :
    be32_to_cpu (member buf off 4) = be32_to_cpu (member (asBytes (buf.take n)) off 4) := by
  rw [asBytes_member_take buf off n h, be32_to_cpu_asBytes]

theorem headerAccepted_take (L : WiiLayout) (hL : L.WellFormed) (buf : List Nat) (sz : Int) :
    HeaderAccepted L buf sz ↔
      HeaderAccepted L (asBytes (buf.take L.sizeof_Wii_WAD_Header)) sz := by
  obtain ⟨-, -, -, -, o1, o2, o3, o4, o5, -⟩ := hL
  unfold HeaderAccepted
  rw [← be32_member_take buf _ _ o1, ← be32_member_take buf _ _ o2,
    ← be32_member_take buf _ _ o3, ← be32_member_take buf _ _ o4,
    ← be32_member_take buf _ _ o5]

/-- C1: on a probe whose declared window lies inside its buffer,
`WiiWAD::isRomSupported_static` returns 0 or -1; it returns 0 exactly when the
specification's conditions (`Recognized`) hold; and two probes with non-null
windows at address 0 of at least `sizeof(Wii_WAD_Header)` bytes that agree on
the WAD header bytes and on the file length get the same result, whatever the
extension hints and the bytes past the header. -/
theorem isRomSupported_static_spec (L : WiiLayout) (hL : L.WellFormed)
    (info : Option DetectInfo)
    (hbuf : ∀ i buf, info = some i → i.header.pData = some buf → i.header.size ≤ buf.length) :
    (isRomSupported_static L info = some 0 ∨ isRomSupported_static L info = some (-1)) ∧
    (isRomSupported_static L info = some 0 ↔ Recognized L info) ∧
    (∀ i i2 buf buf2, info = some i → i.header.pData = some buf →
      i2.header.pData = some buf2 → i.header.addr = 0 → i2.header.addr = 0 →
      L.sizeof_Wii_WAD_Header ≤ i.header.size → L.sizeof_Wii_WAD_Header ≤ i2.header.size →
      i2.header.size ≤ buf2.length →
      asBytes (buf.take L.sizeof_Wii_WAD_Header) = asBytes (buf2.take L.sizeof_Wii_WAD_Header) →
      i.szFile = i2.szFile →
      isRomSupported_static L (some i2) = isRomSupported_static L (some i)) := by
  have key : ∀ i : DetectInfo, info = some i →
      (isRomSupported_static L info = some 0 ∨ isRomSupported_static L info = some (-1)) ∧
      (isRomSupported_static L info = some 0 ↔ Recognized L info) := by
    intro i hi
    subst hi
    cases hp : i.header.pData with
    | none =>
      have e : isRomSupported_static L (some i) = some (-1) := by
        simp [isRomSupported_static, hp]
      refine ⟨Or.inr e, ?_⟩
      rw [e]
      constructor
      · intro h; exact absurd h (by decide)
      · rintro ⟨i2, buf, h1, h2, -⟩
        cases h1
        rw [hp] at h2
        cases h2
    | some buf =>
      by_cases hg : i.header.addr ≠ 0 ∨ i.header.size < L.sizeof_Wii_WAD_Header
      · have e : isRomSupported_static L (some i) = some (-1) := by
          simp only [isRomSupported_static, hp, if_pos hg]
        refine ⟨Or.inr e, ?_⟩
        rw [e]
        constructor
        · intro h; exact absurd h (by decide)
        · rintro ⟨i2, buf2, h1, -, h3, h4, -⟩
          cases h1
          rcases hg with hg | hg
          · exact absurd h3 hg
          · omega
      · have ha : i.header.addr = 0 := by
          by_contra h; exact hg (Or.inl h)
        have hs : L.sizeof_Wii_WAD_Header ≤ i.header.size := by
          by_contra h; exact hg (Or.inr (by omega))
        obtain ⟨p1, p2⟩ := isRomSupported_static_eq L hL i buf hp ha hs (hbuf i buf rfl hp)
        by_cases hacc : HeaderAccepted L buf i.szFile
        · refine ⟨Or.inl (p1 hacc), ?_⟩
          constructor
          · intro _; exact ⟨i, buf, rfl, hp, ha, hs, hacc⟩
          · intro _; exact p1 hacc
        · refine ⟨Or.inr (p2 hacc), ?_⟩
          rw [p2 hacc]
          constructor
          · intro h; exact absurd h (by decide)
          · rintro ⟨i2, buf2, h1, h2, -, -, h5⟩
            cases h1
            rw [hp] at h2
            cases h2
            exact absurd h5 hacc
  refine ⟨?_, ?_, ?_⟩
  · cases info with
    | none => right; rfl
    | some i => exact (key i rfl).1
  · cases info with
    | none =>
      constructor
      · intro h; simp [isRomSupported_static] at h
      · rintro ⟨i2, buf, h1, -⟩
        cases h1
    | some i => exact (key i rfl).2
  · intro i i2 buf buf2 hi hp hp2 ha ha2 hs hs2 hlen2 hbytes hsz
    subst hi
    obtain ⟨p1, p2⟩ := isRomSupported_static_eq L hL i buf hp ha hs (hbuf i buf rfl hp)
    obtain ⟨q1, q2⟩ := isRomSupported_static_eq L hL i2 buf2 hp2 ha2 hs2 hlen2
    have hiff : HeaderAccepted L buf i.szFile ↔ HeaderAccepted L buf2 i2.szFile := by
      rw [headerAccepted_take L hL buf, headerAccepted_take L hL buf2, hbytes, hsz]
    by_cases hacc : HeaderAccepted L buf i.szFile
    · rw [p1 hacc, q1 (hiff.mp hacc)]
    · rw [p2 hacc, q2 (fun h => hacc (hiff.mpr h))]

/-- Witness for C1: the probe of a 2880-byte file that starts with `okHeader`. -/
theorem isRomSupported_static_spec_witness :
    wiiLayout.WellFormed ∧
    (isRomSupported_static wiiLayout (some okInfo) = some 0 ↔
      Recognized wiiLayout (some okInfo)) :=
  ⟨by decide,
   (isRomSupported_static_spec wiiLayout (by decide) (some okInfo) (by
      intro i buf hi hp
      cases hi
      cases hp
      decide)).2.1⟩

/-- C2 (the code at the failing input): a 2368-byte file whose header declares a
certificate chain of `0xFFFFFFFF` bytes is accepted, although the sections up
to the content header need 4294969664 bytes. -/
theorem isRomSupported_static_accepts_overrun :
    isRomSupported_static wiiLayout (some wrapInfo) = some 0 ∧
    wrapInfo.szFile = 2368 ∧
    exactNeeded wiiLayout wrapHeader = 4294969664 ∧
    ¬ ((exactNeeded wiiLayout wrapHeader : Int) ≤ wrapInfo.szFile) := by
  refine ⟨by decide, rfl, by decide, by decide⟩

/-- When the exact section total stays below `2^32`, an accepted probe does
guarantee a long enough file: the guard is sound as long as nothing wraps. -/
theorem isRomSupported_static_sound_without_wrap (L : WiiLayout) (hL : L.WellFormed)
    (i : DetectInfo) (buf : List Nat) (hp : i.header.pData = some buf) (ha : i.header.addr = 0)
    (hs : L.sizeof_Wii_WAD_Header ≤ i.header.size) (hlen : i.header.size ≤ buf.length)
    (hsmall : exactNeeded L buf < U32)
    (h : isRomSupported_static L (some i) = some 0) :
    (exactNeeded L buf : Int) ≤ i.szFile := by
  obtain ⟨-, p2⟩ := isRomSupported_static_eq L hL i buf hp ha hs hlen
  have hacc : HeaderAccepted L buf i.szFile := by
    by_contra hn
    rw [p2 hn] at h
    exact absurd h (by decide)
  obtain ⟨-, -, -, hle⟩ := hacc
  have e : (toNext64 (be32_to_cpu (member buf L.off_header_size 4)) +
      toNext64 (be32_to_cpu (member buf L.off_cert_chain_size 4)) +
      toNext64 (be32_to_cpu (member buf L.off_ticket_size 4)) +
      toNext64 (be32_to_cpu (member buf L.off_tmd_size 4)) +
      L.sizeof_Wii_Content_Bin_Header) % U32 = exactNeeded L buf := by
    simp only [toNext64_eq, exactNeeded, U32] at hsmall ⊢
    omega
  rw [e] at hle
  exact hle

/-- C3: a probe whose declared window is shorter than the handler's minimum is
not recognized, whatever lies behind the header pointer (a null pointer and a
buffer with no readable byte included) and whatever the CISO probe would
answer: `WiiWAD::isRomSupported_static` returns -1 when `header.size` is below
`sizeof(Wii_WAD_Header)`, `PSP::isRomSupported_static` when it is below 256. -/
theorem short_window_not_recognized (L : WiiLayout) (E : PSPEnv) (info : DetectInfo) :
    (info.header.size < L.sizeof_Wii_WAD_Header →
      ∀ pData : Option (List Nat),
        isRomSupported_static L
          (some { info with header := { info.header with pData := pData } }) = some (-1)) ∧
    (info.header.size < 256 →
      ∀ pData : Option (List Nat),
        PSP.isRomSupported_static E
          (some { info with header := { info.header with pData := pData } }) = -1) := by
  constructor
  · intro h pData
    cases pData with
    | none => rfl
    | some buf => simp [isRomSupported_static, h]
  · intro h pData
    cases pData with
    | none => rfl
    | some buf => simp [PSP.isRomSupported_static, h]

/-- Witness for C3: a 31-byte window over a buffer with no readable byte. -/
theorem short_window_not_recognized_witness :
    isRomSupported_static wiiLayout (some shortInfo) = some (-1) ∧
    PSP.isRomSupported_static pspEnv0 (some shortInfo) = -1 :=
  ⟨(short_window_not_recognized wiiLayout pspEnv0 shortInfo).1 (by decide) (some []),
   (short_window_not_recognized wiiLayout pspEnv0 shortInfo).2 (by decide) (some [])⟩

end WiiProbe

section Ctor

open WiiWADPrivate WiiWAD

/-- What the constructor leaves in a valid instance. -/
theorem ctor_valid_inv (L : WiiLayout) (E : WiiEnv) (f : IRpFile) (d : WiiWADPrivate)
    (hd : WiiWAD L E (some f) = some d) (hv : d.isValid = true) :
    ReadsSucceed L f ∧ d.wadHeader = hdrBytes L f ∧ d.ticket = (ticketRead L f).1 ∧
    d.tmdHeader = (tmdRead L f).1 ∧ d.file = some (tmdRead L f).2 ∧
    d.fields = RomFields.new ∧ d.key_status = keyStatus E ∧
    d.ioLog.take 5 =
      [IoEvent.rewind, IoEvent.read L.sizeof_Wii_WAD_Header, IoEvent.size,
       IoEvent.seekAndRead (ticketAddr L f) L.sizeof_RVL_Ticket,
       IoEvent.seekAndRead (tmdAddr L f) L.sizeof_RVL_TMD_Header] ∧
    (∀ r, d.cbcReader = some r → r.offset = dataAddr L f) := by
  simp only [WiiWAD, WiiWADPrivate.WiiWADPrivate] at hd
  simp only [ReadsSucceed, hdrBytes, ticketRead, tmdRead, ticketAddr, tmdAddr, dataAddr,
    hdrRead, probeInfo, keyStatus]
  split at hd
  · cases hd; simp at hv
  · rename_i hlen0
    cases hprobe : isRomSupported_static L (some
        { header := { addr := 0, size := L.sizeof_Wii_WAD_Header,
                      pData := some (overwrite (List.replicate L.sizeof_Wii_WAD_Header 0)
                        (f.rewind.read L.sizeof_Wii_WAD_Header).1) },
          ext := none, szFile := (f.rewind.read L.sizeof_Wii_WAD_Header).2.size }) with
    | none => rw [hprobe] at hd; simp at hd
    | some r =>
      rw [hprobe] at hd
      simp only [Option.some_bind] at hd
      split at hd
      · rename_i hneg
        cases hd
        simp at hneg hv
        omega
      · rename_i hr
        have hr0 : 0 ≤ r := by simpa using hr
        split at hd
        · cases hd; simp at hv
        · rename_i hlen1
          split at hd
          · cases hd; simp at hv
          · rename_i hlen2
            have hS : (f.rewind.read L.sizeof_Wii_WAD_Header).1.length =
                L.sizeof_Wii_WAD_Header := by simpa using hlen0
            simp only [ne_eq, not_not] at hlen1 hlen2
            split at hd
            · rename_i hE
              split at hd
              · cases hd
                simp [overwrite, hS, hr0, hE] at hlen1 hlen2 ⊢
                exact ⟨hlen1, hlen2⟩
              · cases hd
                simp [overwrite, hS, hr0, hE] at hlen1 hlen2 ⊢
                exact ⟨hlen1, hlen2⟩
            · rename_i hE
              cases hd
              simp [overwrite, hS, hr0, hE] at hlen1 hlen2 ⊢
              exact ⟨hlen1, hlen2⟩

theorem ctor_valid_of_reads (L : WiiLayout) (E : WiiEnv) (f : IRpFile)
    (hs : ReadsSucceed L f) : ∃ d, WiiWAD L E (some f) = some d ∧ d.isValid = true := by
  obtain ⟨h0, ⟨r, hp, hr⟩, h1, h2⟩ := hs
  simp only [hdrRead, hdrBytes, probeInfo, ticketRead, ticketAddr, tmdRead, tmdAddr] at h0 hp h1 h2
  simp only [WiiWAD, WiiWADPrivate.WiiWADPrivate]
  rw [if_neg (not_not.mpr h0), hp]
  simp only [Option.some_bind]
  have hr2 : ¬ ((!decide (r ≥ 0)) = true) := by simpa using hr
  rw [if_neg hr2, if_neg (not_not.mpr h1), if_neg (not_not.mpr h2)]
  split
  · split
    · exact ⟨_, rfl, by simpa using hr⟩
    · exact ⟨_, rfl, by simpa using hr⟩
  · exact ⟨_, rfl, by simpa using hr⟩

theorem read_length (f : IRpFile) (n : Nat) :
    (f.read n).1.length = if f.isOpen then min n (f.data.length - f.pos) else 0 := by
  unfold IRpFile.read
  split <;> simp

theorem read_snd (f : IRpFile) (n : Nat) :
    (f.read n).2.data = f.data ∧ (f.read n).2.isOpen = f.isOpen := by
  unfold IRpFile.read
  split <;> simp

theorem seekAndRead_length (f : IRpFile) (p n : Nat) :
    (f.seekAndRead p n).1.length = if f.isOpen then min n (f.data.length - p) else 0 := by
  unfold IRpFile.seekAndRead
  split
  · rename_i h; rw [read_length]; simp [h]
  · rfl

theorem seekAndRead_snd (f : IRpFile) (p n : Nat) :
    (f.seekAndRead p n).2.data = f.data ∧ (f.seekAndRead p n).2.isOpen = f.isOpen := by
  unfold IRpFile.seekAndRead
  split
  · exact read_snd _ _
  · exact ⟨rfl, rfl⟩

theorem sampleWad_length : sampleWad.data.length = 2880 := by
  simp only [sampleWad, okHeader, List.length_append, List.length_replicate, List.length_cons,
    List.length_nil]

theorem sampleWad_hdrRead : (hdrRead wiiLayout sampleWad).1 = okHeader := by
  have e : List.take 32 (okHeader ++ List.replicate 2848 0) =
       okHeader := List.take_left' rfl
  simp only [hdrRead, IRpFile.read, IRpFile.rewind, sampleWad, wiiLayout, List.drop_zero, e,
    if_true]

theorem sampleWad_hdrBytes : hdrBytes wiiLayout sampleWad = okHeader := by
  rw [hdrBytes, sampleWad_hdrRead]
  decide

theorem sampleWad_reads : ReadsSucceed wiiLayout sampleWad := by
  have a1 : ticketAddr wiiLayout sampleWad = 64 := by
    rw [ticketAddr, sampleWad_hdrBytes]; decide
  have a2 : tmdAddr wiiLayout sampleWad = 768 := by
    rw [tmdAddr, a1, sampleWad_hdrBytes]; decide
  have d0 : (hdrRead wiiLayout sampleWad).2.data.length = 2880 := by
    rw [hdrRead, (read_snd _ _).1]; exact sampleWad_length
  have o0 : (hdrRead wiiLayout sampleWad).2.isOpen = true := by
    rw [hdrRead, (read_snd _ _).2]; rfl
  refine ⟨?_, ⟨0, ?_, le_refl _⟩, ?_, ?_⟩
  · rw [sampleWad_hdrRead]; rfl
  · have e : (hdrRead wiiLayout sampleWad).2.size = 2880 := by
      simp only [IRpFile.size, o0, d0, if_true]; rfl
    rw [probeInfo, sampleWad_hdrBytes, e]
    decide
  · rw [ticketRead, a1, seekAndRead_length, o0, d0]; decide
  · rw [tmdRead, a2, seekAndRead_length, ticketRead, (seekAndRead_snd _ _ _).1,
      (seekAndRead_snd _ _ _).2, o0, d0]; decide
theorem toNext64_mod_U32 (v : Nat) : toNext64 (v % U32) = toNext64 v := by
  simp only [toNext64_eq, U32]
  omega

/-- The CBC reader of a valid instance: created exactly when the build has
decryption and the key verifies, with the values the constructor computes. -/
theorem ctor_cbcReader (L : WiiLayout) (E : WiiEnv) (f : IRpFile) (d : WiiWADPrivate)
    (hd : WiiWAD L E (some f) = some d) (hv : d.isValid = true) :
    d.cbcReader =
      if keyStatus E = KeyManager.VerifyResult.VERIFY_OK then
        some { file := (tmdRead L f).2, offset := dataAddr L f,
               length := be32_to_cpu (member (hdrBytes L f) L.off_data_size 4),
               key := E.aesCbcDecrypt (commonKey E)
                 (member (ticketRead L f).1 L.off_ticket_title_id 8 ++ List.replicate 8 0)
                 (member (ticketRead L f).1 L.off_enc_title_key 16),
               iv := List.replicate 16 0 }
      else none := by
  simp only [WiiWAD, WiiWADPrivate.WiiWADPrivate] at hd
  simp only [hdrBytes, ticketRead, tmdRead, ticketAddr, tmdAddr, dataAddr,
    hdrRead, keyStatus, commonKey]
  split at hd
  · cases hd; simp at hv
  · rename_i hlen0
    cases hprobe : isRomSupported_static L (some
        { header := { addr := 0, size := L.sizeof_Wii_WAD_Header,
                      pData := some (overwrite (List.replicate L.sizeof_Wii_WAD_Header 0)
                        (f.rewind.read L.sizeof_Wii_WAD_Header).1) },
          ext := none, szFile := (f.rewind.read L.sizeof_Wii_WAD_Header).2.size }) with
    | none => rw [hprobe] at hd; simp at hd
    | some r =>
      rw [hprobe] at hd
      simp only [Option.some_bind] at hd
      split at hd
      · rename_i hneg
        cases hd
        simp at hneg hv
        omega
      · rename_i hr
        have hr0 : 0 ≤ r := by simpa using hr
        split at hd
        · cases hd; simp at hv
        · rename_i hlen1
          split at hd
          · cases hd; simp at hv
          · rename_i hlen2
            have hS : (f.rewind.read L.sizeof_Wii_WAD_Header).1.length =
                L.sizeof_Wii_WAD_Header := by simpa using hlen0
            split at hd
            · rename_i hE
              split at hd
              · rename_i hok
                cases hd
                simp only [hE, if_true] at hok ⊢
                simp [overwrite, hS, hok]
              · rename_i hok
                cases hd
                simp only [hE, if_true] at hok ⊢
                simp [hok]
            · rename_i hE
              cases hd
              simp [hE]

/-- The running sums of the constructor are the round-ups of the previous ends. -/
theorem running_sum_eq (h c t m : Nat) :
    (toNext64 h + toNext64 c) % U32 = ticketStart h c ∧
    ((toNext64 h + toNext64 c) % U32 + toNext64 t) % U32 = tmdStart h c t ∧
    (((toNext64 h + toNext64 c) % U32 + toNext64 t) % U32 + toNext64 m) % U32 =
      dataStart h c t m := by
  have e1 : (toNext64 h + toNext64 c) % U32 = ticketStart h c := by
    rw [ticketStart, certStart, Nat.zero_add, toNext64_mod_U32 h, toNext64_add]
  have e2 : (ticketStart h c + toNext64 t) % U32 = tmdStart h c t := by
    rw [tmdStart]
    exact toNext64_add _ t
  have e3 : (tmdStart h c t + toNext64 m) % U32 = dataStart h c t m := by
    rw [dataStart]
    exact toNext64_add _ m
  refine ⟨e1, ?_, ?_⟩
  · rw [e1, e2]
  · rw [e1, e2, e3]

/-- C4: in a valid instance the constructor has read the ticket at
`ticketStart`, the TMD header at `tmdStart`, and gives the CBC reader (when it
creates one) the offset `dataStart`, where each start is the previous end
rounded up by `toNext64` in 32-bit arithmetic and `h`, `c`, `t`, `m` are the
big-endian `header_size`, `cert_chain_size`, `ticket_size` and `tmd_size`;
every one of the four offsets is a multiple of 64. Each start is the round-up
of the previous end in the sense of `IsRoundUp64`: a multiple of 64 that,
whenever the previous end is at most `2^32 - 64`, is the smallest multiple of
64 at or above the previous end and less than 64 above it, and that is 0 when
the 32-bit sum wraps. -/
theorem ctor_section_offsets (L : WiiLayout) (E : WiiEnv) (f : IRpFile) (d : WiiWADPrivate)
    (h c t m : Nat)
    (hd : WiiWAD L E (some f) = some d) (hv : d.isValid = true)
    (hh : h = be32_to_cpu (member d.wadHeader L.off_header_size 4))
    (hc : c = be32_to_cpu (member d.wadHeader L.off_cert_chain_size 4))
    (ht : t = be32_to_cpu (member d.wadHeader L.off_ticket_size 4))
    (hm : m = be32_to_cpu (member d.wadHeader L.off_tmd_size 4)) :
    d.ioLog.take 5 =
      [IoEvent.rewind, IoEvent.read L.sizeof_Wii_WAD_Header, IoEvent.size,
       IoEvent.seekAndRead (ticketStart h c) L.sizeof_RVL_Ticket,
       IoEvent.seekAndRead (tmdStart h c t) L.sizeof_RVL_TMD_Header] ∧
    (∀ r, d.cbcReader = some r → r.offset = dataStart h c t m) ∧
    certStart h % 64 = 0 ∧ ticketStart h c % 64 = 0 ∧ tmdStart h c t % 64 = 0 ∧
      dataStart h c t m % 64 = 0 ∧
    IsRoundUp64 ((0 + h) % U32) (certStart h) ∧
    IsRoundUp64 ((certStart h + c) % U32) (ticketStart h c) ∧
    IsRoundUp64 ((ticketStart h c + t) % U32) (tmdStart h c t) ∧
    IsRoundUp64 ((tmdStart h c t + m) % U32) (dataStart h c t m) := by
  obtain ⟨-, hw, -, -, -, -, -, hlog, hcbc⟩ := ctor_valid_inv L E f d hd hv
  obtain ⟨e1, e2, e3⟩ := running_sum_eq h c t m
  have a1 : ticketAddr L f = ticketStart h c := by
    rw [ticketAddr, ← hw, ← hh, ← hc, e1]
  have a2 : tmdAddr L f = tmdStart h c t := by
    rw [tmdAddr, a1, ← hw, ← ht, ← e1, e2]
  have a3 : dataAddr L f = dataStart h c t m := by
    rw [dataAddr, a2, ← hw, ← hm, ← e2, e3]
  have hU : 0 < U32 := by unfold U32; norm_num
  refine ⟨?_, ?_, toNext64_mod64 _, toNext64_mod64 _, toNext64_mod64 _, toNext64_mod64 _,
    toNext64_isRoundUp _ (Nat.mod_lt _ hU), toNext64_isRoundUp _ (Nat.mod_lt _ hU),
    toNext64_isRoundUp _ (Nat.mod_lt _ hU), toNext64_isRoundUp _ (Nat.mod_lt _ hU)⟩
  · rw [hlog, a1, a2]
  · intro r hr
    rw [hcbc r hr, a3]

/-- Witness for C4: the constructor on `sampleWad` (header 32 bytes, no
certificate chain, ticket 676 bytes, TMD 484 bytes) with a verified key reads
the ticket at 64 and the TMD header at 768 and gives the CBC reader the offset
1280: the ends 32, 64, 740 and 1252 rounded up. -/
theorem ctor_section_offsets_witness :
    ∃ d, WiiWAD wiiLayout okKeyEnv (some sampleWad) = some d ∧ d.isValid = true ∧
      d.ioLog.take 5 =
        [IoEvent.rewind, IoEvent.read 32, IoEvent.size,
         IoEvent.seekAndRead 64 676, IoEvent.seekAndRead 768 484] ∧
      (∃ r, d.cbcReader = some r ∧ r.offset = 1280) ∧
      IsRoundUp64 32 64 ∧ IsRoundUp64 64 64 ∧ IsRoundUp64 740 768 ∧ IsRoundUp64 1252 1280 := by
  obtain ⟨d, hd, hv⟩ := ctor_valid_of_reads wiiLayout okKeyEnv sampleWad sampleWad_reads
  obtain ⟨-, hw, -⟩ := ctor_valid_inv wiiLayout okKeyEnv sampleWad d hd hv
  have hw2 : d.wadHeader = okHeader := hw.trans sampleWad_hdrBytes
  obtain ⟨hlog, hoff, -, -, -, -, r0, r1, r2, r3⟩ :=
    ctor_section_offsets wiiLayout okKeyEnv sampleWad d 32 0 676 484 hd hv
      (by rw [hw2]; decide) (by rw [hw2]; decide) (by rw [hw2]; decide) (by rw [hw2]; decide)
  have s0 : certStart 32 = 64 := by decide
  have s1 : ticketStart 32 0 = 64 := by decide
  have s2 : tmdStart 32 0 676 = 768 := by decide
  have s3 : dataStart 32 0 676 484 = 1280 := by decide
  have hsome : d.cbcReader.isSome = true := by
    rw [ctor_cbcReader wiiLayout okKeyEnv sampleWad d hd hv]
    rfl
  rw [s1, s2] at hlog
  rw [s3] at hoff
  rw [s0] at r0
  rw [s0, s1] at r1
  rw [s1, s2] at r2
  rw [s2, s3] at r3
  refine ⟨d, hd, hv, hlog, ?_, r0, r1, r2, r3⟩
  cases hr : d.cbcReader with
  | none => rw [hr] at hsome; exact absurd hsome (by decide)
  | some r => exact ⟨r, rfl, hoff r hr⟩

end Ctor

section WiiFields

open WiiWADPrivate WiiWAD KeyManager

/-- The text of the warning field for a key status. -/
theorem warning_text (E : WiiEnv) (ks : VerifyResult) :
    (match E.verifyResultToString ks with
      | some err => err
      | none => C_ "WiiWAD" "Unknown error. (THIS IS A BUG!)") =
    (E.verifyResultToString ks).getD "Unknown error. (THIS IS A BUG!)" := by
  cases E.verifyResultToString ks <;> rfl

/-- On a valid, open, not yet loaded instance without a verified key,
`loadFieldData` adds the warning field and returns 1. -/
theorem loadFieldData_warning (L : WiiLayout) (E : WiiEnv) (d : WiiWADPrivate) (f : IRpFile)
    (hnl : d.fields.fields = []) (hf : d.file = some f) (ho : f.isOpen = true)
    (hv : d.isValid = true) (hk : d.key_status ≠ VerifyResult.VERIFY_OK) :
    loadFieldData L E d =
      (1, { d with fields := { d.fields with fields :=
        [{ name := "Warning", tabIdx := d.fields.tabIdx,
           data := FieldData.string
             ((E.verifyResultToString d.key_status).getD "Unknown error. (THIS IS A BUG!)")
             RomFields.STRF_WARNING }] } }) := by
  have e1 : d.fields.isDataLoaded = false := by simp [RomFields.isDataLoaded, hnl]
  have e2 : (d.file.isNone || !(d.file.any (·.isOpen))) = false := by simp [hf, ho]
  have e3 : (!d.isValid) = false := by simp [hv]
  unfold loadFieldData
  rw [e1, e2, e3]
  simp only [Bool.false_eq_true, if_false, ne_eq, hk, not_false_eq_true, if_true, warning_text,
    RomFields.reserve, RomFields.addField_string, RomFields.count, C_, hnl, List.nil_append,
    List.length_singleton, Nat.cast_one]
  cases E.verifyResultToString d.key_status <;> rfl

/-- Once the collection holds a field, `loadFieldData` returns 0 and changes
nothing. -/
theorem loadFieldData_loaded (L : WiiLayout) (E : WiiEnv) (d : WiiWADPrivate)
    (h : d.fields.fields ≠ []) : loadFieldData L E d = (0, d) := by
  have e : d.fields.isDataLoaded = true := by
    cases hfl : d.fields.fields with
    | nil => exact absurd hfl h
    | cons a t => simp [RomFields.isDataLoaded, hfl]
  simp [loadFieldData, e]

theorem reads_isOpen (L : WiiLayout) (hL : L.WellFormed) (f : IRpFile)
    (hs : ReadsSucceed L f) : f.isOpen = true := by
  obtain ⟨h0, -⟩ := hs
  obtain ⟨-, -, -, -, o1, -⟩ := hL
  rw [hdrRead, read_length] at h0
  by_contra hc
  have : f.rewind.isOpen = false := by simpa [IRpFile.rewind] using hc
  rw [this] at h0
  simp at h0
  omega

theorem tmdRead_isOpen (L : WiiLayout) (f : IRpFile) :
    (tmdRead L f).2.isOpen = f.isOpen := by
  rw [tmdRead, (seekAndRead_snd _ _ _).2, ticketRead, (seekAndRead_snd _ _ _).2, hdrRead,
    (read_snd _ _).2]
  rfl

/-- C6: when the header read, the probe, the ticket read and the TMD header
read succeed, the instance is valid whatever the key lookup answers; and when
the key status is not `VERIFY_OK`, the first `loadFieldData` call returns 1 and
the collection then holds exactly one field, the string field "Warning" with
the `STRF_WARNING` flag (so no Title ID, Game ID or IOS Version field). -/
theorem missing_key_nonfatal (L : WiiLayout) (hL : L.WellFormed) (E : WiiEnv) (f : IRpFile)
    (hs : ReadsSucceed L f) (hk : keyStatus E ≠ VerifyResult.VERIFY_OK) :
    (∀ E2 : WiiEnv, ∃ d2, WiiWAD L E2 (some f) = some d2 ∧ d2.isValid = true) ∧
    ∃ d, WiiWAD L E (some f) = some d ∧ d.isValid = true ∧ d.key_status = keyStatus E ∧
      d.fields.fields = [] ∧
      (loadFieldData L E d).1 = 1 ∧
      (loadFieldData L E d).2.fields.fields =
        [{ name := "Warning", tabIdx := 0,
           data := FieldData.string
             ((E.verifyResultToString (keyStatus E)).getD "Unknown error. (THIS IS A BUG!)")
             RomFields.STRF_WARNING }] ∧
      ∀ fld ∈ (loadFieldData L E d).2.fields.fields,
        fld.name ≠ "Title ID" ∧ fld.name ≠ "Game ID" ∧ fld.name ≠ "IOS Version" := by
  refine ⟨fun E2 => ctor_valid_of_reads L E2 f hs, ?_⟩
  obtain ⟨d, hd, hv⟩ := ctor_valid_of_reads L E f hs
  obtain ⟨-, -, -, -, hfile, hfields, hks, -, -⟩ := ctor_valid_inv L E f d hd hv
  have ho : (tmdRead L f).2.isOpen = true := by
    rw [tmdRead_isOpen]; exact reads_isOpen L hL f hs
  have hnl : d.fields.fields = [] := by rw [hfields]; rfl
  have htab : d.fields.tabIdx = 0 := by rw [hfields]; rfl
  have hk2 : d.key_status ≠ VerifyResult.VERIFY_OK := by rw [hks]; exact hk
  have e := loadFieldData_warning L E d _ hnl hfile ho hv hk2
  refine ⟨d, hd, hv, hks, hnl, ?_, ?_, ?_⟩
  · rw [e]
  · rw [e, htab, hks]
  · intro fld hfld
    rw [e] at hfld
    simp only [List.mem_singleton] at hfld
    rw [hfld]
    exact ⟨by show "Warning" ≠ "Title ID"; decide, by show "Warning" ≠ "Game ID"; decide,
      by show "Warning" ≠ "IOS Version"; decide⟩

/-- Witness for C6: `sampleWad` with a key lookup that reports a wrong key. -/
theorem missing_key_nonfatal_witness :
    ∃ d, WiiWAD wiiLayout wrongKeyEnv (some sampleWad) = some d ∧ d.isValid = true ∧
      (loadFieldData wiiLayout wrongKeyEnv d).1 = 1 := by
  obtain ⟨d, hd, hv, -, -, h1, -⟩ :=
    (missing_key_nonfatal wiiLayout (by decide) wrongKeyEnv sampleWad sampleWad_reads
      (by decide)).2
  exact ⟨d, hd, hv, h1⟩

/-- C7 (as stated, refuted): with a wrong master key the instance built from
`sampleWad` is valid, and after `loadFieldData` no field is named "Title ID". -/
theorem wrong_key_no_title_id :
    ∃ d, WiiWAD wiiLayout wrongKeyEnv (some sampleWad) = some d ∧ d.isValid = true ∧
      ¬ ∃ fld ∈ (loadFieldData wiiLayout wrongKeyEnv d).2.fields.fields,
          fld.name = "Title ID" := by
  obtain ⟨d, hd, hv⟩ := ctor_valid_of_reads wiiLayout wrongKeyEnv sampleWad sampleWad_reads
  obtain ⟨-, -, -, -, hfile, hfields, hks, -, -⟩ :=
    ctor_valid_inv wiiLayout wrongKeyEnv sampleWad d hd hv
  have ho : (tmdRead wiiLayout sampleWad).2.isOpen = true := by
    rw [tmdRead_isOpen]; rfl
  have hnl : d.fields.fields = [] := by rw [hfields]; rfl
  have hk2 : d.key_status ≠ VerifyResult.VERIFY_OK := by rw [hks]; decide
  refine ⟨d, hd, hv, ?_⟩
  rw [loadFieldData_warning wiiLayout wrongKeyEnv d _ hnl hfile ho hv hk2]
  rintro ⟨fld, hfld, hname⟩
  simp only [List.mem_singleton] at hfld
  rw [hfld] at hname
  exact absurd hname (by show "Warning" ≠ "Title ID"; decide)

/-- C7 (amended): with a key status other than `VERIFY_OK`, `loadFieldData` on a
valid, open, not yet loaded instance reports the "Warning" field (a string
flagged `STRF_WARNING`) and nothing else: no field is named "Title ID"; the TMD
header, which holds the title ID, is left as the constructor read it. -/
theorem wrong_key_warning_only (L : WiiLayout) (E : WiiEnv) (d : WiiWADPrivate) (f : IRpFile)
    (hnl : d.fields.fields = []) (hf : d.file = some f) (ho : f.isOpen = true)
    (hv : d.isValid = true) (hk : d.key_status ≠ VerifyResult.VERIFY_OK) :
    (∃ msg, (loadFieldData L E d).2.fields.fields =
      [{ name := "Warning", tabIdx := d.fields.tabIdx,
         data := FieldData.string msg RomFields.STRF_WARNING }]) ∧
    (∀ fld ∈ (loadFieldData L E d).2.fields.fields, fld.name ≠ "Title ID") ∧
    (loadFieldData L E d).2.tmdHeader = d.tmdHeader := by
  rw [loadFieldData_warning L E d f hnl hf ho hv hk]
  refine ⟨⟨_, rfl⟩, ?_, rfl⟩
  intro fld hfld
  simp only [List.mem_singleton] at hfld
  rw [hfld]
  show "Warning" ≠ "Title ID"
  decide

/-- Witness for C7: the instance built from `sampleWad` with a wrong key. -/
theorem wrong_key_warning_only_witness :
    ∃ d, WiiWAD wiiLayout wrongKeyEnv (some sampleWad) = some d ∧
      ∀ fld ∈ (loadFieldData wiiLayout wrongKeyEnv d).2.fields.fields,
        fld.name ≠ "Title ID" := by
  obtain ⟨d, hd, hv⟩ := ctor_valid_of_reads wiiLayout wrongKeyEnv sampleWad sampleWad_reads
  obtain ⟨-, -, -, -, hfile, hfields, hks, -, -⟩ :=
    ctor_valid_inv wiiLayout wrongKeyEnv sampleWad d hd hv
  have ho : (tmdRead wiiLayout sampleWad).2.isOpen = true := by
    rw [tmdRead_isOpen]; rfl
  have hnl : d.fields.fields = [] := by rw [hfields]; rfl
  have hk2 : d.key_status ≠ VerifyResult.VERIFY_OK := by rw [hks]; decide
  exact ⟨d, hd, (wrong_key_warning_only wiiLayout wrongKeyEnv d _ hnl hfile ho hv hk2).2.1⟩

end WiiFields


section LoadFields

open WiiWADPrivate WiiWAD KeyManager

/-- A positive return value of `WiiWAD::loadFieldData` leaves a non-empty
collection. -/
theorem loadFieldData_pos_nonempty (L : WiiLayout) (E : WiiEnv) (d : WiiWADPrivate)
    (h : 0 < (loadFieldData L E d).1) : (loadFieldData L E d).2.fields.fields ≠ [] := by
  unfold loadFieldData at h ⊢
  split_ifs at h ⊢
  · simp at h
  · simp [EBADF] at h
  · simp [ EIO] at h
  · simp [RomFields.addField_string, RomFields.reserve]
  · simp only [RomFields.addField_string, RomFields.reserve]
    split_ifs <;> simp

/-- The return value of `PSP::loadFieldData` is not positive, or it is the number
of fields of the collection it leaves. -/
theorem PSP_loadFieldData_count (E : PSPEnv) (p p1 : PSPPrivate) (n : Int)
    (h : PSP.loadFieldData E p = some (n, p1)) : n ≤ 0 ∨ n = (p1.fields.count : Int) := by
  unfold PSP.loadFieldData at h
  split_ifs at h
  · cases h; left; exact le_refl _
  · cases h; left; decide
  · cases h; left; decide
  · simp only [Option.bind_eq_some] at h
    obtain ⟨iso, -, umd, -, disc, -, heq⟩ := h
    cases heq
    right
    rfl

/-- Once the collection holds a field, `PSP::loadFieldData` returns 0 and changes
nothing. -/
theorem PSP_loadFieldData_loaded (E : PSPEnv) (p : PSPPrivate) (h : p.fields.fields ≠ []) :
    PSP.loadFieldData E p = some (0, p) := by
  have e : p.fields.empty = false := by
    cases hfl : p.fields.fields with
    | nil => exact absurd hfl h
    | cons a t => simp [RomFields.empty, hfl]
  simp [PSP.loadFieldData, e]

/-- C8 (as stated, refuted): on the valid instance built from `sampleWad` the
first `loadFieldData` call returns the count 1 and the second call returns 0. -/
theorem loadFieldData_second_call_differs :
    ∃ d, WiiWAD wiiLayout wrongKeyEnv (some sampleWad) = some d ∧ d.isValid = true ∧
      (loadFieldData wiiLayout wrongKeyEnv d).1 = 1 ∧
      (loadFieldData wiiLayout wrongKeyEnv (loadFieldData wiiLayout wrongKeyEnv d).2).1 = 0 ∧
      (loadFieldData wiiLayout wrongKeyEnv (loadFieldData wiiLayout wrongKeyEnv d).2).1 ≠
        (loadFieldData wiiLayout wrongKeyEnv d).1 := by
  obtain ⟨d, hd, hv⟩ := ctor_valid_of_reads wiiLayout wrongKeyEnv sampleWad sampleWad_reads
  obtain ⟨-, -, -, -, hfile, hfields, hks, -, -⟩ :=
    ctor_valid_inv wiiLayout wrongKeyEnv sampleWad d hd hv
  have ho : (tmdRead wiiLayout sampleWad).2.isOpen = true := by
    rw [tmdRead_isOpen]; rfl
  have hnl : d.fields.fields = [] := by rw [hfields]; rfl
  have hk2 : d.key_status ≠ VerifyResult.VERIFY_OK := by rw [hks]; decide
  have e1 := loadFieldData_warning wiiLayout wrongKeyEnv d _ hnl hfile ho hv hk2
  have h1 : (loadFieldData wiiLayout wrongKeyEnv d).1 = 1 := by rw [e1]
  have e2 := loadFieldData_loaded wiiLayout wrongKeyEnv (loadFieldData wiiLayout wrongKeyEnv d).2
    (loadFieldData_pos_nonempty wiiLayout wrongKeyEnv d (by rw [h1]; decide))
  refine ⟨d, hd, hv, h1, by rw [e2], ?_⟩
  rw [e2, h1]
  show (0 : Int) ≠ 1
  decide

/-- C8 (amended): for both handlers, after a `loadFieldData` call that returned a
count `n ≥ 1`, every later call returns 0 and leaves the instance, its field
collection included, as that first call left it. -/
theorem loadFieldData_later_calls (L : WiiLayout) (E : WiiEnv) (d : WiiWADPrivate)
    (EP : PSPEnv) (p p1 : PSPPrivate) (n : Int) :
    (0 < (loadFieldData L E d).1 →
      ∀ k : Nat,
        loadFieldData L E ((fun s => (loadFieldData L E s).2)^[k] (loadFieldData L E d).2) =
          (0, (loadFieldData L E d).2)) ∧
    (PSP.loadFieldData EP p = some (n, p1) → 0 < n →
      ∀ k : Nat,
        (fun r : Option (Int × PSPPrivate) => r.bind fun x => PSP.loadFieldData EP x.2)^[k + 1]
          (some (n, p1)) = some (0, p1)) := by
  constructor
  · intro h k
    have e := loadFieldData_loaded L E _ (loadFieldData_pos_nonempty L E d h)
    have hfix : ∀ j : Nat,
        (fun s => (loadFieldData L E s).2)^[j] (loadFieldData L E d).2 =
          (loadFieldData L E d).2 := by
      intro j
      induction j with
      | zero => rfl
      | succ j ih => rw [Function.iterate_succ_apply', ih, e]
    rw [hfix k, e]
  · intro h hn k
    have hne : p1.fields.fields ≠ [] := by
      rcases PSP_loadFieldData_count EP p p1 n h with h0 | h0
      · omega
      · intro hnil
        rw [h0, RomFields.count, hnil] at hn
        simp at hn
    have e := PSP_loadFieldData_loaded EP p1 hne
    induction k with
    | zero => simpa using e
    | succ k ih => rw [Function.iterate_succ_apply', ih]; simpa using e

set_option maxRecDepth 8000 in
/-- Witness for C8: the instance built from `sampleWad` and the PSP instance
`samplePsp`, whose first calls return 1. -/
theorem loadFieldData_later_calls_witness :
    (∃ d, WiiWAD wiiLayout wrongKeyEnv (some sampleWad) = some d ∧
      loadFieldData wiiLayout wrongKeyEnv (loadFieldData wiiLayout wrongKeyEnv d).2 =
        (0, (loadFieldData wiiLayout wrongKeyEnv d).2)) ∧
    (∃ p1, PSP.loadFieldData pspEnv1 samplePsp = some (1, p1) ∧
      PSP.loadFieldData pspEnv1 p1 = some (0, p1)) := by
  constructor
  · obtain ⟨d, hd, hv⟩ := ctor_valid_of_reads wiiLayout wrongKeyEnv sampleWad sampleWad_reads
    obtain ⟨-, -, -, -, hfile, hfields, hks, -, -⟩ :=
      ctor_valid_inv wiiLayout wrongKeyEnv sampleWad d hd hv
    have ho : (tmdRead wiiLayout sampleWad).2.isOpen = true := by
      rw [tmdRead_isOpen]; rfl
    have hnl : d.fields.fields = [] := by rw [hfields]; rfl
    have hk2 : d.key_status ≠ VerifyResult.VERIFY_OK := by rw [hks]; decide
    have h1 : 0 < (loadFieldData wiiLayout wrongKeyEnv d).1 := by
      rw [loadFieldData_warning wiiLayout wrongKeyEnv d _ hnl hfile ho hv hk2]
      show (0 : Int) < 1
      decide
    exact ⟨d, hd,
      (loadFieldData_later_calls wiiLayout wrongKeyEnv d pspEnv1 samplePsp samplePsp 0).1 h1 0⟩
  · have hsome : ∃ p1, PSP.loadFieldData pspEnv1 samplePsp = some (1, p1) := by
      have h1 : (PSP.loadFieldData pspEnv1 samplePsp).map (·.1) = some 1 := by decide
      cases hr : PSP.loadFieldData pspEnv1 samplePsp with
      | none => rw [hr] at h1; cases h1
      | some r =>
        rw [hr] at h1
        obtain ⟨n, p1⟩ := r
        simp only [Option.map_some', Option.some.injEq] at h1
        exact ⟨p1, by rw [h1]⟩
    obtain ⟨p1, hp1⟩ := hsome
    have h2 :=
      (loadFieldData_later_calls wiiLayout wrongKeyEnv
        (WiiWADPrivate.WiiWADPrivate wiiLayout none) pspEnv1 samplePsp p1 1).2 hp1 (by decide) 0
    exact ⟨p1, hp1, by simpa using h2⟩

end LoadFields

section FailAtomically

open WiiWADPrivate WiiWAD

/-- C9: on an instance whose fields are not loaded, `loadFieldData` of WiiWAD and
of PSP returns `-EBADF` when the file is null or not open, and otherwise `- EIO`
when the instance is not valid; both codes are negative, and the instance after
the call is the instance before it: same field collection and tab names, same
file with the same read position, and no call recorded on a collaborator. -/
theorem loadFieldData_fails_atomically (L : WiiLayout) (E : WiiEnv) (d : WiiWADPrivate)
    (EP : PSPEnv) (p : PSPPrivate) :
    (- EBADF < 0 ∧ - EIO < 0) ∧
    (d.fields.fields = [] → (d.file = none ∨ ∃ f, d.file = some f ∧ f.isOpen = false) →
      loadFieldData L E d = (- EBADF, d)) ∧
    (d.fields.fields = [] → (∃ f, d.file = some f ∧ f.isOpen = true) → d.isValid = false →
      loadFieldData L E d = (- EIO, d)) ∧
    (p.fields.fields = [] → (p.file = none ∨ ∃ f, p.file = some f ∧ f.isOpen = false) →
      PSP.loadFieldData EP p = some (- EBADF, p)) ∧
    (p.fields.fields = [] → (∃ f, p.file = some f ∧ f.isOpen = true) → p.isValid = false →
      PSP.loadFieldData EP p = some (- EIO, p)) := by
  refine ⟨⟨by decide, by decide⟩, ?_, ?_, ?_, ?_⟩
  · intro hnl hf
    have e1 : d.fields.isDataLoaded = false := by simp [RomFields.isDataLoaded, hnl]
    have e2 : (d.file.isNone || !(d.file.any (·.isOpen))) = true := by
      rcases hf with hf | ⟨f, hf, ho⟩
      · simp [hf]
      · simp [hf, ho]
    unfold loadFieldData
    rw [e1, e2]
    simp
  · rintro hnl ⟨f, hf, ho⟩ hv
    have e1 : d.fields.isDataLoaded = false := by simp [RomFields.isDataLoaded, hnl]
    have e2 : (d.file.isNone || !(d.file.any (·.isOpen))) = false := by simp [hf, ho]
    unfold loadFieldData
    rw [e1, e2, hv]
    simp
  · intro hnl hf
    have e1 : (!p.fields.empty) = false := by simp [RomFields.empty, hnl]
    have e2 : (p.file.isNone || !(p.file.any (·.isOpen))) = true := by
      rcases hf with hf | ⟨f, hf, ho⟩
      · simp [hf]
      · simp [hf, ho]
    unfold PSP.loadFieldData
    rw [e1, e2]
    simp
  · rintro hnl ⟨f, hf, ho⟩ hv
    have e1 : (!p.fields.empty) = false := by simp [RomFields.empty, hnl]
    have e2 : (p.file.isNone || !(p.file.any (·.isOpen))) = false := by simp [hf, ho]
    unfold PSP.loadFieldData
    rw [e1, e2, hv]
    simp

/-- Witness for C9: instances without a file, and with an open file but not
valid. -/
theorem loadFieldData_fails_atomically_witness :
    loadFieldData wiiLayout wrongKeyEnv (WiiWADPrivate.WiiWADPrivate wiiLayout none) =
      (- EBADF, WiiWADPrivate.WiiWADPrivate wiiLayout none) ∧
    loadFieldData wiiLayout wrongKeyEnv (WiiWADPrivate.WiiWADPrivate wiiLayout (some sampleWad)) =
      (- EIO, WiiWADPrivate.WiiWADPrivate wiiLayout (some sampleWad)) ∧
    PSP.loadFieldData pspEnv1 { samplePsp with file := none } =
      some (- EBADF, { samplePsp with file := none }) ∧
    PSP.loadFieldData pspEnv1 { samplePsp with isValid := false } =
      some (- EIO, { samplePsp with isValid := false }) :=
  ⟨(loadFieldData_fails_atomically wiiLayout wrongKeyEnv
      (WiiWADPrivate.WiiWADPrivate wiiLayout none) pspEnv1 samplePsp).2.1 rfl (Or.inl rfl),
   (loadFieldData_fails_atomically wiiLayout wrongKeyEnv
      (WiiWADPrivate.WiiWADPrivate wiiLayout (some sampleWad)) pspEnv1 samplePsp).2.2.1 rfl
      ⟨sampleWad, rfl, rfl⟩ rfl,
   (loadFieldData_fails_atomically wiiLayout wrongKeyEnv
      (WiiWADPrivate.WiiWADPrivate wiiLayout none) pspEnv1
      { samplePsp with file := none }).2.2.2.1 rfl (Or.inl rfl),
   (loadFieldData_fails_atomically wiiLayout wrongKeyEnv
      (WiiWADPrivate.WiiWADPrivate wiiLayout none) pspEnv1
      { samplePsp with isValid := false }).2.2.2.2 rfl ⟨_, rfl, rfl⟩ rfl⟩

end FailAtomically

section PspPvd

open PSP

theorem strncmp_eq_zero_iff (pat : List Nat) (hpat : ∀ b ∈ pat, 0 < b ∧ b < 256)
    (s : List Nat) : strncmp s pat pat.length = 0 ↔ asBytes (s.take pat.length) = pat := by
  induction pat generalizing s with
  | nil => simp [strncmp, asBytes]
  | cons a pat ih =>
    have ha := hpat a (List.mem_cons_self _ _)
    have hpat2 : ∀ b ∈ pat, 0 < b ∧ b < 256 := fun b hb => hpat b (List.mem_cons_of_mem _ hb)
    have ea : a % 256 = a := Nat.mod_eq_of_lt ha.2
    cases s with
    | nil =>
      simp only [List.length_cons, strncmp, List.headD_nil, Nat.zero_mod, List.headD_cons, ea,
        List.take_nil, asBytes, List.map_nil]
      have h0 : (0 : Nat) ≠ a := by omega
      rw [if_pos h0]
      constructor
      · intro h; omega
      · intro h; cases h
    | cons b s =>
      simp only [List.length_cons, strncmp, List.headD_cons, ea, List.tail_cons,
        List.take_succ_cons, asBytes, List.map_cons, List.cons.injEq]
      by_cases hb : b % 256 = a
      · have hb0 : ¬ b % 256 = 0 := by omega
        rw [if_neg (not_not.mpr hb), if_neg hb0]
        have := ih hpat2 s
        simp only [asBytes] at this
        rw [this]
        constructor
        · intro h; exact ⟨hb, h⟩
        · intro h; exact h.2
      · rw [if_pos hb]
        constructor
        · intro h; omega
        · intro h; exact absurd h.1 hb

theorem restIsPadding_iff (sysID : List Nat) (p n : Nat) :
    restIsPadding sysID p n = true ↔
      ∀ i, i < n → sysID.getD (p + i) 0 % 256 = 32 ∨ sysID.getD (p + i) 0 % 256 = 0 := by
  induction n generalizing p with
  | zero => simp [restIsPadding]
  | succ n ih =>
    simp only [restIsPadding]
    by_cases hc : sysID.getD p 0 % 256 ≠ 32 ∧ sysID.getD p 0 % 256 ≠ 0
    · rw [if_pos hc]
      constructor
      · intro h; cases h
      · intro h
        have := h 0 (Nat.succ_pos n)
        rw [Nat.add_zero] at this
        omega
    · rw [if_neg hc, ih]
      constructor
      · intro h i hi
        cases i with
        | zero => rw [Nat.add_zero]; omega
        | succ i =>
          have := h i (by omega)
          rw [show p + (i + 1) = p + 1 + i by omega]
          exact this
      · intro h i hi
        have := h (i + 1) (by omega)
        rw [show p + (i + 1) = p + 1 + i by omega] at this
        exact this

theorem forall_drop_iff (l : List Nat) (k : Nat) (P : Nat → Prop) :
    (∀ b ∈ l.drop k, P b) ↔ ∀ i, i < l.length - k → P (l.getD (k + i) 0) := by
  constructor
  · intro h i hi
    apply h
    have hlt : k + i < l.length := by omega
    rw [List.getD_eq_getElem l 0 hlt]
    rw [List.mem_iff_getElem]
    exact ⟨i, by simp; omega, by simp⟩
  · intro h b hb
    rw [List.mem_iff_getElem] at hb
    obtain ⟨i, hi, rfl⟩ := hb
    have hi2 : i < l.length - k := by simpa using hi
    have := h i hi2
    have hlt : k + i < l.length := by omega
    rw [List.getD_eq_getElem l 0 hlt] at this
    simpa using this

/-- C10: `PSP::isRomSupported_static(pvd)` returns 0 or -1; for a descriptor with
a 32-byte system identifier it returns 0 exactly when the first 9 bytes are
`"PSP GAME "` and each of the remaining bytes is a space or a NUL; for a null
descriptor it returns -1. -/
theorem isRomSupported_static_PVD_spec (pvd : Option ISO_Primary_Volume_Descriptor)
    (hlen : ∀ v, pvd = some v → v.sysID.length = sizeof_sysID) :
    (isRomSupported_static_PVD pvd = 0 ∨ isRomSupported_static_PVD pvd = -1) ∧
    (isRomSupported_static_PVD pvd = 0 ↔
      ∃ v, pvd = some v ∧ asBytes (v.sysID.take 9) = PSP_GAME_ ∧
        ∀ b ∈ v.sysID.drop 9, b % 256 = 32 ∨ b % 256 = 0) ∧
    isRomSupported_static_PVD none = -1 := by
  refine ⟨?_, ?_, rfl⟩
  · cases pvd with
    | none => right; rfl
    | some v =>
      simp only [isRomSupported_static_PVD]
      split_ifs <;> simp
  · cases pvd with
    | none =>
      constructor
      · intro h; simp [isRomSupported_static_PVD] at h
      · rintro ⟨v, hv, -⟩; cases hv
    | some v =>
      have hl := hlen v rfl
      have hcmp := strncmp_eq_zero_iff PSP_GAME_ (by decide) v.sysID
      have hpat : PSP_GAME_.length = 9 := rfl
      rw [hpat] at hcmp
      have hpad := restIsPadding_iff v.sysID 9 (sizeof_sysID - 9)
      have hdrop := forall_drop_iff v.sysID 9 (fun b => b % 256 = 32 ∨ b % 256 = 0)
      rw [hl] at hdrop
      simp only [isRomSupported_static_PVD]
      by_cases h9 : strncmp v.sysID PSP_GAME_ 9 = 0
      · rw [if_pos h9]
        simp only [show ¬ ((9 : Int) < 0) by decide, if_false, show (9 : Int).toNat = 9 by rfl]
        by_cases hp : restIsPadding v.sysID 9 (sizeof_sysID - 9) = true
        · rw [if_pos hp]
          constructor
          · intro _
            exact ⟨v, rfl, hcmp.mp h9, hdrop.mpr (hpad.mp hp)⟩
          · intro _; rfl
        · rw [if_neg hp]
          constructor
          · intro h; exact absurd h (by decide)
          · rintro ⟨v2, hv2, -, hall⟩
            cases hv2
            exact absurd (hpad.mpr (hdrop.mp hall)) hp
      · rw [if_neg h9]
        simp only [show ((-1 : Int) < 0) by decide, if_true]
        constructor
        · intro h; exact absurd h (by decide)
        · rintro ⟨v2, hv2, hpre, -⟩
          cases hv2
          exact absurd (hcmp.mpr hpre) h9

/-- Witness for C10: the identifier `"PSP GAME "` padded with spaces is accepted. -/
theorem isRomSupported_static_PVD_spec_witness :
    isRomSupported_static_PVD (some samplePvd) = 0 ↔
      ∃ v, some samplePvd = some v ∧ asBytes (v.sysID.take 9) = PSP_GAME_ ∧
        ∀ b ∈ v.sysID.drop 9, b % 256 = 32 ∨ b % 256 = 0 :=
  (isRomSupported_static_PVD_spec (some samplePvd) (by
    intro v hv
    cases hv
    decide)).2.1

end PspPvd

section PspProbes

open PSP

/-- C11 (the code at the failing input): the system identifier `"PSP GAME"`
followed by 24 NUL bytes, which is "PSP GAME" and then only padding, is
rejected; the same identifier with a space in ninth place is accepted. -/
theorem isRomSupported_static_PVD_rejects_nul_padding :
    isRomSupported_static_PVD (some nulPaddedPvd) = -1 ∧
    nulPaddedPvd.sysID.length = sizeof_sysID ∧
    nulPaddedPvd.sysID.take 8 = [80, 83, 80, 32, 71, 65, 77, 69] ∧
    (∀ b ∈ nulPaddedPvd.sysID.drop 8, b = 32 ∨ b = 0) ∧
    isRomSupported_static_PVD
      (some { sysID := [80, 83, 80, 32, 71, 65, 77, 69] ++ [32] ++ List.replicate 23 0 }) = 0 := by
  refine ⟨by decide, by decide, by decide, by decide, by decide⟩

/-- C12 (the code at the failing input): on a 256-byte window at address 0 that
`CisoPspReader::isDiscSupported_static` rejects, `PSP::isRomSupported_static`
returns 0, not -1. -/
theorem isRomSupported_static_accepts_rejected_header :
    pspEnv1.isDiscSupported_static (List.replicate 256 0) 256 < 0 ∧
    PSP.isRomSupported_static pspEnv1 (some zeroInfo) = 0 := by
  refine ⟨by decide, by decide⟩

/-- Whatever the CISO probe answers, a non-null window of at least 256 bytes at
address 0 gets the result 0. -/
theorem isRomSupported_static_always_zero (E : PSPEnv) (info : DetectInfo) (buf : List Nat)
    (hp : info.header.pData = some buf) (ha : info.header.addr = 0)
    (hs : 256 ≤ info.header.size) : PSP.isRomSupported_static E (some info) = 0 := by
  have hg : ¬ (info.header.addr ≠ 0 ∨ info.header.size < 256) := by
    rw [ha]; omega
  simp only [PSP.isRomSupported_static, hp, if_neg hg]
  split <;> rfl

end PspProbes

section PspCtor

open PSP

theorem overwrite_full (n : Nat) (got : List Nat) (h : got.length = n) :
    overwrite (List.replicate n 0) got = got := by
  simp [overwrite, h]

theorem selectDiscReader_fst (E : PSPEnv) (R : PSPReaders) (f : IRpFile) :
    (selectDiscReader E R (f.rewind.read 256).2 (f.rewind.read 256).1).1 =
      selectedReader E R f := by
  simp only [selectDiscReader, selectedReader]
  split_ifs <;> simp_all

/-- The constructor of PSP marks the instance valid exactly when the chain
succeeds. -/
theorem PSP_ctor_valid_iff (IL : IsoLayout) (E : PSPEnv) (R : PSPReaders)
    (file : Option IRpFile) :
    (PSP IL E R file).isValid = true ↔ ChainSucceeds IL E R file := by
  cases file with
  | none =>
    constructor
    · intro h; simp [PSP, PSPPrivate.PSPPrivate] at h
    · rintro ⟨f, hf, -⟩; cases hf
  | some f =>
    have hsel := selectDiscReader_fst E R f
    simp only [ChainSucceeds, pvdRead, PSP, PSPPrivate.PSPPrivate,
      Option.some.injEq, exists_eq_left', ← hsel]
    generalize selectDiscReader E R (f.rewind.read 256).2 (f.rewind.read 256).1 = sel
    split_ifs <;> simp_all [overwrite_full]

/-- In a valid PSP instance the stored descriptor passed the system-identifier
check, and the three reader members are set. -/
theorem PSP_ctor_valid_members (IL : IsoLayout) (E : PSPEnv) (R : PSPReaders)
    (file : Option IRpFile) (hv : (PSP IL E R file).isValid = true) :
    0 ≤ isRomSupported_static_PVD (some (PSP IL E R file).pvd) ∧
    (PSP IL E R file).file.isSome = true ∧ (PSP IL E R file).discReader.isSome = true ∧
    (PSP IL E R file).isoPartition.isSome = true := by
  cases file with
  | none => simp [PSP, PSPPrivate.PSPPrivate] at hv
  | some f =>
    simp only [PSP, PSPPrivate.PSPPrivate] at hv ⊢
    generalize selectDiscReader E R (f.rewind.read 256).2 (f.rewind.read 256).1 = sel at hv ⊢
    split_ifs at hv ⊢
    simp_all

/-- In an invalid PSP instance the file reference and the two reader members
are null. -/
theorem PSP_ctor_invalid_members (IL : IsoLayout) (E : PSPEnv) (R : PSPReaders)
    (file : Option IRpFile) (hv : (PSP IL E R file).isValid = false) :
    (PSP IL E R file).file = none ∧ (PSP IL E R file).discReader = none ∧
    (PSP IL E R file).isoPartition = none := by
  cases file with
  | none => simp [PSP, PSPPrivate.PSPPrivate]
  | some f =>
    simp only [PSP, PSPPrivate.PSPPrivate] at hv ⊢
    generalize selectDiscReader E R (f.rewind.read 256).2 (f.rewind.read 256).1 = sel at hv ⊢
    split_ifs at hv ⊢ <;> simp_all

/-- C13: the PSP constructor marks the instance valid if and only if every step
of the construction chain succeeds (`ChainSucceeds`); and the descriptor stored
in a valid instance passes the `"PSP GAME "` check of
`PSP::isRomSupported_static(pvd)`. -/
theorem PSP_ctor_valid_iff_chain (IL : IsoLayout) (E : PSPEnv) (R : PSPReaders)
    (file : Option IRpFile) :
    ((PSP IL E R file).isValid = true ↔ ChainSucceeds IL E R file) ∧
    ((PSP IL E R file).isValid = true →
      0 ≤ isRomSupported_static_PVD (some (PSP IL E R file).pvd)) :=
  ⟨PSP_ctor_valid_iff IL E R file, fun hv => (PSP_ctor_valid_members IL E R file hv).1⟩

theorem sampleDisc_length : sampleDisc.data.length = 0x8000 + 2048 := by
  simp only [sampleDisc, samplePvd, PSP_GAME_, List.length_append, List.length_replicate,
    List.length_cons, List.length_nil]

theorem sampleDisc_reader :
    selectedReader pspEnv1 rawReaders sampleDisc =
      { cls := "DiscReader", isOpen := true, data := sampleDisc.data } := by
  have hneg : ¬ (0 ≤ pspEnv1.isDiscSupported_static (sampleDisc.rewind.read 256).1 256 ∧
      (rawReaders.newCisoPspReader (sampleDisc.rewind.read 256).2).isOpen = true) := by
    rintro ⟨h, -⟩
    exact absurd h (by decide)
  rw [selectedReader, if_neg hneg]
  show ({ cls := "DiscReader", isOpen := (sampleDisc.rewind.read 256).2.isOpen,
          data := (sampleDisc.rewind.read 256).2.data } : IDiscReader) = _
  rw [(read_snd _ _).1, (read_snd _ _).2]
  rfl

theorem sampleDisc_pvdRead :
    pvdRead isoLayout pspEnv1 rawReaders sampleDisc =
      List.replicate 8 0 ++ samplePvd.sysID ++ List.replicate 2008 0 := by
  rw [pvdRead, sampleDisc_reader]
  have hlen : (List.replicate 8 0 ++ samplePvd.sysID ++ List.replicate 2008 0).length = 2048 := by
    simp only [samplePvd, PSP_GAME_, List.length_append, List.length_replicate,
      List.length_cons, List.length_nil]
  simp only [IDiscReader.seekAndRead, if_true, isoLayout, sampleDisc]
  rw [List.drop_left' (List.length_replicate _ _)]
  exact List.take_of_length_le (le_of_eq hlen)

theorem sampleDisc_sysID :
    member (pvdRead isoLayout pspEnv1 rawReaders sampleDisc) isoLayout.off_sysID sizeof_sysID =
      samplePvd.sysID := by
  rw [sampleDisc_pvdRead]
  simp only [member, isoLayout, sizeof_sysID]
  rw [List.append_assoc, List.drop_left' (List.length_replicate _ _)]
  exact List.take_left' (by decide)

theorem sampleDisc_chain : ChainSucceeds isoLayout pspEnv1 rawReaders (some sampleDisc) := by
  refine ⟨sampleDisc, rfl, ?_, ?_, ?_, ?_, ?_, ?_⟩
  · have e1 : sampleDisc.rewind.isOpen = true := rfl
    have e2 : sampleDisc.rewind.data = sampleDisc.data := rfl
    have e3 : sampleDisc.rewind.pos = 0 := rfl
    rw [read_length, e1, e2, e3, sampleDisc_length]
    decide
  · rw [sampleDisc_reader]
  · rw [sampleDisc_pvdRead]
    simp only [samplePvd, PSP_GAME_, List.length_append, List.length_replicate,
      List.length_cons, List.length_nil]
    rfl
  · exact le_refl _
  · rw [sampleDisc_sysID]
    decide
  · rfl

/-- Witness for C13: the image `sampleDisc` yields a valid instance. -/
theorem PSP_ctor_valid_iff_chain_witness :
    (PSP isoLayout pspEnv1 rawReaders (some sampleDisc)).isValid = true ∧
    0 ≤ isRomSupported_static_PVD
      (some (PSP isoLayout pspEnv1 rawReaders (some sampleDisc)).pvd) :=
  ⟨(PSP_ctor_valid_iff_chain isoLayout pspEnv1 rawReaders (some sampleDisc)).1.mpr
      sampleDisc_chain,
   (PSP_ctor_valid_iff_chain isoLayout pspEnv1 rawReaders (some sampleDisc)).2
     ((PSP_ctor_valid_iff isoLayout pspEnv1 rawReaders (some sampleDisc)).mpr sampleDisc_chain)⟩

end PspCtor

section NoOpenReader

open WiiWADPrivate WiiWAD

/-- What the WiiWAD constructor leaves in an invalid instance. -/
theorem ctor_invalid_inv (L : WiiLayout) (E : WiiEnv) (file : Option IRpFile)
    (d : WiiWADPrivate) (hd : WiiWAD L E file = some d) (hv : d.isValid = false) :
    d.file = none ∧ d.cbcReader = none := by
  cases file with
  | none =>
    simp only [WiiWAD, WiiWADPrivate.WiiWADPrivate] at hd
    cases hd
    exact ⟨rfl, rfl⟩
  | some f =>
    simp only [WiiWAD, WiiWADPrivate.WiiWADPrivate] at hd
    split at hd
    · cases hd; exact ⟨rfl, rfl⟩
    · cases hprobe : isRomSupported_static L (some
          { header := { addr := 0, size := L.sizeof_Wii_WAD_Header,
                        pData := some (overwrite (List.replicate L.sizeof_Wii_WAD_Header 0)
                          (f.rewind.read L.sizeof_Wii_WAD_Header).1) },
            ext := none, szFile := (f.rewind.read L.sizeof_Wii_WAD_Header).2.size }) with
      | none => rw [hprobe] at hd; simp at hd
      | some r =>
        rw [hprobe] at hd
        simp only [Option.some_bind] at hd
        split at hd
        · cases hd; exact ⟨rfl, rfl⟩
        · rename_i hr
          split at hd
          · cases hd; exact ⟨rfl, rfl⟩
          · split at hd
            · cases hd; exact ⟨rfl, rfl⟩
            · split at hd
              · split at hd
                · cases hd; simp at hr hv; omega
                · cases hd; simp at hr hv; omega
              · cases hd; simp at hr hv; omega

/-- C14: an invalid instance holds no reader. After the WiiWAD constructor
returns with `isValid` false, `file` and `cbcReader` are null; after the PSP
constructor returns with `isValid` false, `file`, `discReader` and
`isoPartition` are null; a valid instance of either handler has a non-null
file reference. -/
theorem invalid_instance_holds_no_reader (L : WiiLayout) (E : WiiEnv)
    (file : Option IRpFile) (d : WiiWADPrivate) (hd : WiiWAD L E file = some d)
    (IL : IsoLayout) (EP : PSPEnv) (R : PSPReaders) (pfile : Option IRpFile) :
    (d.isValid = false → d.file = none ∧ d.cbcReader = none) ∧
    (d.isValid = true → d.file.isSome = true) ∧
    ((PSP.PSP IL EP R pfile).isValid = false →
      (PSP.PSP IL EP R pfile).file = none ∧ (PSP.PSP IL EP R pfile).discReader = none ∧
        (PSP.PSP IL EP R pfile).isoPartition = none) ∧
    ((PSP.PSP IL EP R pfile).isValid = true → (PSP.PSP IL EP R pfile).file.isSome = true) := by
  refine ⟨ctor_invalid_inv L E file d hd, ?_, PSP_ctor_invalid_members IL EP R pfile,
    fun hv => (PSP_ctor_valid_members IL EP R pfile hv).2.1⟩
  intro hv
  cases file with
  | none =>
    simp only [WiiWAD, WiiWADPrivate.WiiWADPrivate] at hd
    cases hd
    simp at hv
  | some f =>
    obtain ⟨-, -, -, -, hfile, -⟩ := ctor_valid_inv L E f d hd hv
    rw [hfile]
    rfl

/-- Witness for C14: the WiiWAD instance built from `sampleWad` is valid and
holds its file; the PSP instance built without a file is invalid and holds
nothing. -/
theorem invalid_instance_holds_no_reader_witness :
    (∃ d, WiiWAD wiiLayout wrongKeyEnv (some sampleWad) = some d ∧ d.file.isSome = true) ∧
    (PSP.PSP isoLayout pspEnv1 rawReaders none).file = none := by
  constructor
  · obtain ⟨d, hd, hv⟩ := ctor_valid_of_reads wiiLayout wrongKeyEnv sampleWad sampleWad_reads
    exact ⟨d, hd,
      (invalid_instance_holds_no_reader wiiLayout wrongKeyEnv (some sampleWad) d hd
        isoLayout pspEnv1 rawReaders none).2.1 hv⟩
  · obtain ⟨d, hd, -⟩ := ctor_valid_of_reads wiiLayout wrongKeyEnv sampleWad sampleWad_reads
    exact ((invalid_instance_holds_no_reader wiiLayout wrongKeyEnv (some sampleWad) d hd
        isoLayout pspEnv1 rawReaders none).2.2.1 rfl).1

end NoOpenReader

section Release

open PSP

set_option maxRecDepth 20000 in
/-- C15 (the code at the failing input): on an open 256-byte file the constructor
creates a `DiscReader`, the read of the volume descriptor is short, and the
constructor returns with `isValid` false after releasing the file only: the
`DiscReader` it created is never released. -/
theorem PSP_ctor_leaks_discReader :
    (PSP isoLayout pspEnv1 rawReaders (some shortDisc)).isValid = false ∧
    (PSP isoLayout pspEnv1 rawReaders (some shortDisc)).ioLog =
      [IoEvent.rewind, IoEvent.read 256, IoEvent.create "DiscReader",
       IoEvent.seekAndRead 0x8000 2048, IoEvent.unref "IRpFile"] ∧
    (PSP isoLayout pspEnv1 rawReaders (some shortDisc)).ioLog.count
      (IoEvent.create "DiscReader") = 1 ∧
    (PSP isoLayout pspEnv1 rawReaders (some shortDisc)).ioLog.count
      (IoEvent.unref "DiscReader") = 0 ∧
    netCount (PSP isoLayout pspEnv1 rawReaders (some shortDisc)).ioLog "DiscReader" = 1 := by
  refine ⟨by decide, by decide, by decide, by decide, by decide⟩

/-- When the icon file object exists but is not open, `loadIcon` returns none
and leaves the icon cache empty. -/
theorem loadIcon_not_open (E : PSPEnv) (d : PSPPrivate) (iso : IsoPartition) (f : IRpFile)
    (hc : d.img_icon = none) (hv : d.isValid = true) (hiso : d.isoPartition = some iso)
    (hf : iso.open_ "/PSP_GAME/ICON0.PNG" = some f) (ho : f.isOpen = false) :
    ∃ d2, PSPPrivate.loadIcon E d = some (none, d2) ∧ d2.img_icon = none := by
  unfold PSPPrivate.loadIcon
  rw [hc]
  simp only [hv, hiso, Bool.not_true, Option.isNone_some, Bool.or_self, Bool.false_eq_true,
    if_false, Option.some_bind, hf, ho, Bool.not_false, if_true]
  exact ⟨_, rfl, rfl⟩

set_option maxRecDepth 8000 in
/-- C17 (the code at the failing input): on the valid instance `samplePsp`, whose
filesystem is open and returns a null file object for `/PSP_GAME/ICON0.PNG`
and whose icon cache is empty, `loadIcon` calls `isOpen()` on the null
pointer: the call has no defined result. -/
theorem loadIcon_null_file_object :
    samplePsp.isValid = true ∧ samplePsp.img_icon = none ∧
    (∃ iso, samplePsp.isoPartition = some iso ∧ iso.isOpen = true ∧
      iso.open_ "/PSP_GAME/ICON0.PNG" = none) ∧
    PSPPrivate.loadIcon pspEnv1 samplePsp = none := by
  refine ⟨rfl, rfl, ⟨sampleIso, rfl, rfl, by decide⟩, ?_⟩
  have h : sampleIso.open_ "/PSP_GAME/ICON0.PNG" = none := by decide
  simp only [PSPPrivate.loadIcon, samplePsp, Bool.not_true, Option.isNone_some, Bool.or_self,
    Bool.false_eq_true, if_false, Option.some_bind, h, Option.none_bind]

end Release

section Names

theorem and_mask3 (t : Nat) : t &&& SYSNAME_TYPE_MASK = t % 4 :=
  Nat.and_pow_two_sub_one_eq_mod t 2

/-- The entry of a four-entry name table at index `type & 3`. -/
theorem sysNames_entry (a b c : String) (t : Nat) :
    (([some a, some b, some c, none] : List (Option String)).get? (t &&& SYSNAME_TYPE_MASK)).join =
      if t % 4 = 0 then some a else if t % 4 = 1 then some b
      else if t % 4 = 2 then some c else none := by
  rw [and_mask3]
  have h : t % 4 < 4 := Nat.mod_lt _ (by decide)
  generalize t % 4 = k at h
  interval_cases k <;> rfl

/-- C18: `systemName` of WiiWAD and of PSP returns none when the instance is
invalid or `isSystemNameTypeValid` rejects the type; otherwise it returns the
table entry at index `type & 3`: "Nintendo Wii", "Wii", "Wii" for WiiWAD and
"Sony PlayStation Portable", "PlayStation Portable", "PSP" for PSP at indices
0, 1, 2 (the entry at index 3 is null), so two accepted types with the same
low two bits get the same name. -/
theorem systemName_spec (ok : Nat → Bool) (w : WiiWADPrivate) (p : PSPPrivate) (type : Nat)
    (ht : type < U32) :
    ((w.isValid = false ∨ ok type = false) → WiiWAD.systemName ok w type = none) ∧
    ((p.isValid = false ∨ ok type = false) → PSP.systemName ok p type = none) ∧
    (w.isValid = true → ok type = true →
      WiiWAD.systemName ok w type =
        ([some "Nintendo Wii", some "Wii", some "Wii", none].get? (type &&& 3)).join ∧
      WiiWAD.systemName ok w type =
        if type % 4 = 0 then some "Nintendo Wii" else if type % 4 = 1 then some "Wii"
        else if type % 4 = 2 then some "Wii" else none) ∧
    (p.isValid = true → ok type = true →
      PSP.systemName ok p type =
        ([some "Sony PlayStation Portable", some "PlayStation Portable", some "PSP",
          none].get? (type &&& 3)).join ∧
      PSP.systemName ok p type =
        if type % 4 = 0 then some "Sony PlayStation Portable"
        else if type % 4 = 1 then some "PlayStation Portable"
        else if type % 4 = 2 then some "PSP" else none) ∧
    (∀ type2, type2 < U32 → ok type = true → ok type2 = true → type2 % 4 = type % 4 →
      WiiWAD.systemName ok w type2 = WiiWAD.systemName ok w type ∧
      PSP.systemName ok p type2 = PSP.systemName ok p type) := by
  have hmod : type % U32 = type := Nat.mod_eq_of_lt ht
  have hw : ∀ t, t < U32 → w.isValid = true → ok t = true →
      WiiWAD.systemName ok w t =
        if t % 4 = 0 then some "Nintendo Wii" else if t % 4 = 1 then some "Wii"
        else if t % 4 = 2 then some "Wii" else none := by
    intro t htl hv hok
    simp only [WiiWAD.systemName, Nat.mod_eq_of_lt htl, hv, hok, Bool.not_true, Bool.or_self,
      Bool.false_eq_true, if_false]
    exact sysNames_entry _ _ _ t
  have hp : ∀ t, t < U32 → p.isValid = true → ok t = true →
      PSP.systemName ok p t =
        if t % 4 = 0 then some "Sony PlayStation Portable"
        else if t % 4 = 1 then some "PlayStation Portable"
        else if t % 4 = 2 then some "PSP" else none := by
    intro t htl hv hok
    simp only [PSP.systemName, Nat.mod_eq_of_lt htl, hv, hok, Bool.not_true, Bool.or_self,
      Bool.false_eq_true, if_false]
    exact sysNames_entry _ _ _ t
  refine ⟨?_, ?_, ?_, ?_, ?_⟩
  · rintro (h | h) <;> simp [WiiWAD.systemName, hmod, h]
  · rintro (h | h) <;> simp [PSP.systemName, hmod, h]
  · intro hv hok
    refine ⟨?_, hw type ht hv hok⟩
    rw [hw type ht hv hok]
    exact (sysNames_entry _ _ _ type).symm
  · intro hv hok
    refine ⟨?_, hp type ht hv hok⟩
    rw [hp type ht hv hok]
    exact (sysNames_entry _ _ _ type).symm
  · intro type2 ht2 hok hok2 hlow
    constructor
    · cases hv : w.isValid with
      | false => simp [WiiWAD.systemName, hv]
      | true => rw [hw type ht hv hok, hw type2 ht2 hv hok2, hlow]
    · cases hv : p.isValid with
      | false => simp [PSP.systemName, hv]
      | true => rw [hp type ht hv hok, hp type2 ht2 hv hok2, hlow]

/-- Witness for C18: type 6 (abbreviation, with the region bit set) names "PSP"
on the valid instance `samplePsp`. -/
theorem systemName_spec_witness :
    6 < U32 ∧ PSP.systemName sampleTypeValid samplePsp 6 = some "PSP" :=
  ⟨by decide,
   ((systemName_spec sampleTypeValid (WiiWADPrivate.WiiWADPrivate wiiLayout none) samplePsp 6
      (by decide)).2.2.2.1 rfl rfl).2.trans (by decide)⟩

/-- C19 (the code as written): the array `WiiWAD::supportedFileExtensions_static`
returns has the single element ".wad"; its last element is not the null
pointer and no element is. The array of PSP ends with the null pointer. -/
theorem supportedFileExtensions_static_not_terminated :
    WiiWAD.supportedFileExtensions_static = [some ".wad"] ∧
    WiiWAD.supportedFileExtensions_static.getLast? = some (some ".wad") ∧
    none ∉ WiiWAD.supportedFileExtensions_static ∧
    (∀ lz4 : Bool, (PSP.supportedFileExtensions_static lz4).getLast? = some none) := by
  refine ⟨rfl, by decide, by decide, ?_⟩
  intro lz4
  cases lz4 <;> decide

end Names

section TitleFields

open WiiWADPrivate WiiWAD KeyManager

/-- The sixteen uppercase hexadecimal digits. -/
theorem hexDigit_mem (digit : Nat) (h : digit < 16) :
    (if digit < 10 then Char.ofNat (48 + digit) else Char.ofNat (55 + digit)) ∈
      ['0', '1', '2', '3', '4', '5', '6', '7', '8', '9', 'A', 'B', 'C', 'D', 'E', 'F'] := by
  interval_cases digit <;> decide

theorem fmt08X_length (v : Nat) : (fmt08X v).length = 8 := by
  simp [fmt08X, String.length]

theorem fmt08X_digits (v : Nat) :
    ∀ c ∈ (fmt08X v).data,
      c ∈ ['0', '1', '2', '3', '4', '5', '6', '7', '8', '9', 'A', 'B', 'C', 'D', 'E', 'F'] := by
  intro c hc
  simp only [fmt08X, List.mem_map, List.mem_range] at hc
  obtain ⟨i, -, rfl⟩ := hc
  exact hexDigit_mem _ (Nat.mod_lt _ (by decide))

/-- The value of each of the sixteen digit characters `%08X` prints. -/
theorem hexDigit_value (digit : Nat) (h : digit < 16) :
    hexDigitValue
      (if digit < 10 then Char.ofNat (48 + digit) else Char.ofNat (55 + digit)) = digit := by
  interval_cases digit <;> decide

/-- The eight digits `%08X` prints denote the 32-bit value printed. -/
theorem fmt08X_value (v : Nat) : hexValue (fmt08X v).data = v % U32 := by
  have e : (fmt08X v).data = (List.range 8).map fun i =>
      (if v % U32 / 16 ^ (7 - i) % 16 < 10 then Char.ofNat (48 + v % U32 / 16 ^ (7 - i) % 16)
       else Char.ofNat (55 + v % U32 / 16 ^ (7 - i) % 16)) := rfl
  have hr : List.range 8 = [0, 1, 2, 3, 4, 5, 6, 7] := by decide
  rw [e, hr]
  simp only [hexValue, List.map, List.foldl]
  rw [hexDigit_value _ (Nat.mod_lt _ (by decide)), hexDigit_value _ (Nat.mod_lt _ (by decide)),
    hexDigit_value _ (Nat.mod_lt _ (by decide)), hexDigit_value _ (Nat.mod_lt _ (by decide)),
    hexDigit_value _ (Nat.mod_lt _ (by decide)), hexDigit_value _ (Nat.mod_lt _ (by decide)),
    hexDigit_value _ (Nat.mod_lt _ (by decide)), hexDigit_value _ (Nat.mod_lt _ (by decide))]
  have hlt : v % U32 < 4294967296 := Nat.mod_lt _ (by decide)
  generalize v % U32 = w at hlt ⊢
  norm_num
  omega

theorem be32_to_cpu_lt (raw : List Nat) : be32_to_cpu raw < U32 := by
  unfold be32_to_cpu U32
  omega

/-- The decimal digit characters. -/
theorem digitChar_decimal (k : Nat) (h : k < 10) :
    (Nat.digitChar k).toNat - 48 = k ∧ (Nat.digitChar k).isDigit = true ∧
      (k ≠ 0 → Nat.digitChar k ≠ '0') := by
  interval_cases k <;> decide

theorem decValue_append (l : List Char) (c : Char) :
    decValue (l ++ [c]) = decValue l * 10 + (c.toNat - 48) := by
  simp [decValue, List.foldl_append]

/-- The digits `Nat.toDigitsCore` puts in front of its accumulator are the
decimal numeral of `n`. -/
theorem toDigitsCore_decimal : ∀ (fuel n : Nat) (ds : List Char), n < fuel →
    ∃ l, Nat.toDigitsCore 10 fuel n ds = l ++ ds ∧ decValue l = n ∧
      (∀ c ∈ l, c.isDigit = true) ∧ l ≠ [] ∧ (0 < n → l.head? ≠ some '0') ∧
      (n = 0 → l = ['0']) := by
  intro fuel
  induction fuel with
  | zero => intro n ds h; omega
  | succ fuel ih =>
    intro n ds h
    obtain ⟨d1, d2, d3⟩ := digitChar_decimal (n % 10) (Nat.mod_lt _ (by decide))
    simp only [Nat.toDigitsCore]
    by_cases h0 : n / 10 = 0
    · rw [if_pos h0]
      refine ⟨[Nat.digitChar (n % 10)], rfl, ?_, ?_, by simp, ?_, ?_⟩
      · simp only [decValue, List.foldl, d1]; omega
      · intro c hc
        rw [List.mem_singleton.mp hc]; exact d2
      · intro hn
        have : n % 10 ≠ 0 := by omega
        simpa using d3 this
      · intro hn; subst hn; rfl
    · rw [if_neg h0]
      obtain ⟨l, e, hv, hd, hne, hh, -⟩ :=
        ih (n / 10) (Nat.digitChar (n % 10) :: ds) (by omega)
      refine ⟨l ++ [Nat.digitChar (n % 10)], ?_, ?_, ?_, by simp, ?_, ?_⟩
      · rw [e]; simp
      · rw [decValue_append, hv, d1]; omega
      · intro c hc
        rcases List.mem_append.mp hc with hc | hc
        · exact hd c hc
        · rw [List.mem_singleton.mp hc]; exact d2
      · intro _
        cases l with
        | nil => exact absurd rfl hne
        | cons a rest => simpa using hh (by omega)
      · intro hn; omega

/-- The `%u` conversion prints the decimal numeral of its argument. -/
theorem fmtU_decimal (n : Nat) :
    IsDecimalNumeral (fmtU n).data ∧ decValue (fmtU n).data = n := by
  have e : (fmtU n).data = Nat.toDigitsCore 10 (n + 1) n [] := rfl
  obtain ⟨l, hl, hv, hd, hne, hh, h0⟩ := toDigitsCore_decimal (n + 1) n [] (by omega)
  rw [List.append_nil] at hl
  rw [e, hl]
  refine ⟨⟨hne, hd, ?_⟩, hv⟩
  intro hz
  by_cases hn : n = 0
  · exact h0 hn
  · exact absurd hz (hh (by omega))

set_option maxRecDepth 100000 in
/-- On every byte value the model's `isalnum` is the alphanumeric test on the
character with that code. -/
theorem isalnum_byte : ∀ k : Fin 256, isalnum k.val = (Char.ofNat k.val).isAlphanum := by
  decide

/-- The model's `isalnum` is the alphanumeric test on the character of the byte. -/
theorem isalnum_eq (b : Nat) : isalnum b = (Char.ofNat (b % 256)).isAlphanum := by
  have e : isalnum b = isalnum (b % 256) := by simp [isalnum]
  rw [e]
  exact isalnum_byte ⟨b % 256, Nat.mod_lt _ (by decide)⟩

theorem isalnum_ne_zero (c : Nat) (h : isalnum c = true) : c % 256 ≠ 0 := by
  intro h0
  simp [isalnum, h0] at h

theorem isalnum_getD_lt (l : List Nat) (i : Nat) (h : isalnum (l.getD i 0) = true) :
    i < l.length := by
  by_contra hlt
  rw [List.getD_eq_default _ _ (by omega)] at h
  exact absurd h (by decide)

/-- The `%.4s` conversion of four alphanumeric bytes keeps all four. -/
theorem fmt4s_alnum (tid : List Nat) (h4 : isalnum (tid.getD 4 0) = true)
    (h5 : isalnum (tid.getD 5 0) = true) (h6 : isalnum (tid.getD 6 0) = true)
    (h7 : isalnum (tid.getD 7 0) = true) :
    fmt4s (tid.drop 4) =
      String.mk ([tid.getD 4 0, tid.getD 5 0, tid.getD 6 0, tid.getD 7 0].map
        fun b => Char.ofNat (b % 256)) := by
  have hlen := isalnum_getD_lt tid 7 h7
  match tid, hlen with
  | a0 :: a1 :: a2 :: a3 :: a4 :: a5 :: a6 :: a7 :: rest, _ =>
    simp only [List.getD_cons_succ, List.getD_cons_zero] at h4 h5 h6 h7
    have n4 := isalnum_ne_zero _ h4
    have n5 := isalnum_ne_zero _ h5
    have n6 := isalnum_ne_zero _ h6
    have n7 := isalnum_ne_zero _ h7
    simp [fmt4s, List.takeWhile, n4, n5, n6, n7]

/-- C20: on a valid, open, not yet loaded WiiWAD instance whose key status is
`VERIFY_OK`, `loadFieldData` adds, in this order, a "Title ID" field whose
value is the 17-character string of the big-endian high word of the TMD title
ID as 8 uppercase hexadecimal digits, '-', and the low word as 8 such digits;
a "Game ID" field holding the bytes `title_id.u8[4..7]` exactly when all four
are alphanumeric characters; and an "IOS Version" field. It returns the number
of fields in the collection, which is 2 or 3. Each half of the Title ID has 8
digits and, read as a hexadecimal numeral, denotes its word. -/
theorem loadFieldData_verify_ok (L : WiiLayout) (E : WiiEnv) (d : WiiWADPrivate) (f : IRpFile)
    (tid : List Nat)
    (hnl : d.fields.fields = []) (hf : d.file = some f) (ho : f.isOpen = true)
    (hv : d.isValid = true) (hk : d.key_status = VerifyResult.VERIFY_OK)
    (htid : tid = member d.tmdHeader L.off_tmd_title_id 8) :
    ∃ ios : String,
      (loadFieldData L E d).2.fields.fields =
        [{ name := "Title ID", tabIdx := d.fields.tabIdx,
           data := FieldData.string
             (fmt08X (be32_to_cpu (member tid 0 4)) ++ "-" ++
               fmt08X (be32_to_cpu (member tid 4 4))) 0 }] ++
        (if (Char.ofNat (tid.getD 4 0 % 256)).isAlphanum = true ∧
            (Char.ofNat (tid.getD 5 0 % 256)).isAlphanum = true ∧
            (Char.ofNat (tid.getD 6 0 % 256)).isAlphanum = true ∧
            (Char.ofNat (tid.getD 7 0 % 256)).isAlphanum = true then
          [{ name := "Game ID", tabIdx := d.fields.tabIdx,
             data := FieldData.string
               (String.mk ([tid.getD 4 0, tid.getD 5 0, tid.getD 6 0, tid.getD 7 0].map
                 fun b => Char.ofNat (b % 256))) 0 }]
         else []) ++
        [{ name := "IOS Version", tabIdx := d.fields.tabIdx,
           data := FieldData.string ios 0 }] ∧
      (fmt08X (be32_to_cpu (member tid 0 4)) ++ "-" ++
        fmt08X (be32_to_cpu (member tid 4 4))).length = 17 ∧
      (∀ c ∈ (fmt08X (be32_to_cpu (member tid 0 4))).data ++
          (fmt08X (be32_to_cpu (member tid 4 4))).data,
        c ∈ ['0', '1', '2', '3', '4', '5', '6', '7', '8', '9', 'A', 'B', 'C', 'D', 'E', 'F']) ∧
      (loadFieldData L E d).1 = ((loadFieldData L E d).2.fields.count : Int) ∧
      ((loadFieldData L E d).1 = 2 ∨ (loadFieldData L E d).1 = 3) ∧
      (loadFieldData L E d).1 ≤ 3 ∧
      (fmt08X (be32_to_cpu (member tid 0 4))).length = 8 ∧
      (fmt08X (be32_to_cpu (member tid 4 4))).length = 8 ∧
      hexValue (fmt08X (be32_to_cpu (member tid 0 4))).data = be32_to_cpu (member tid 0 4) ∧
      hexValue (fmt08X (be32_to_cpu (member tid 4 4))).data = be32_to_cpu (member tid 4 4) := by
  have e1 : d.fields.isDataLoaded = false := by simp [RomFields.isDataLoaded, hnl]
  have e2 : (d.file.isNone || !(d.file.any (·.isOpen))) = false := by simp [hf, ho]
  have e3 : (!d.isValid) = false := by simp [hv]
  have hk2 : ¬ (d.key_status ≠ VerifyResult.VERIFY_OK) := not_not.mpr hk
  have hlen : (fmt08X (be32_to_cpu (member tid 0 4)) ++ "-" ++
      fmt08X (be32_to_cpu (member tid 4 4))).length = 17 := by
    rw [String.length_append, String.length_append, fmt08X_length, fmt08X_length]
    rfl
  have hdig : ∀ c ∈ (fmt08X (be32_to_cpu (member tid 0 4))).data ++
      (fmt08X (be32_to_cpu (member tid 4 4))).data,
      c ∈ ['0', '1', '2', '3', '4', '5', '6', '7', '8', '9', 'A', 'B', 'C', 'D', 'E', 'F'] := by
    intro c hc
    rcases List.mem_append.mp hc with h | h
    · exact fmt08X_digits _ c h
    · exact fmt08X_digits _ c h
  have hv1 : hexValue (fmt08X (be32_to_cpu (member tid 0 4))).data =
      be32_to_cpu (member tid 0 4) := by
    rw [fmt08X_value, Nat.mod_eq_of_lt (be32_to_cpu_lt _)]
  have hv2 : hexValue (fmt08X (be32_to_cpu (member tid 4 4))).data =
      be32_to_cpu (member tid 4 4) := by
    rw [fmt08X_value, Nat.mod_eq_of_lt (be32_to_cpu_lt _)]
  have hl1 := fmt08X_length (be32_to_cpu (member tid 0 4))
  have hl2 := fmt08X_length (be32_to_cpu (member tid 4 4))
  simp only [← isalnum_eq]
  unfold loadFieldData
  rw [e1, e2, e3]
  simp only [Bool.false_eq_true, if_false, hk2, RomFields.reserve, RomFields.addField_string,
    RomFields.count, C_, hnl, List.nil_append, ← htid, Bool.and_eq_true]
  by_cases ha : isalnum (tid.getD 4 0) = true ∧ isalnum (tid.getD 5 0) = true ∧
      isalnum (tid.getD 6 0) = true ∧ isalnum (tid.getD 7 0) = true
  · obtain ⟨h4, h5, h6, h7⟩ := ha
    simp only [h4, h5, h6, h7, and_self, if_true, fmt4s_alnum tid h4 h5 h6 h7]
    split_ifs
    · refine ⟨_, rfl, hlen, hdig, trivial, ?_, ?_, hl1, hl2, hv1, hv2⟩
      · right; simp
      · simp
    · refine ⟨_, rfl, hlen, hdig, trivial, ?_, ?_, hl1, hl2, hv1, hv2⟩
      · right; simp
      · simp
  · have ha2 : ¬ (((isalnum (tid.getD 4 0) = true ∧ isalnum (tid.getD 5 0) = true) ∧
        isalnum (tid.getD 6 0) = true) ∧ isalnum (tid.getD 7 0) = true) := by
      rintro ⟨⟨⟨h4, h5⟩, h6⟩, h7⟩
      exact ha ⟨h4, h5, h6, h7⟩
    simp only [ha, ha2, if_false]
    split_ifs
    · refine ⟨_, rfl, hlen, hdig, trivial, ?_, ?_, hl1, hl2, hv1, hv2⟩
      · left; simp
      · simp
    · refine ⟨_, rfl, hlen, hdig, trivial, ?_, ?_, hl1, hl2, hv1, hv2⟩
      · left; simp
      · simp

set_option maxRecDepth 8000 in
/-- Witness for C20: on `hadeWad`, whose title ID is 00010001-48414445,
`loadFieldData` returns 3 and the fields are "Title ID" `00010001-48414445`,
"Game ID" `HADE` and "IOS Version" `IOS58`; on `slot300Wad`, whose title ID
is 0001ABCD-EF00092F, it returns 2 and there is no "Game ID". -/
theorem loadFieldData_verify_ok_witness :
    (loadFieldData wiiLayout okKeyEnv hadeWad).1 = 3 ∧
    (loadFieldData wiiLayout okKeyEnv hadeWad).2.fields.fields =
      [{ name := "Title ID", tabIdx := 0, data := FieldData.string "00010001-48414445" 0 },
       { name := "Game ID", tabIdx := 0, data := FieldData.string "HADE" 0 },
       { name := "IOS Version", tabIdx := 0, data := FieldData.string "IOS58" 0 }] ∧
    (loadFieldData wiiLayout okKeyEnv slot300Wad).1 = 2 ∧
    (loadFieldData wiiLayout okKeyEnv slot300Wad).2.fields.fields =
      [{ name := "Title ID", tabIdx := 0, data := FieldData.string "0001ABCD-EF00092F" 0 },
       { name := "IOS Version", tabIdx := 0,
         data := FieldData.string "00000001-00000300" 0 }] ∧
    hexValue "00010001".data = 0x00010001 ∧ hexValue "48414445".data = 0x48414445 ∧
    hexValue "0001ABCD".data = 0x0001ABCD ∧ hexValue "EF00092F".data = 0xEF00092F := by
  obtain ⟨ios, -, -, -, hcount, -, -⟩ :=
    loadFieldData_verify_ok wiiLayout okKeyEnv hadeWad sampleWad _ rfl rfl rfl rfl rfl rfl
  have hfields : (loadFieldData wiiLayout okKeyEnv hadeWad).2.fields.fields =
      [{ name := "Title ID", tabIdx := 0, data := FieldData.string "00010001-48414445" 0 },
       { name := "Game ID", tabIdx := 0, data := FieldData.string "HADE" 0 },
       { name := "IOS Version", tabIdx := 0, data := FieldData.string "IOS58" 0 }] := by
    decide
  refine ⟨?_, hfields, by decide, by decide, by decide, by decide, by decide, by decide⟩
  rw [hcount, RomFields.count, hfields]
  rfl

end TitleFields

section Balance

open PSP

theorem selectDiscReader_cases (E : PSPEnv) (R : PSPReaders) (f : IRpFile) (header : List Nat) :
    ((selectDiscReader E R f header).2.1 = "CisoPspReader" ∧
      (selectDiscReader E R f header).2.2 = [IoEvent.create "CisoPspReader"]) ∨
    ((selectDiscReader E R f header).2.1 = "DiscReader" ∧
      (selectDiscReader E R f header).2.2 = [IoEvent.create "DiscReader"]) ∨
    ((selectDiscReader E R f header).2.1 = "DiscReader" ∧
      (selectDiscReader E R f header).2.2 =
        [IoEvent.create "CisoPspReader", IoEvent.unref "CisoPspReader",
         IoEvent.create "DiscReader"]) := by
  simp only [selectDiscReader]
  split_ifs <;> simp

/-- Every early return of the PSP constructor other than the one after a short
read of the volume descriptor releases each reader it created: the net count
of every reader class is zero. -/
theorem PSP_ctor_balanced_unless_short_read (IL : IsoLayout) (E : PSPEnv) (R : PSPReaders)
    (file : Option IRpFile) (hv : (PSP IL E R file).isValid = false)
    (hfull : ∀ f, file = some f → (f.rewind.read 256).1.length = 256 →
      (selectedReader E R f).isOpen = true →
      (pvdRead IL E R f).length = IL.sizeof_ISO_Primary_Volume_Descriptor) :
    ∀ cls ∈ ["CisoPspReader", "DiscReader", "IsoPartition"],
      netCount (PSP IL E R file).ioLog cls = 0 := by
  cases file with
  | none =>
    intro cls _
    simp [PSP, PSPPrivate.PSPPrivate, netCount]
  | some f =>
    have hsel := selectDiscReader_fst E R f
    have hcases := selectDiscReader_cases E R (f.rewind.read 256).2 (f.rewind.read 256).1
    have hfull2 := hfull f rfl
    simp only [pvdRead, ← hsel] at hfull2
    simp only [PSP, PSPPrivate.PSPPrivate] at hv ⊢
    generalize selectDiscReader E R (f.rewind.read 256).2 (f.rewind.read 256).1 = sel
      at hv hcases hfull2 ⊢
    obtain ⟨dr, cls0, log0⟩ := sel
    simp only at hcases hfull2 hv ⊢
    rcases hcases with ⟨rfl, rfl⟩ | ⟨rfl, rfl⟩ | ⟨rfl, rfl⟩
    all_goals split_ifs at hv ⊢
    all_goals try
      (exfalso; rename_i h1 h2 h3; exact h3 (hfull2 (not_not.mp h1) (by simpa using h2)))
    all_goals (
      intro cls hcls
      simp only [List.mem_cons, List.mem_singleton, List.not_mem_nil, or_false] at hcls
      rcases hcls with rfl | rfl | rfl <;>
        simp only [netCount, List.count_cons, List.count_nil, List.nil_append, List.append_assoc,
          List.cons_append, beq_iff_eq, IoEvent.create.injEq, IoEvent.unref.injEq, reduceCtorEq,
          if_false, if_true, String.reduceEq] <;> rfl)

/-- The early return after a short read of the volume descriptor leaves the
selected reader unreleased: the instance is invalid and the net count of the
class that was created for `discReader` is one. -/
theorem PSP_ctor_short_read_leaks (IL : IsoLayout) (E : PSPEnv) (R : PSPReaders) (f : IRpFile)
    (h0 : (f.rewind.read 256).1.length = 256)
    (ho : (selectedReader E R f).isOpen = true)
    (hshort : (pvdRead IL E R f).length ≠ IL.sizeof_ISO_Primary_Volume_Descriptor) :
    (PSP IL E R (some f)).isValid = false ∧
    netCount (PSP IL E R (some f)).ioLog
      (selectDiscReader E R (f.rewind.read 256).2 (f.rewind.read 256).1).2.1 = 1 := by
  have hsel := selectDiscReader_fst E R f
  have hcases := selectDiscReader_cases E R (f.rewind.read 256).2 (f.rewind.read 256).1
  simp only [pvdRead, ← hsel] at hshort ho
  simp only [PSP, PSPPrivate.PSPPrivate]
  generalize selectDiscReader E R (f.rewind.read 256).2 (f.rewind.read 256).1 = sel
    at hcases hshort ho ⊢
  obtain ⟨dr, cls0, log0⟩ := sel
  simp only at hcases hshort ho ⊢
  have ho2 : ¬ ((!dr.isOpen) = true) := by simp [ho]
  rw [if_neg (not_not.mpr h0), if_neg ho2, if_pos hshort]
  rcases hcases with ⟨rfl, rfl⟩ | ⟨rfl, rfl⟩ | ⟨rfl, rfl⟩ <;>
    refine ⟨rfl, ?_⟩ <;>
    simp only [netCount, List.count_cons, List.count_nil, List.nil_append, List.append_assoc,
      List.cons_append, beq_iff_eq, IoEvent.create.injEq, IoEvent.unref.injEq, reduceCtorEq,
      if_false, if_true, String.reduceEq] <;> rfl

end Balance

section IosVersion

open WiiWADPrivate WiiWAD KeyManager

/-- The comparison `sys_version.hi == cpu_to_be32(1)` holds exactly when the
big-endian value of the high word is 1. -/
theorem hi_word_is_one (raw : List Nat) (h : raw.length ≤ 4) :
    asBytes raw = cpu_to_be32 1 ↔ be32_to_cpu raw = 1 := by
  match raw, h with
  | [], _ => simp [asBytes, cpu_to_be32, be32_to_cpu]
  | [a], _ => simp [asBytes, cpu_to_be32, be32_to_cpu]
  | [a, b], _ => simp [asBytes, cpu_to_be32, be32_to_cpu]; omega
  | [a, b, c], _ => simp [asBytes, cpu_to_be32, be32_to_cpu]; omega
  | [a, b, c, e], _ => exact asBytes_eq_cpu_to_be32 _ 1 rfl

/-- The hexadecimal form of an ID never reads "IOS" followed by a number: its
first character is a hexadecimal digit. -/
theorem hex_ne_IOS (a b : Nat) (s : String) : fmt08X a ++ "-" ++ fmt08X b ≠ "IOS" ++ s := by
  intro h
  have h2 := congrArg String.data h
  simp only [String.data_append] at h2
  have hl := fmt08X_length a
  have hd := fmt08X_digits a
  cases hx : (fmt08X a).data with
  | nil => simp [String.length, hx] at hl
  | cons c rest =>
    rw [hx] at h2 hd
    have hc := hd c (List.mem_cons_self _ _)
    have hI : c = 'I' := by
      simp only [List.cons_append, List.append_assoc] at h2
      exact (List.cons.inj h2).1
    subst hI
    revert hc
    decide

/-- C21: on a valid, open, not yet loaded WiiWAD instance whose key status is
`VERIFY_OK`, the last field `loadFieldData` adds is the only "IOS Version"
field; with `hi` and `lo` the big-endian high and low words of the TMD
`sys_version`, its value is "IOS" followed by the decimal value of `lo` if
and only if `hi = 1` and `2 < lo < 0x300`, and for every other `sys_version`
it is `hi` as 8 uppercase hexadecimal digits, '-', and `lo` as 8 such digits.
The decimal part is a decimal numeral (digits only, no leading zero) that
denotes `lo`; each hexadecimal part has 8 digits and denotes its word. -/
theorem loadFieldData_ios_version (L : WiiLayout) (E : WiiEnv) (d : WiiWADPrivate) (f : IRpFile)
    (hi lo : Nat)
    (hnl : d.fields.fields = []) (hf : d.file = some f) (ho : f.isOpen = true)
    (hv : d.isValid = true) (hk : d.key_status = VerifyResult.VERIFY_OK)
    (hhi : hi = be32_to_cpu (member (member d.tmdHeader L.off_sys_version 8) 0 4))
    (hlo : lo = be32_to_cpu (member (member d.tmdHeader L.off_sys_version 8) 4 4)) :
    ∃ (ios : String) (pre : List Field),
      (loadFieldData L E d).2.fields.fields =
        pre ++ [{ name := "IOS Version", tabIdx := d.fields.tabIdx,
                  data := FieldData.string ios 0 }] ∧
      (∀ x ∈ pre, x.name ≠ "IOS Version") ∧
      (ios = "IOS" ++ fmtU lo ↔ hi = 1 ∧ 2 < lo ∧ lo < 0x300) ∧
      (¬ (hi = 1 ∧ 2 < lo ∧ lo < 0x300) → ios = fmt08X hi ++ "-" ++ fmt08X lo) ∧
      (fmt08X hi ++ "-" ++ fmt08X lo).length = 17 ∧
      (∀ c ∈ (fmt08X hi).data ++ (fmt08X lo).data,
        c ∈ ['0', '1', '2', '3', '4', '5', '6', '7', '8', '9', 'A', 'B', 'C', 'D', 'E', 'F']) ∧
      IsDecimalNumeral (fmtU lo).data ∧ decValue (fmtU lo).data = lo ∧
      (fmt08X hi).length = 8 ∧ (fmt08X lo).length = 8 ∧
      hexValue (fmt08X hi).data = hi ∧ hexValue (fmt08X lo).data = lo := by
  have e1 : d.fields.isDataLoaded = false := by simp [RomFields.isDataLoaded, hnl]
  have e2 : (d.file.isNone || !(d.file.any (·.isOpen))) = false := by simp [hf, ho]
  have e3 : (!d.isValid) = false := by simp [hv]
  have hk2 : ¬ (d.key_status ≠ VerifyResult.VERIFY_OK) := not_not.mpr hk
  have hone : asBytes (member (member d.tmdHeader L.off_sys_version 8) 0 4) = cpu_to_be32 1 ↔
      hi = 1 := by
    rw [hhi]
    exact hi_word_is_one _ (by simp [member])
  have hlen : (fmt08X hi ++ "-" ++ fmt08X lo).length = 17 := by
    rw [String.length_append, String.length_append, fmt08X_length, fmt08X_length]
    rfl
  have hdig : ∀ c ∈ (fmt08X hi).data ++ (fmt08X lo).data,
      c ∈ ['0', '1', '2', '3', '4', '5', '6', '7', '8', '9', 'A', 'B', 'C', 'D', 'E', 'F'] := by
    intro c hc
    rcases List.mem_append.mp hc with h | h
    · exact fmt08X_digits _ c h
    · exact fmt08X_digits _ c h
  have hdec := fmtU_decimal lo
  have hv1 : hexValue (fmt08X hi).data = hi := by
    rw [fmt08X_value, Nat.mod_eq_of_lt (by rw [hhi]; exact be32_to_cpu_lt _)]
  have hv2 : hexValue (fmt08X lo).data = lo := by
    rw [fmt08X_value, Nat.mod_eq_of_lt (by rw [hlo]; exact be32_to_cpu_lt _)]
  have hl1 := fmt08X_length hi
  have hl2 := fmt08X_length lo
  unfold loadFieldData
  rw [e1, e2, e3]
  simp only [Bool.false_eq_true, if_false, hk2, RomFields.reserve, RomFields.addField_string,
    C_, hnl, List.nil_append, ← hhi, ← hlo, hone, gt_iff_lt]
  by_cases hc : hi = 1 ∧ 2 < lo ∧ lo < 0x300
  · rw [if_pos hc]
    split_ifs
    · refine ⟨"IOS" ++ fmtU lo, _, rfl, ?_, ⟨fun _ => hc, fun _ => rfl⟩,
        fun hn => absurd hc hn, hlen, hdig, hdec.1, hdec.2, hl1, hl2, hv1, hv2⟩
      intro x hx
      simp only [List.mem_append, List.mem_singleton] at hx
      rcases hx with rfl | rfl
      · show "Title ID" ≠ "IOS Version"; decide
      · show "Game ID" ≠ "IOS Version"; decide
    · refine ⟨"IOS" ++ fmtU lo, _, rfl, ?_, ⟨fun _ => hc, fun _ => rfl⟩,
        fun hn => absurd hc hn, hlen, hdig, hdec.1, hdec.2, hl1, hl2, hv1, hv2⟩
      intro x hx
      simp only [List.mem_singleton] at hx
      subst hx
      show "Title ID" ≠ "IOS Version"; decide
  · rw [if_neg hc]
    split_ifs
    · refine ⟨fmt08X hi ++ "-" ++ fmt08X lo, _, rfl, ?_,
        ⟨fun h => absurd h (hex_ne_IOS hi lo _), fun h => absurd h hc⟩, fun _ => rfl, hlen, hdig,
        hdec.1, hdec.2, hl1, hl2, hv1, hv2⟩
      intro x hx
      simp only [List.mem_append, List.mem_singleton] at hx
      rcases hx with rfl | rfl
      · show "Title ID" ≠ "IOS Version"; decide
      · show "Game ID" ≠ "IOS Version"; decide
    · refine ⟨fmt08X hi ++ "-" ++ fmt08X lo, _, rfl, ?_,
        ⟨fun h => absurd h (hex_ne_IOS hi lo _), fun h => absurd h hc⟩, fun _ => rfl, hlen, hdig,
        hdec.1, hdec.2, hl1, hl2, hv1, hv2⟩
      intro x hx
      simp only [List.mem_singleton] at hx
      subst hx
      show "Title ID" ≠ "IOS Version"; decide

/-- The `sys_version` member of `ios58Wad`. -/
theorem ios58Wad_sys_version :
    member ios58Wad.tmdHeader wiiLayout.off_sys_version 8 = [0, 0, 0, 1, 0, 0, 0, 58] := by
  show ((List.replicate 0x184 0 ++ [0, 0, 0, 1, 0, 0, 0, 58] ++ List.replicate 88 0).drop
    0x184).take 8 = _
  rw [List.append_assoc, List.drop_left' (List.length_replicate _ _)]
  rfl

set_option maxRecDepth 8000 in
/-- Witness for C21: the instance `ios58Wad` (`sys_version` 00000001-0000003A)
shows "IOS58"; at the ends of the range of standard slots, 00000001-00000002
shows `00000001-00000002`, 00000001-000002FF shows "IOS767" and
00000001-00000300 (`slot300Wad`) shows `00000001-00000300`; with the high
word 2 the value is `00000002-0000003A`. -/
theorem loadFieldData_ios_version_witness :
    (∃ (ios : String) (pre : List Field),
      (loadFieldData wiiLayout okKeyEnv ios58Wad).2.fields.fields =
        pre ++ [{ name := "IOS Version", tabIdx := 0, data := FieldData.string ios 0 }] ∧
      ios = "IOS58") ∧
    (loadFieldData wiiLayout okKeyEnv ios58Wad).2.fields.fields.getLast? =
      some { name := "IOS Version", tabIdx := 0, data := FieldData.string "IOS58" 0 } ∧
    (loadFieldData wiiLayout okKeyEnv slot300Wad).2.fields.fields.getLast? =
      some { name := "IOS Version", tabIdx := 0,
             data := FieldData.string "00000001-00000300" 0 } ∧
    (loadFieldData wiiLayout okKeyEnv
      { ios58Wad with tmdHeader :=
          List.replicate 0x184 0 ++ [0, 0, 0, 1, 0, 0, 2, 0xFF] ++ List.replicate 88 0
      }).2.fields.fields.getLast? =
      some { name := "IOS Version", tabIdx := 0, data := FieldData.string "IOS767" 0 } ∧
    (loadFieldData wiiLayout okKeyEnv
      { ios58Wad with tmdHeader :=
          List.replicate 0x184 0 ++ [0, 0, 0, 1, 0, 0, 0, 2] ++ List.replicate 88 0
      }).2.fields.fields.getLast? =
      some { name := "IOS Version", tabIdx := 0,
             data := FieldData.string "00000001-00000002" 0 } ∧
    (loadFieldData wiiLayout okKeyEnv
      { ios58Wad with tmdHeader :=
          List.replicate 0x184 0 ++ [0, 0, 0, 2, 0, 0, 0, 58] ++ List.replicate 88 0
      }).2.fields.fields.getLast? =
      some { name := "IOS Version", tabIdx := 0,
             data := FieldData.string "00000002-0000003A" 0 } := by
  obtain ⟨ios, pre, hfields, -, hiff, -⟩ :=
    loadFieldData_ios_version wiiLayout okKeyEnv ios58Wad sampleWad 1 58 rfl rfl rfl rfl rfl
      (by rw [ios58Wad_sys_version]; rfl) (by rw [ios58Wad_sys_version]; rfl)
  exact ⟨⟨ios, pre, hfields, (hiff.mpr ⟨rfl, by decide, by decide⟩).trans (by decide)⟩,
    by decide, by decide, by decide, by decide, by decide⟩

end IosVersion

section TitleKey

open WiiWADPrivate WiiWAD KeyManager

end TitleKey

section Images

/-- The static size query answers with the 144x80 entry exactly for the icon
type (when the type passes the range check), and with nothing otherwise. -/
theorem supportedImageSizes_static_nonempty_iff (T : ImageTypes) (imageType : Int) :
    (PSP.supportedImageSizes_static T imageType =
        [{ name := none, width := 144, height := 80, index := 0 }] ↔
      T.ASSERT_supportedImageSizes imageType = true ∧ imageType = T.IMG_INT_ICON) ∧
    (PSP.supportedImageSizes_static T imageType = [] ↔
      ¬ (T.ASSERT_supportedImageSizes imageType = true ∧ imageType = T.IMG_INT_ICON)) := by
  unfold PSP.supportedImageSizes_static
  by_cases h1 : T.ASSERT_supportedImageSizes imageType = true <;>
    by_cases h2 : imageType = T.IMG_INT_ICON <;> simp [h1, h2]

/-- On a valid instance the two size queries agree exactly on the types that
are neither the icon nor the media scan (or fail the range check). -/
theorem supportedImageSizes_agree_iff (T : ImageTypes) (d : PSPPrivate) (imageType : Int)
    (hv : d.isValid = true) (hne : T.IMG_INT_ICON ≠ T.IMG_INT_MEDIA) :
    PSP.supportedImageSizes T d imageType = PSP.supportedImageSizes_static T imageType ↔
      (T.ASSERT_supportedImageSizes imageType = false ∨
        (imageType ≠ T.IMG_INT_ICON ∧ imageType ≠ T.IMG_INT_MEDIA)) := by
  unfold PSP.supportedImageSizes PSP.supportedImageSizes_static
  by_cases h1 : T.ASSERT_supportedImageSizes imageType = true
  · by_cases h2 : imageType = T.IMG_INT_ICON
    · subst h2
      simp [h1, hv, hne]
    · by_cases h3 : imageType = T.IMG_INT_MEDIA
      · subst h3
        simp [h1, hv, Ne.symm hne]
      · simp [h1, hv, h2, h3]
  · simp [h1]

/-- C23: on the valid instance `samplePsp`, the size query of the instance
returns no size for `IMG_INT_ICON`, the type whose bit
`supportedImageTypes_static()` sets and for which `supportedImageSizes_static`
returns the 144x80 entry; and it returns the 144x80 entry for `IMG_INT_MEDIA`,
whose bit is not set and for which the static query returns nothing. The two
queries disagree on both types. -/
theorem supportedImageSizes_disagrees_with_static :
    samplePsp.isValid = true ∧
    (PSP.supportedImageTypes_static imageTypes).testBit imageTypes.IMG_INT_ICON.toNat = true ∧
    PSP.supportedImageSizes_static imageTypes imageTypes.IMG_INT_ICON =
      [{ name := none, width := 144, height := 80, index := 0 }] ∧
    PSP.supportedImageSizes imageTypes samplePsp imageTypes.IMG_INT_ICON = [] ∧
    (PSP.supportedImageTypes_static imageTypes).testBit imageTypes.IMG_INT_MEDIA.toNat = false ∧
    PSP.supportedImageSizes_static imageTypes imageTypes.IMG_INT_MEDIA = [] ∧
    PSP.supportedImageSizes imageTypes samplePsp imageTypes.IMG_INT_MEDIA =
      [{ name := none, width := 144, height := 80, index := 0 }] := by
  decide

end Images

section StackBuffer

/-- When the bytes read hold no '|', the search of `loadFieldData` runs into the
bytes the stack held before: a '|' left at an offset behind the terminating
NUL is found. -/
theorem memchr_umdBuf_stale (stack got : List Nat) (p : Nat)
    (hgot : ∀ b ∈ got, b % 256 ≠ 124) (hp : got.length < p) (hp2 : p < 129)
    (hbar : stack.getD p 0 % 256 = 124) :
    ∃ q, memchr (PSP.umdBuf stack got) 124 129 = some q ∧ got.length < q := by
  have hlen : (PSP.umdBuf stack got).length = 129 := by simp [PSP.umdBuf]
  have htake : (PSP.umdBuf stack got).take 129 = PSP.umdBuf stack got :=
    List.take_of_length_le (by omega)
  have hmem : 124 ∈ (PSP.umdBuf stack got).map (· % 256) := by
    rw [List.mem_map]
    refine ⟨stack.getD p 0, ?_, hbar⟩
    simp only [PSP.umdBuf, List.mem_map, List.mem_range]
    refine ⟨p, hp2, ?_⟩
    rw [if_neg (by omega), if_neg (by omega)]
  have hidx := List.indexOf_lt_length.mpr hmem
  refine ⟨((PSP.umdBuf stack got).map (· % 256)).indexOf 124, ?_, ?_⟩
  · unfold memchr
    simp only [List.length_map] at hidx
    simp only [show 124 % 256 = 124 from rfl, htake]
    rw [if_pos hidx]
  · by_contra hle
    have hq : ((PSP.umdBuf stack got).map (· % 256)).indexOf 124 ≤ got.length := by
      omega
    have hget := List.indexOf_get hidx
    simp only [List.get_eq_getElem, List.getElem_map, PSP.umdBuf, List.getElem_range] at hget
    rcases Nat.lt_or_eq_of_le hq with hlt | heq
    · simp only [PSP.umdBuf] at hlt
      rw [if_pos hlt] at hget
      have hm : got.getD
          (List.indexOf 124 (List.map (fun x => x % 256) (List.map
            (fun i => if i < got.length then got.getD i 0
              else if i = got.length then 0 else stack.getD i 0) (List.range 129)))) 0 ∈ got := by
        rw [List.getD_eq_getElem _ _ hlt]
        exact List.getElem_mem _
      exact hgot _ hm hget
    · simp only [PSP.umdBuf] at heq
      rw [if_neg (by omega), if_pos heq] at hget
      simp at hget

/-- The first bytes of `buf` are the bytes read. -/
theorem umdBuf_split (stack got : List Nat) (hlen : got.length ≤ 128) :
    PSP.umdBuf stack got =
      got ++ (List.range (129 - got.length)).map fun j =>
        if j = 0 then 0 else stack.getD (got.length + j) 0 := by
  apply List.ext_getElem
  · simp [PSP.umdBuf]; omega
  · intro i h1 h2
    simp only [PSP.umdBuf, List.getElem_map, List.getElem_range]
    by_cases hi : i < got.length
    · rw [if_pos hi, List.getElem_append_left hi, List.getD_eq_getElem _ _ hi]
    · rw [if_neg hi, List.getElem_append_right (by omega)]
      simp only [List.getElem_map, List.getElem_range]
      by_cases he : i = got.length
      · simp [he]
      · rw [if_neg he, if_neg (by omega)]
        congr 1
        omega

/-- When a '|' is among the bytes read, the search finds the first one, whatever
the stack held. -/
theorem memchr_umdBuf_of_bar (stack got : List Nat) (hlen : got.length ≤ 128)
    (hmem : 124 ∈ got.map (· % 256)) :
    memchr (PSP.umdBuf stack got) 124 129 = some ((got.map (· % 256)).indexOf 124) := by
  have hl : (PSP.umdBuf stack got).length = 129 := by simp [PSP.umdBuf]
  have htake : (PSP.umdBuf stack got).take 129 = PSP.umdBuf stack got :=
    List.take_of_length_le (by omega)
  have hidx := List.indexOf_lt_length.mpr hmem
  simp only [List.length_map] at hidx
  unfold memchr
  simp only [show 124 % 256 = 124 from rfl, htake]
  rw [umdBuf_split stack got hlen, List.map_append, List.indexOf_append_of_mem hmem,
    if_pos (by simp only [List.length_append]; omega)]

set_option maxRecDepth 8000 in
/-- C24: two calls of PSP `loadFieldData` that read the same four bytes `ULJS`
(no '|') from `/UMD_DATA.BIN` and differ only in what the stack held under
`buf` before: with a stack of zeros no "Game ID" field is added; with a stale
'|' at offset 10 a "Game ID" field is added although no '|' was read, and its
value runs over the terminating NUL into the stale bytes. -/
theorem game_id_from_stale_stack :
    staleEnv = { pspEnv1 with stack := staleEnv.stack } ∧
    (noBarIso.open_ "/UMD_DATA.BIN").map (fun f => (f.read 128).1) = some [85, 76, 74, 83] ∧
    124 ∉ [85, 76, 74, 83] ∧
    (PSP.loadFieldData pspEnv1 noBarPsp).map (fun r => r.2.fields.fields) = some [] ∧
    (PSP.loadFieldData staleEnv noBarPsp).map (fun r => r.2.fields.fields) =
      some [{ name := "Game ID", tabIdx := 0,
              data := FieldData.string
                (String.mk ([85, 76, 74, 83, 0, 65, 65, 65, 65, 65].map Char.ofNat)) 0 }] := by
  refine ⟨rfl, by decide, by decide, by decide, by decide⟩

end StackBuffer

section ShellLoad

open RP_ExtractImage

/-- The events `Load` appends when the file is not on a "bad" file system. -/
theorem Load_log (E : ShellEnv) (d : RP_ExtractImage_Private) (name : List Nat) (mode : Nat)
    (hbad : E.isOnBadFS (E.W2U8 name) E.enableThumbnailOnNetworkFS = false) :
    (Load E d name mode).2.log =
      d.log ++ (if d.romData.isSome then [ShellEvent.unrefRomData] else []) ++
        (if E.openRpFile (E.W2U8 name) then
          [ShellEvent.newRpFile, ShellEvent.isOpen, ShellEvent.factoryCreate,
           ShellEvent.unrefFile]
         else
          [ShellEvent.newRpFile, ShellEvent.isOpen, ShellEvent.unrefFile,
           ShellEvent.factoryCreate, ShellEvent.unrefFile]) := by
  unfold Load
  cases hr : d.romData <;> cases ho : E.openRpFile (E.W2U8 name) <;> simp [hbad, ho]

/-- `Load` returns `E_FAIL` exactly when the file is on a "bad" file system and
`S_OK` otherwise, whatever the factory answers. -/
theorem Load_hresult (E : ShellEnv) (d : RP_ExtractImage_Private) (name : List Nat)
    (mode : Nat) :
    ((Load E d name mode).1 = HRESULT.E_FAIL ↔
      E.isOnBadFS (E.W2U8 name) E.enableThumbnailOnNetworkFS = true) ∧
    ((Load E d name mode).1 = HRESULT.S_OK ↔
      E.isOnBadFS (E.W2U8 name) E.enableThumbnailOnNetworkFS = false) := by
  unfold Load
  cases hr : d.romData <;>
    cases hb : E.isOnBadFS (E.W2U8 name) E.enableThumbnailOnNetworkFS <;> simp [hb]

/-- When the file opens, `Load` releases it once, after the factory call. -/
theorem Load_open_path (E : ShellEnv) (d : RP_ExtractImage_Private) (name : List Nat)
    (mode : Nat) (hlog : d.log = [])
    (hbad : E.isOnBadFS (E.W2U8 name) E.enableThumbnailOnNetworkFS = false)
    (hopen : E.openRpFile (E.W2U8 name) = true) :
    usesReleasedFile 0 (Load E d name mode).2.log = false ∧
    (Load E d name mode).2.log.count ShellEvent.unrefFile = 1 := by
  rw [Load_log E d name mode hbad, hlog, hopen]
  cases d.romData <;> exact ⟨rfl, rfl⟩

/-- When the file does not open, `Load` releases it before the factory call
and once more after it. -/
theorem Load_unopened_path (E : ShellEnv) (d : RP_ExtractImage_Private) (name : List Nat)
    (mode : Nat) (hlog : d.log = [])
    (hbad : E.isOnBadFS (E.W2U8 name) E.enableThumbnailOnNetworkFS = false)
    (hopen : E.openRpFile (E.W2U8 name) = false) :
    usesReleasedFile 0 (Load E d name mode).2.log = true ∧
    (Load E d name mode).2.log.count ShellEvent.unrefFile = 2 := by
  rw [Load_log E d name mode hbad, hlog, hopen]
  cases d.romData <;> exact ⟨rfl, rfl⟩

/-- C25: `Load` on a file that is not on a "bad" file system and fails to open
(`noOpenShell`, starting from `freshExtractor`): after `isOpen()` answers
false the code calls `unref()`, then passes the file to
`RomDataFactory::create` and calls `unref()` a second time. One acquisition is
followed by two releases, the factory is given the file after its only
reference is gone (reference count 0), and `Load` returns `S_OK`. -/
theorem Load_unopened_file_released_twice :
    noOpenShell.isOnBadFS (noOpenShell.W2U8 [97]) noOpenShell.enableThumbnailOnNetworkFS = false ∧
    noOpenShell.openRpFile (noOpenShell.W2U8 [97]) = false ∧
    (Load noOpenShell freshExtractor [97] 0).2.log =
      [ShellEvent.newRpFile, ShellEvent.isOpen, ShellEvent.unrefFile,
       ShellEvent.factoryCreate, ShellEvent.unrefFile] ∧
    (Load noOpenShell freshExtractor [97] 0).2.log.count ShellEvent.newRpFile = 1 ∧
    (Load noOpenShell freshExtractor [97] 0).2.log.count ShellEvent.unrefFile = 2 ∧
    usesReleasedFile 0 (Load noOpenShell freshExtractor [97] 0).2.log = true ∧
    usesReleasedFile 0 [ShellEvent.newRpFile, ShellEvent.isOpen, ShellEvent.unrefFile] = false ∧
    usesReleasedFile 0 [ShellEvent.newRpFile, ShellEvent.isOpen, ShellEvent.unrefFile,
      ShellEvent.factoryCreate] = true ∧
    (Load noOpenShell freshExtractor [97] 0).1 = HRESULT.S_OK := by
  decide

end ShellLoad

end LibRomData
